import Mathlib

/-!
Verification of the CRF/DRF document models (src/crf/models.py, src/drf/models.py).

Embedding notes.
Both textual encodings of the source serialize the same Python data tree:
`to_json` emits `model_dump_json(exclude_none=True)` and `to_yaml` emits
`yaml.dump(model_dump(mode="json", exclude_none=True))`, and both decoders
feed the tree parsed back by `json.loads` / `yaml.safe_load` into
`model_validate`. We embed that tree as `JValue` and treat the two
text codecs as faithful transports of it, so encoding is `dump : Model → JValue`
and decoding is `parse : JValue → Except VErr Model`, for each encoding.
UUIDs, datetimes and dates travel in their canonical text form, so they are
carried as strings preserved verbatim; `uuid4` is modelled as an injective
fresh-identifier supply `freshUuid` over a seed, and `datetime.utcnow` as an
explicit `now`/`GenEnv` argument to the operations that stamp it.
Python floats inside a Fact value are carried opaquely by their bit pattern.
pydantic validation errors of every kind are collapsed into `VErr`
(the source surfaces them all as `pydantic.ValidationError`).
-/

/-- The Python data tree produced by `json.loads` / `yaml.safe_load` and by
`model_dump(mode="json")`: None, bool, int, float, str, list, dict. -/
inductive JValue where
  | null
  | bool (b : Bool)
  | int (n : Int)
  | float (bits : Nat)
  | str (s : String)
  | arr (xs : List JValue)
  | obj (kvs : List (String × JValue))

/-- Whether a value is Python `None`. -/
def JValue.isNull : JValue → Bool
  | .null => true
  | _ => false

/-- The pydantic `ValidationError` kinds the models raise. -/
inductive VErr where
  | missing (field : String)
  | wrongType (field : String)
  | outOfRange (field : String)
  | invalidEnum (tok : String)
  | unionNoMatch

/-- The impure default factories of the source (`uuid4`, `datetime.utcnow`)
made explicit: the current time and a fresh seed for identifier generation. -/
structure GenEnv where
  now : String
  seed : Nat

/-- Models `uuid4()` as an injective supply of fresh identifier strings. -/
def freshUuid (n : Nat) : String := String.mk (List.replicate (n + 1) 'u')

theorem freshUuid_inj {m n : Nat} (h : freshUuid m = freshUuid n) : m = n := by
  have hlen := congrArg (fun s => s.data.length) h
  simpa [freshUuid] using hlen

/-- str-typed field validation. -/
def asStr : JValue → Except VErr String
  | .str s => .ok s
  | _ => .error (.wrongType "str")

/-- int-typed field validation (bool is not an int to pydantic). -/
def asInt : JValue → Except VErr Int
  | .int n => .ok n
  | _ => .error (.wrongType "int")

/-- bool-typed field validation. -/
def asBool : JValue → Except VErr Bool
  | .bool b => .ok b
  | _ => .error (.wrongType "bool")

/-- dict[str, Any]-typed field validation: the payload is carried verbatim. -/
def asDict : JValue → Except VErr (List (String × JValue))
  | .obj kvs => .ok kvs
  | _ => .error (.wrongType "dict")

/-- Inclusive bounds of a `Field(ge=…, le=…)` declaration. -/
def inRange (lo hi : Option Int) (n : Int) : Bool :=
  lo.all (fun l => decide (l ≤ n)) && hi.all (fun u => decide (n ≤ u))

/-- Bounded-int field validation (`Field(ge=…, le=…)`). -/
def asIntRange (nm : String) (lo hi : Option Int) (v : JValue) : Except VErr Int := do
  let n ← asInt v
  if inRange lo hi n then .ok n else .error (.outOfRange nm)

/-- Length bounds of a `Field(min_length=…, max_length=…)` declaration. -/
def strLenOk (lo : Nat) (hi : Option Nat) (s : String) : Bool :=
  decide (lo ≤ s.length) && hi.all (fun u => decide (s.length ≤ u))

/-- Length-bounded str field validation. -/
def asStrLen (nm : String) (lo : Nat) (hi : Option Nat) (v : JValue) : Except VErr String := do
  let s ← asStr v
  if strLenOk lo hi s then .ok s else .error (.outOfRange nm)

/-- The external email-validator of `EmailStr`, abstracted to its observable
contract here: acceptance is a syntactic check on the string. -/
def emailOk (s : String) : Bool := s.data.contains '@'

/-- EmailStr field validation. -/
def asEmail (v : JValue) : Except VErr String := do
  let s ← asStr v
  if emailOk s then .ok s else .error (.wrongType "email")

/-- Enum field validation from a string token. -/
def asEnum (p : String → Option α) (v : JValue) : Except VErr α := do
  let s ← asStr v
  match p s with
  | some e => .ok e
  | none => .error (.invalidEnum s)

/-- Nested-model field validation: the value must be a dict. -/
def asObj (f : List (String × JValue) → Except VErr α) : JValue → Except VErr α
  | .obj kvs => f kvs
  | _ => .error (.wrongType "object")

/-- Elementwise validation of a list value. -/
def exList (f : JValue → Except VErr α) : List JValue → Except VErr (List α)
  | [] => .ok []
  | v :: vs => do
    let x ← f v
    let xs ← exList f vs
    .ok (x :: xs)

/-- list-typed field validation. -/
def asArr (f : JValue → Except VErr α) : JValue → Except VErr (List α)
  | .arr xs => exList f xs
  | _ => .error (.wrongType "list")

/-- The `str | int | float | bool | dict[str, Any]` union of `FactAttributes.value`.
Python floats are carried opaquely by bit pattern (`JValue.float`). -/
inductive FactValue where
  | s (v : String)
  | i (v : Int)
  | f (bits : Nat)
  | b (v : Bool)
  | m (kvs : List (String × JValue))

/-- Serialization of a Fact value (each member serializes as itself). -/
def FactValue.dump : FactValue → JValue
  | .s v => .str v
  | .i v => .int v
  | .f bits => .float bits
  | .b v => .bool v
  | .m kvs => .obj kvs

/-- Smart-union validation of a Fact value: each tree constructor matches
exactly one member of the annotation, so selection is constructor-directed. -/
def asFactValue : JValue → Except VErr FactValue
  | .str v => .ok (.s v)
  | .int v => .ok (.i v)
  | .float bits => .ok (.f bits)
  | .bool v => .ok (.b v)
  | .obj kvs => .ok (.m kvs)
  | _ => .error (.wrongType "value")

theorem FactValue.parse_dump (x : FactValue) : asFactValue x.dump = .ok x := by
  cases x <;> rfl

theorem FactValue.dump_not_null (x : FactValue) : x.dump.isNull = false := by
  cases x <;> rfl

/-- One emitted key-value pair of an `exclude_none` dump: present fields emit
their pair, absent (`None`) fields are omitted. -/
def oField (k : String) : Option JValue → List (String × JValue)
  | none => []
  | some v => [(k, v)]

/-- Optional-field validation: an absent key or an explicit null yields `None`. -/
def pOpt (w : Option JValue) (f : JValue → Except VErr α) : Except VErr (Option α) :=
  match w with
  | none => .ok none
  | some v => if v.isNull then .ok none else (f v).map some

/-- Required-field validation: an absent key is a `missing` error. -/
def pReq (k : String) (w : Option JValue) (f : JValue → Except VErr α) : Except VErr α :=
  match w with
  | none => .error (.missing k)
  | some v => f v

/-- Defaulted-field validation: an absent key takes the declared default. -/
def pDef (w : Option JValue) (dflt : α) (f : JValue → Except VErr α) : Except VErr α :=
  match w with
  | none => .ok dflt
  | some v => f v

/-- pydantic's count of model fields set by the input map: the keys of the map
that are declared fields (smart-union tie-breaking uses it). -/
def scoreOf (keys : List String) (kvs : List (String × JValue)) : Nat :=
  List.countP (fun k => (List.lookup k kvs).isSome) keys

/-- The `Enum | str` parameter shape of the builder methods: `Sum.inl` is an
already-coerced member, `Sum.inr` a raw token (the `isinstance(x, str)` branch). -/
def coerceEnum (p : String → Option α) : α ⊕ String → Except VErr α
  | .inl e => .ok e
  | .inr s =>
    match p s with
    | some e => .ok e
    | none => .error (.invalidEnum s)

-- === generic lemmas about the combinators ===

theorem lookup_oField_cons (k k' : String) (v : Option JValue) (rest : List (String × JValue)) :
    List.lookup k (oField k' v ++ rest) =
      if k == k' then v.or (List.lookup k rest) else List.lookup k rest := by
  cases v with
  | none => simp only [oField, List.nil_append, Option.none_or, ite_self]
  | some x =>
    simp only [oField, List.cons_append, List.nil_append, List.lookup, Option.or_some]
    cases h : (k == k') <;> rfl

theorem lookup_oField (k k' : String) (v : Option JValue) :
    List.lookup k (oField k' v) = if k == k' then v else none := by
  cases v with
  | none => simp [oField]
  | some x =>
    simp only [oField, List.lookup]
    cases h : (k == k') <;> rfl

theorem pOpt_map {α : Type} (f : JValue → Except VErr α) (g : α → JValue) (v : Option α)
    (hg : ∀ x, v = some x → f (g x) = .ok x) (hnn : ∀ x, (g x).isNull = false) :
    pOpt (v.map g) f = .ok v := by
  cases v with
  | none => rfl
  | some x => simp [pOpt, hnn x, hg x rfl, Except.map]

theorem exList_ok {α : Type} (f : JValue → Except VErr α) (g : α → JValue) (xs : List α)
    (h : ∀ x ∈ xs, f (g x) = .ok x) : exList f (List.map g xs) = .ok xs := by
  induction xs with
  | nil => rfl
  | cons y ys ih =>
    simp only [List.map_cons, exList, h y (List.mem_cons_self y ys), bind, Except.bind,
      ih (fun x hx => h x (List.mem_cons_of_mem y hx))]

theorem optAll {α : Type} {p : α → Bool} {o : Option α} (h : o.all p = true) {x : α}
    (hx : o = some x) : p x = true := by
  subst hx; exact h

theorem allMem {α : Type} (p : α → Bool) (xs : List α) (h : xs.all p = true) (x : α)
    (hx : x ∈ xs) : p x = true := by
  induction xs with
  | nil => cases hx
  | cons y ys ih =>
    simp only [List.all_cons, Bool.and_eq_true] at h
    rcases List.mem_cons.mp hx with hy | hy
    · subst hy; exact h.1
    · exact ih h.2 hy

theorem asEnum_tok {α : Type} {p : String → Option α} {tokf : α → String}
    (hp : ∀ e, p (tokf e) = some e) (e : α) : asEnum p (.str (tokf e)) = .ok e := by
  simp [asEnum, asStr, hp, bind, Except.bind]

theorem asIntRange_ok {nm : String} {lo hi : Option Int} {n : Int}
    (h : inRange lo hi n = true) : asIntRange nm lo hi (.int n) = .ok n := by
  simp [asIntRange, asInt, bind, Except.bind, h]

theorem asStrLen_ok {nm : String} {lo : Nat} {hi : Option Nat} {s : String}
    (h : strLenOk lo hi s = true) : asStrLen nm lo hi (.str s) = .ok s := by
  simp [asStrLen, asStr, bind, Except.bind, h]

theorem asEmail_ok {s : String} (h : emailOk s = true) : asEmail (.str s) = .ok s := by
  simp [asEmail, asStr, bind, Except.bind, h]

theorem lookup_none_of_all {k : String} {xs : List (String × JValue)}
    (h : ∀ p ∈ xs, (k == p.1) = false) : List.lookup k xs = none := by
  induction xs with
  | nil => rfl
  | cons y ys ih =>
    simp only [List.lookup, h y (List.mem_cons_self y ys)]
    exact ih (fun p hp => h p (List.mem_cons_of_mem y hp))

/-- String enum `EntityType` of the source, one constructor per token. -/
inductive EntityType where
  | organization | system | policy | fact | architecture | capability
  deriving DecidableEq

/-- The underlying string token of a `EntityType` member (its `.value`). -/
def EntityType.tok : EntityType → String
  | .organization => "organization"
  | .system => "system"
  | .policy => "policy"
  | .fact => "fact"
  | .architecture => "architecture"
  | .capability => "capability"

/-- `EntityType(s)`: token-to-member conversion, exact match only. -/
def EntityType.parse : String → Option EntityType
  | "organization" => some .organization
  | "system" => some .system
  | "policy" => some .policy
  | "fact" => some .fact
  | "architecture" => some .architecture
  | "capability" => some .capability
  | _ => none

theorem EntityType_parse_tok (e : EntityType) : EntityType.parse e.tok = some e := by
  cases e <;> rfl

/-- String enum `RelationshipType` of the source, one constructor per token. -/
inductive RelationshipType where
  | owns | owned_by | depends_on | dependency_of | constrains | constrained_by | invalidates | invalidated_by | part_of | contains | produces | produced_by | related_to
  deriving DecidableEq

/-- The underlying string token of a `RelationshipType` member (its `.value`). -/
def RelationshipType.tok : RelationshipType → String
  | .owns => "owns"
  | .owned_by => "owned_by"
  | .depends_on => "depends_on"
  | .dependency_of => "dependency_of"
  | .constrains => "constrains"
  | .constrained_by => "constrained_by"
  | .invalidates => "invalidates"
  | .invalidated_by => "invalidated_by"
  | .part_of => "part_of"
  | .contains => "contains"
  | .produces => "produces"
  | .produced_by => "produced_by"
  | .related_to => "related_to"

/-- `RelationshipType(s)`: token-to-member conversion, exact match only. -/
def RelationshipType.parse : String → Option RelationshipType
  | "owns" => some .owns
  | "owned_by" => some .owned_by
  | "depends_on" => some .depends_on
  | "dependency_of" => some .dependency_of
  | "constrains" => some .constrains
  | "constrained_by" => some .constrained_by
  | "invalidates" => some .invalidates
  | "invalidated_by" => some .invalidated_by
  | "part_of" => some .part_of
  | "contains" => some .contains
  | "produces" => some .produces
  | "produced_by" => some .produced_by
  | "related_to" => some .related_to
  | _ => none

theorem RelationshipType_parse_tok (e : RelationshipType) : RelationshipType.parse e.tok = some e := by
  cases e <;> rfl

/-- String enum `OrgType` of the source, one constructor per token. -/
inductive OrgType where
  | company | division | department | team | squad | working_group
  deriving DecidableEq

/-- The underlying string token of a `OrgType` member (its `.value`). -/
def OrgType.tok : OrgType → String
  | .company => "company"
  | .division => "division"
  | .department => "department"
  | .team => "team"
  | .squad => "squad"
  | .working_group => "working_group"

/-- `OrgType(s)`: token-to-member conversion, exact match only. -/
def OrgType.parse : String → Option OrgType
  | "company" => some .company
  | "division" => some .division
  | "department" => some .department
  | "team" => some .team
  | "squad" => some .squad
  | "working_group" => some .working_group
  | _ => none

theorem OrgType_parse_tok (e : OrgType) : OrgType.parse e.tok = some e := by
  cases e <;> rfl

/-- String enum `OrgSize` of the source, one constructor per token. -/
inductive OrgSize where
  | startup | small | medium | large | enterprise
  deriving DecidableEq

/-- The underlying string token of a `OrgSize` member (its `.value`). -/
def OrgSize.tok : OrgSize → String
  | .startup => "startup"
  | .small => "small"
  | .medium => "medium"
  | .large => "large"
  | .enterprise => "enterprise"

/-- `OrgSize(s)`: token-to-member conversion, exact match only. -/
def OrgSize.parse : String → Option OrgSize
  | "startup" => some .startup
  | "small" => some .small
  | "medium" => some .medium
  | "large" => some .large
  | "enterprise" => some .enterprise
  | _ => none

theorem OrgSize_parse_tok (e : OrgSize) : OrgSize.parse e.tok = some e := by
  cases e <;> rfl

/-- String enum `SystemType` of the source, one constructor per token. -/
inductive SystemType where
  | application | service | platform | infrastructure | database | integration | tool
  deriving DecidableEq

/-- The underlying string token of a `SystemType` member (its `.value`). -/
def SystemType.tok : SystemType → String
  | .application => "application"
  | .service => "service"
  | .platform => "platform"
  | .infrastructure => "infrastructure"
  | .database => "database"
  | .integration => "integration"
  | .tool => "tool"

/-- `SystemType(s)`: token-to-member conversion, exact match only. -/
def SystemType.parse : String → Option SystemType
  | "application" => some .application
  | "service" => some .service
  | "platform" => some .platform
  | "infrastructure" => some .infrastructure
  | "database" => some .database
  | "integration" => some .integration
  | "tool" => some .tool
  | _ => none

theorem SystemType_parse_tok (e : SystemType) : SystemType.parse e.tok = some e := by
  cases e <;> rfl

/-- String enum `SystemStatus` of the source, one constructor per token. -/
inductive SystemStatus where
  | planned | development | staging | production | deprecated | decommissioned
  deriving DecidableEq

/-- The underlying string token of a `SystemStatus` member (its `.value`). -/
def SystemStatus.tok : SystemStatus → String
  | .planned => "planned"
  | .development => "development"
  | .staging => "staging"
  | .production => "production"
  | .deprecated => "deprecated"
  | .decommissioned => "decommissioned"

/-- `SystemStatus(s)`: token-to-member conversion, exact match only. -/
def SystemStatus.parse : String → Option SystemStatus
  | "planned" => some .planned
  | "development" => some .development
  | "staging" => some .staging
  | "production" => some .production
  | "deprecated" => some .deprecated
  | "decommissioned" => some .decommissioned
  | _ => none

theorem SystemStatus_parse_tok (e : SystemStatus) : SystemStatus.parse e.tok = some e := by
  cases e <;> rfl

/-- String enum `Criticality` of the source, one constructor per token. -/
inductive Criticality where
  | low | medium | high | critical
  deriving DecidableEq

/-- The underlying string token of a `Criticality` member (its `.value`). -/
def Criticality.tok : Criticality → String
  | .low => "low"
  | .medium => "medium"
  | .high => "high"
  | .critical => "critical"

/-- `Criticality(s)`: token-to-member conversion, exact match only. -/
def Criticality.parse : String → Option Criticality
  | "low" => some .low
  | "medium" => some .medium
  | "high" => some .high
  | "critical" => some .critical
  | _ => none

theorem Criticality_parse_tok (e : Criticality) : Criticality.parse e.tok = some e := by
  cases e <;> rfl

/-- String enum `DataClassification` of the source, one constructor per token. -/
inductive DataClassification where
  | public | internal | confidential | restricted
  deriving DecidableEq

/-- The underlying string token of a `DataClassification` member (its `.value`). -/
def DataClassification.tok : DataClassification → String
  | .public => "public"
  | .internal => "internal"
  | .confidential => "confidential"
  | .restricted => "restricted"

/-- `DataClassification(s)`: token-to-member conversion, exact match only. -/
def DataClassification.parse : String → Option DataClassification
  | "public" => some .public
  | "internal" => some .internal
  | "confidential" => some .confidential
  | "restricted" => some .restricted
  | _ => none

theorem DataClassification_parse_tok (e : DataClassification) : DataClassification.parse e.tok = some e := by
  cases e <;> rfl

/-- String enum `PolicyType` of the source, one constructor per token. -/
inductive PolicyType where
  | governance | security | compliance | architectural | operational | financial
  deriving DecidableEq

/-- The underlying string token of a `PolicyType` member (its `.value`). -/
def PolicyType.tok : PolicyType → String
  | .governance => "governance"
  | .security => "security"
  | .compliance => "compliance"
  | .architectural => "architectural"
  | .operational => "operational"
  | .financial => "financial"

/-- `PolicyType(s)`: token-to-member conversion, exact match only. -/
def PolicyType.parse : String → Option PolicyType
  | "governance" => some .governance
  | "security" => some .security
  | "compliance" => some .compliance
  | "architectural" => some .architectural
  | "operational" => some .operational
  | "financial" => some .financial
  | _ => none

theorem PolicyType_parse_tok (e : PolicyType) : PolicyType.parse e.tok = some e := by
  cases e <;> rfl

/-- String enum `Enforcement` of the source, one constructor per token. -/
inductive Enforcement where
  | mandatory | recommended | advisory
  deriving DecidableEq

/-- The underlying string token of a `Enforcement` member (its `.value`). -/
def Enforcement.tok : Enforcement → String
  | .mandatory => "mandatory"
  | .recommended => "recommended"
  | .advisory => "advisory"

/-- `Enforcement(s)`: token-to-member conversion, exact match only. -/
def Enforcement.parse : String → Option Enforcement
  | "mandatory" => some .mandatory
  | "recommended" => some .recommended
  | "advisory" => some .advisory
  | _ => none

theorem Enforcement_parse_tok (e : Enforcement) : Enforcement.parse e.tok = some e := by
  cases e <;> rfl

/-- String enum `FactType` of the source, one constructor per token. -/
inductive FactType where
  | contract | budget | timeline | constraint | metric | event | status
  deriving DecidableEq

/-- The underlying string token of a `FactType` member (its `.value`). -/
def FactType.tok : FactType → String
  | .contract => "contract"
  | .budget => "budget"
  | .timeline => "timeline"
  | .constraint => "constraint"
  | .metric => "metric"
  | .event => "event"
  | .status => "status"

/-- `FactType(s)`: token-to-member conversion, exact match only. -/
def FactType.parse : String → Option FactType
  | "contract" => some .contract
  | "budget" => some .budget
  | "timeline" => some .timeline
  | "constraint" => some .constraint
  | "metric" => some .metric
  | "event" => some .event
  | "status" => some .status
  | _ => none

theorem FactType_parse_tok (e : FactType) : FactType.parse e.tok = some e := by
  cases e <;> rfl

/-- String enum `ArchitectureType` of the source, one constructor per token. -/
inductive ArchitectureType where
  | pattern | principle | standard | guideline | reference | decision
  deriving DecidableEq

/-- The underlying string token of a `ArchitectureType` member (its `.value`). -/
def ArchitectureType.tok : ArchitectureType → String
  | .pattern => "pattern"
  | .principle => "principle"
  | .standard => "standard"
  | .guideline => "guideline"
  | .reference => "reference"
  | .decision => "decision"

/-- `ArchitectureType(s)`: token-to-member conversion, exact match only. -/
def ArchitectureType.parse : String → Option ArchitectureType
  | "pattern" => some .pattern
  | "principle" => some .principle
  | "standard" => some .standard
  | "guideline" => some .guideline
  | "reference" => some .reference
  | "decision" => some .decision
  | _ => none

theorem ArchitectureType_parse_tok (e : ArchitectureType) : ArchitectureType.parse e.tok = some e := by
  cases e <;> rfl

/-- String enum `Maturity` of the source, one constructor per token. -/
inductive Maturity where
  | emerging | established | mature | declining | deprecated
  deriving DecidableEq

/-- The underlying string token of a `Maturity` member (its `.value`). -/
def Maturity.tok : Maturity → String
  | .emerging => "emerging"
  | .established => "established"
  | .mature => "mature"
  | .declining => "declining"
  | .deprecated => "deprecated"

/-- `Maturity(s)`: token-to-member conversion, exact match only. -/
def Maturity.parse : String → Option Maturity
  | "emerging" => some .emerging
  | "established" => some .established
  | "mature" => some .mature
  | "declining" => some .declining
  | "deprecated" => some .deprecated
  | _ => none

theorem Maturity_parse_tok (e : Maturity) : Maturity.parse e.tok = some e := by
  cases e <;> rfl

/-- String enum `AdoptionStatus` of the source, one constructor per token. -/
inductive AdoptionStatus where
  | proposed | pilot | adopted | standard | retiring
  deriving DecidableEq

/-- The underlying string token of a `AdoptionStatus` member (its `.value`). -/
def AdoptionStatus.tok : AdoptionStatus → String
  | .proposed => "proposed"
  | .pilot => "pilot"
  | .adopted => "adopted"
  | .standard => "standard"
  | .retiring => "retiring"

/-- `AdoptionStatus(s)`: token-to-member conversion, exact match only. -/
def AdoptionStatus.parse : String → Option AdoptionStatus
  | "proposed" => some .proposed
  | "pilot" => some .pilot
  | "adopted" => some .adopted
  | "standard" => some .standard
  | "retiring" => some .retiring
  | _ => none

theorem AdoptionStatus_parse_tok (e : AdoptionStatus) : AdoptionStatus.parse e.tok = some e := by
  cases e <;> rfl

/-- String enum `CapabilityType` of the source, one constructor per token. -/
inductive CapabilityType where
  | skill | tool | process | practice | certification
  deriving DecidableEq

/-- The underlying string token of a `CapabilityType` member (its `.value`). -/
def CapabilityType.tok : CapabilityType → String
  | .skill => "skill"
  | .tool => "tool"
  | .process => "process"
  | .practice => "practice"
  | .certification => "certification"

/-- `CapabilityType(s)`: token-to-member conversion, exact match only. -/
def CapabilityType.parse : String → Option CapabilityType
  | "skill" => some .skill
  | "tool" => some .tool
  | "process" => some .process
  | "practice" => some .practice
  | "certification" => some .certification
  | _ => none

theorem CapabilityType_parse_tok (e : CapabilityType) : CapabilityType.parse e.tok = some e := by
  cases e <;> rfl

/-- String enum `Proficiency` of the source, one constructor per token. -/
inductive Proficiency where
  | none | beginner | intermediate | advanced | expert
  deriving DecidableEq

/-- The underlying string token of a `Proficiency` member (its `.value`). -/
def Proficiency.tok : Proficiency → String
  | .none => "none"
  | .beginner => "beginner"
  | .intermediate => "intermediate"
  | .advanced => "advanced"
  | .expert => "expert"

/-- `Proficiency(s)`: token-to-member conversion, exact match only. -/
def Proficiency.parse : String → Option Proficiency
  | "none" => some .none
  | "beginner" => some .beginner
  | "intermediate" => some .intermediate
  | "advanced" => some .advanced
  | "expert" => some .expert
  | _ => none

theorem Proficiency_parse_tok (e : Proficiency) : Proficiency.parse e.tok = some e := by
  cases e <;> rfl

/-- String enum `StrategicImportance` of the source, one constructor per token. -/
inductive StrategicImportance where
  | low | medium | high | critical
  deriving DecidableEq

/-- The underlying string token of a `StrategicImportance` member (its `.value`). -/
def StrategicImportance.tok : StrategicImportance → String
  | .low => "low"
  | .medium => "medium"
  | .high => "high"
  | .critical => "critical"

/-- `StrategicImportance(s)`: token-to-member conversion, exact match only. -/
def StrategicImportance.parse : String → Option StrategicImportance
  | "low" => some .low
  | "medium" => some .medium
  | "high" => some .high
  | "critical" => some .critical
  | _ => none

theorem StrategicImportance_parse_tok (e : StrategicImportance) : StrategicImportance.parse e.tok = some e := by
  cases e <;> rfl

/-- String enum `CognitivePhase` of the source, one constructor per token. -/
inductive CognitivePhase where
  | exploration | analysis | synthesis | decision
  deriving DecidableEq

/-- The underlying string token of a `CognitivePhase` member (its `.value`). -/
def CognitivePhase.tok : CognitivePhase → String
  | .exploration => "exploration"
  | .analysis => "analysis"
  | .synthesis => "synthesis"
  | .decision => "decision"

/-- `CognitivePhase(s)`: token-to-member conversion, exact match only. -/
def CognitivePhase.parse : String → Option CognitivePhase
  | "exploration" => some .exploration
  | "analysis" => some .analysis
  | "synthesis" => some .synthesis
  | "decision" => some .decision
  | _ => none

theorem CognitivePhase_parse_tok (e : CognitivePhase) : CognitivePhase.parse e.tok = some e := by
  cases e <;> rfl

/-- String enum `ReasoningPattern` of the source, one constructor per token. -/
inductive ReasoningPattern where
  | operational | risk_based | contrafactual | comparative | cost_benefit | intuitive | deliberative | heuristic | systematic | creative | consensus | authority | delegation | voting | escalation
  deriving DecidableEq

/-- The underlying string token of a `ReasoningPattern` member (its `.value`). -/
def ReasoningPattern.tok : ReasoningPattern → String
  | .operational => "operational"
  | .risk_based => "risk_based"
  | .contrafactual => "contrafactual"
  | .comparative => "comparative"
  | .cost_benefit => "cost_benefit"
  | .intuitive => "intuitive"
  | .deliberative => "deliberative"
  | .heuristic => "heuristic"
  | .systematic => "systematic"
  | .creative => "creative"
  | .consensus => "consensus"
  | .authority => "authority"
  | .delegation => "delegation"
  | .voting => "voting"
  | .escalation => "escalation"

/-- `ReasoningPattern(s)`: token-to-member conversion, exact match only. -/
def ReasoningPattern.parse : String → Option ReasoningPattern
  | "operational" => some .operational
  | "risk_based" => some .risk_based
  | "contrafactual" => some .contrafactual
  | "comparative" => some .comparative
  | "cost_benefit" => some .cost_benefit
  | "intuitive" => some .intuitive
  | "deliberative" => some .deliberative
  | "heuristic" => some .heuristic
  | "systematic" => some .systematic
  | "creative" => some .creative
  | "consensus" => some .consensus
  | "authority" => some .authority
  | "delegation" => some .delegation
  | "voting" => some .voting
  | "escalation" => some .escalation
  | _ => none

theorem ReasoningPattern_parse_tok (e : ReasoningPattern) : ReasoningPattern.parse e.tok = some e := by
  cases e <;> rfl

/-- String enum `InterventionType` of the source, one constructor per token. -/
inductive InterventionType where
  | question | challenge | constraint | insight | external_input
  deriving DecidableEq

/-- The underlying string token of a `InterventionType` member (its `.value`). -/
def InterventionType.tok : InterventionType → String
  | .question => "question"
  | .challenge => "challenge"
  | .constraint => "constraint"
  | .insight => "insight"
  | .external_input => "external_input"

/-- `InterventionType(s)`: token-to-member conversion, exact match only. -/
def InterventionType.parse : String → Option InterventionType
  | "question" => some .question
  | "challenge" => some .challenge
  | "constraint" => some .constraint
  | "insight" => some .insight
  | "external_input" => some .external_input
  | _ => none

theorem InterventionType_parse_tok (e : InterventionType) : InterventionType.parse e.tok = some e := by
  cases e <;> rfl

/-- String enum `Impact` of the source, one constructor per token. -/
inductive Impact where
  | low | medium | high | critical
  deriving DecidableEq

/-- The underlying string token of a `Impact` member (its `.value`). -/
def Impact.tok : Impact → String
  | .low => "low"
  | .medium => "medium"
  | .high => "high"
  | .critical => "critical"

/-- `Impact(s)`: token-to-member conversion, exact match only. -/
def Impact.parse : String → Option Impact
  | "low" => some .low
  | "medium" => some .medium
  | "high" => some .high
  | "critical" => some .critical
  | _ => none

theorem Impact_parse_tok (e : Impact) : Impact.parse e.tok = some e := by
  cases e <;> rfl

/-- String enum `DecisionStatus` of the source, one constructor per token. -/
inductive DecisionStatus where
  | draft | review | approved | rejected | superseded | archived
  deriving DecidableEq

/-- The underlying string token of a `DecisionStatus` member (its `.value`). -/
def DecisionStatus.tok : DecisionStatus → String
  | .draft => "draft"
  | .review => "review"
  | .approved => "approved"
  | .rejected => "rejected"
  | .superseded => "superseded"
  | .archived => "archived"

/-- `DecisionStatus(s)`: token-to-member conversion, exact match only. -/
def DecisionStatus.parse : String → Option DecisionStatus
  | "draft" => some .draft
  | "review" => some .review
  | "approved" => some .approved
  | "rejected" => some .rejected
  | "superseded" => some .superseded
  | "archived" => some .archived
  | _ => none

theorem DecisionStatus_parse_tok (e : DecisionStatus) : DecisionStatus.parse e.tok = some e := by
  cases e <;> rfl

/-- String enum `Priority` of the source, one constructor per token. -/
inductive Priority where
  | must_have | should_have | nice_to_have
  deriving DecidableEq

/-- The underlying string token of a `Priority` member (its `.value`). -/
def Priority.tok : Priority → String
  | .must_have => "must_have"
  | .should_have => "should_have"
  | .nice_to_have => "nice_to_have"

/-- `Priority(s)`: token-to-member conversion, exact match only. -/
def Priority.parse : String → Option Priority
  | "must_have" => some .must_have
  | "should_have" => some .should_have
  | "nice_to_have" => some .nice_to_have
  | _ => none

theorem Priority_parse_tok (e : Priority) : Priority.parse e.tok = some e := by
  cases e <;> rfl

/-- String enum `Role` of the source, one constructor per token. -/
inductive Role where
  | author | reviewer | approver | contributor | stakeholder
  deriving DecidableEq

/-- The underlying string token of a `Role` member (its `.value`). -/
def Role.tok : Role → String
  | .author => "author"
  | .reviewer => "reviewer"
  | .approver => "approver"
  | .contributor => "contributor"
  | .stakeholder => "stakeholder"

/-- `Role(s)`: token-to-member conversion, exact match only. -/
def Role.parse : String → Option Role
  | "author" => some .author
  | "reviewer" => some .reviewer
  | "approver" => some .approver
  | "contributor" => some .contributor
  | "stakeholder" => some .stakeholder
  | _ => none

theorem Role_parse_tok (e : Role) : Role.parse e.tok = some e := by
  cases e <;> rfl

/-- String enum `Relationship` of the source, one constructor per token. -/
inductive Relationship where
  | supersedes | superseded_by | depends_on | dependency_of | related_to | conflicts_with
  deriving DecidableEq

/-- The underlying string token of a `Relationship` member (its `.value`). -/
def Relationship.tok : Relationship → String
  | .supersedes => "supersedes"
  | .superseded_by => "superseded_by"
  | .depends_on => "depends_on"
  | .dependency_of => "dependency_of"
  | .related_to => "related_to"
  | .conflicts_with => "conflicts_with"

/-- `Relationship(s)`: token-to-member conversion, exact match only. -/
def Relationship.parse : String → Option Relationship
  | "supersedes" => some .supersedes
  | "superseded_by" => some .superseded_by
  | "depends_on" => some .depends_on
  | "dependency_of" => some .dependency_of
  | "related_to" => some .related_to
  | "conflicts_with" => some .conflicts_with
  | _ => none

theorem Relationship_parse_tok (e : Relationship) : Relationship.parse e.tok = some e := by
  cases e <;> rfl

/-- String enum `ValidationStatus` of the source, one constructor per token. -/
inductive ValidationStatus where
  | satisfied | violated | acknowledged | not_applicable
  deriving DecidableEq

/-- The underlying string token of a `ValidationStatus` member (its `.value`). -/
def ValidationStatus.tok : ValidationStatus → String
  | .satisfied => "satisfied"
  | .violated => "violated"
  | .acknowledged => "acknowledged"
  | .not_applicable => "not_applicable"

/-- `ValidationStatus(s)`: token-to-member conversion, exact match only. -/
def ValidationStatus.parse : String → Option ValidationStatus
  | "satisfied" => some .satisfied
  | "violated" => some .violated
  | "acknowledged" => some .acknowledged
  | "not_applicable" => some .not_applicable
  | _ => none

theorem ValidationStatus_parse_tok (e : ValidationStatus) : ValidationStatus.parse e.tok = some e := by
  cases e <;> rfl

/-- String enum `ContextEntityType` of the source, one constructor per token. -/
inductive ContextEntityType where
  | organization | system | policy | fact | architecture | capability
  deriving DecidableEq

/-- The underlying string token of a `ContextEntityType` member (its `.value`). -/
def ContextEntityType.tok : ContextEntityType → String
  | .organization => "organization"
  | .system => "system"
  | .policy => "policy"
  | .fact => "fact"
  | .architecture => "architecture"
  | .capability => "capability"

/-- `ContextEntityType(s)`: token-to-member conversion, exact match only. -/
def ContextEntityType.parse : String → Option ContextEntityType
  | "organization" => some .organization
  | "system" => some .system
  | "policy" => some .policy
  | "fact" => some .fact
  | "architecture" => some .architecture
  | "capability" => some .capability
  | _ => none

theorem ContextEntityType_parse_tok (e : ContextEntityType) : ContextEntityType.parse e.tok = some e := by
  cases e <;> rfl

/-- String enum `ContextAction` of the source, one constructor per token. -/
inductive ContextAction where
  | creates | updates | invalidates
  deriving DecidableEq

/-- The underlying string token of a `ContextAction` member (its `.value`). -/
def ContextAction.tok : ContextAction → String
  | .creates => "creates"
  | .updates => "updates"
  | .invalidates => "invalidates"

/-- `ContextAction(s)`: token-to-member conversion, exact match only. -/
def ContextAction.parse : String → Option ContextAction
  | "creates" => some .creates
  | "updates" => some .updates
  | "invalidates" => some .invalidates
  | _ => none

theorem ContextAction_parse_tok (e : ContextAction) : ContextAction.parse e.tok = some e := by
  cases e <;> rfl

/-- Model `OrganizationAttributes` of the source, fields in declaration order. -/
structure OrganizationAttributes where
  org_type : Option OrgType
  size : Option OrgSize
  headcount : Option Int
  location : Option String
  industry : Option String
  compliance_frameworks : Option (List String)

namespace OrganizationAttributes

/-- Fields of the mode json, exclude_none dump, in declaration order. -/
def dumpFields (a : OrganizationAttributes) : List (String × JValue) :=
  oField "org_type" (Option.map (fun e => JValue.str (OrgType.tok e)) a.org_type) ++
  (oField "size" (Option.map (fun e => JValue.str (OrgSize.tok e)) a.size) ++
  (oField "headcount" (Option.map JValue.int a.headcount) ++
  (oField "location" (Option.map JValue.str a.location) ++
  (oField "industry" (Option.map JValue.str a.industry) ++
  (oField "compliance_frameworks" (Option.map (fun xs => JValue.arr (List.map JValue.str xs)) a.compliance_frameworks))))))

def dump (a : OrganizationAttributes) : JValue := JValue.obj a.dumpFields

/-- Schema validation of a field map, mirroring the pydantic model. -/
def parseFields (kvs : List (String × JValue)) : Except VErr OrganizationAttributes := do
  let org_type ← pOpt (List.lookup "org_type" kvs) (asEnum OrgType.parse)
  let size ← pOpt (List.lookup "size" kvs) (asEnum OrgSize.parse)
  let headcount ← pOpt (List.lookup "headcount" kvs) (asIntRange "headcount" (some 1) none)
  let location ← pOpt (List.lookup "location" kvs) asStr
  let industry ← pOpt (List.lookup "industry" kvs) asStr
  let compliance_frameworks ← pOpt (List.lookup "compliance_frameworks" kvs) (asArr asStr)
  .ok ⟨org_type, size, headcount, location, industry, compliance_frameworks⟩

/-- The values of this record that pydantic could hold (bounds and nested validity). -/
def valid (a : OrganizationAttributes) : Bool :=
  Option.all (fun n => inRange (some 1) none n) a.headcount

theorem lookup_OrganizationAttributes_org_type (a : OrganizationAttributes) :
    List.lookup "org_type" a.dumpFields = Option.map (fun e => JValue.str (OrgType.tok e)) a.org_type := by
  simp [dumpFields, lookup_oField_cons, lookup_oField]

theorem lookup_OrganizationAttributes_size (a : OrganizationAttributes) :
    List.lookup "size" a.dumpFields = Option.map (fun e => JValue.str (OrgSize.tok e)) a.size := by
  simp [dumpFields, lookup_oField_cons, lookup_oField]

theorem lookup_OrganizationAttributes_headcount (a : OrganizationAttributes) :
    List.lookup "headcount" a.dumpFields = Option.map JValue.int a.headcount := by
  simp [dumpFields, lookup_oField_cons, lookup_oField]

theorem lookup_OrganizationAttributes_location (a : OrganizationAttributes) :
    List.lookup "location" a.dumpFields = Option.map JValue.str a.location := by
  simp [dumpFields, lookup_oField_cons, lookup_oField]

theorem lookup_OrganizationAttributes_industry (a : OrganizationAttributes) :
    List.lookup "industry" a.dumpFields = Option.map JValue.str a.industry := by
  simp [dumpFields, lookup_oField_cons, lookup_oField]

theorem lookup_OrganizationAttributes_compliance_frameworks (a : OrganizationAttributes) :
    List.lookup "compliance_frameworks" a.dumpFields = Option.map (fun xs => JValue.arr (List.map JValue.str xs)) a.compliance_frameworks := by
  simp [dumpFields, lookup_oField_cons, lookup_oField]

theorem parse_dump_OrganizationAttributes (a : OrganizationAttributes) (h : valid a = true) :
    parseFields a.dumpFields = .ok a := by
  simp only [valid] at h
  simp only [parseFields,
    lookup_OrganizationAttributes_org_type,
    lookup_OrganizationAttributes_size,
    lookup_OrganizationAttributes_headcount,
    lookup_OrganizationAttributes_location,
    lookup_OrganizationAttributes_industry,
    lookup_OrganizationAttributes_compliance_frameworks,
    pOpt_map (asEnum OrgType.parse) (fun e => JValue.str (OrgType.tok e)) a.org_type (fun x hx => asEnum_tok OrgType_parse_tok x) (fun x => rfl),
    pOpt_map (asEnum OrgSize.parse) (fun e => JValue.str (OrgSize.tok e)) a.size (fun x hx => asEnum_tok OrgSize_parse_tok x) (fun x => rfl),
    pOpt_map (asIntRange "headcount" (some 1) none) JValue.int a.headcount (fun x hx => asIntRange_ok (optAll h hx)) (fun x => rfl),
    pOpt_map asStr JValue.str a.location (fun x hx => rfl) (fun x => rfl),
    pOpt_map asStr JValue.str a.industry (fun x hx => rfl) (fun x => rfl),
    pOpt_map (asArr asStr) (fun xs => JValue.arr (List.map JValue.str xs)) a.compliance_frameworks (fun xs hx => by simp only [asArr]; exact exList_ok _ _ xs (fun x hxm => rfl)) (fun xs => rfl),
    pReq,
    pDef,
    asStr,
    asBool,
    asArr,
    asDict,
    bind,
    Except.bind]

end OrganizationAttributes

/-- Model `SystemAttributes` of the source, fields in declaration order. -/
structure SystemAttributes where
  system_type : Option SystemType
  status : Option SystemStatus
  criticality : Option Criticality
  technology_stack : Option (List String)
  hosting : Option String
  data_classification : Option DataClassification

namespace SystemAttributes

/-- Fields of the mode json, exclude_none dump, in declaration order. -/
def dumpFields (a : SystemAttributes) : List (String × JValue) :=
  oField "system_type" (Option.map (fun e => JValue.str (SystemType.tok e)) a.system_type) ++
  (oField "status" (Option.map (fun e => JValue.str (SystemStatus.tok e)) a.status) ++
  (oField "criticality" (Option.map (fun e => JValue.str (Criticality.tok e)) a.criticality) ++
  (oField "technology_stack" (Option.map (fun xs => JValue.arr (List.map JValue.str xs)) a.technology_stack) ++
  (oField "hosting" (Option.map JValue.str a.hosting) ++
  (oField "data_classification" (Option.map (fun e => JValue.str (DataClassification.tok e)) a.data_classification))))))

def dump (a : SystemAttributes) : JValue := JValue.obj a.dumpFields

/-- Schema validation of a field map, mirroring the pydantic model. -/
def parseFields (kvs : List (String × JValue)) : Except VErr SystemAttributes := do
  let system_type ← pOpt (List.lookup "system_type" kvs) (asEnum SystemType.parse)
  let status ← pOpt (List.lookup "status" kvs) (asEnum SystemStatus.parse)
  let criticality ← pOpt (List.lookup "criticality" kvs) (asEnum Criticality.parse)
  let technology_stack ← pOpt (List.lookup "technology_stack" kvs) (asArr asStr)
  let hosting ← pOpt (List.lookup "hosting" kvs) asStr
  let data_classification ← pOpt (List.lookup "data_classification" kvs) (asEnum DataClassification.parse)
  .ok ⟨system_type, status, criticality, technology_stack, hosting, data_classification⟩

/-- The values of this record that pydantic could hold (bounds and nested validity). -/
def valid (_a : SystemAttributes) : Bool := true

theorem lookup_SystemAttributes_system_type (a : SystemAttributes) :
    List.lookup "system_type" a.dumpFields = Option.map (fun e => JValue.str (SystemType.tok e)) a.system_type := by
  simp [dumpFields, lookup_oField_cons, lookup_oField]

theorem lookup_SystemAttributes_status (a : SystemAttributes) :
    List.lookup "status" a.dumpFields = Option.map (fun e => JValue.str (SystemStatus.tok e)) a.status := by
  simp [dumpFields, lookup_oField_cons, lookup_oField]

theorem lookup_SystemAttributes_criticality (a : SystemAttributes) :
    List.lookup "criticality" a.dumpFields = Option.map (fun e => JValue.str (Criticality.tok e)) a.criticality := by
  simp [dumpFields, lookup_oField_cons, lookup_oField]

theorem lookup_SystemAttributes_technology_stack (a : SystemAttributes) :
    List.lookup "technology_stack" a.dumpFields = Option.map (fun xs => JValue.arr (List.map JValue.str xs)) a.technology_stack := by
  simp [dumpFields, lookup_oField_cons, lookup_oField]

theorem lookup_SystemAttributes_hosting (a : SystemAttributes) :
    List.lookup "hosting" a.dumpFields = Option.map JValue.str a.hosting := by
  simp [dumpFields, lookup_oField_cons, lookup_oField]

theorem lookup_SystemAttributes_data_classification (a : SystemAttributes) :
    List.lookup "data_classification" a.dumpFields = Option.map (fun e => JValue.str (DataClassification.tok e)) a.data_classification := by
  simp [dumpFields, lookup_oField_cons, lookup_oField]

theorem parse_dump_SystemAttributes (a : SystemAttributes) (h : valid a = true) :
    parseFields a.dumpFields = .ok a := by
  simp only [parseFields,
    lookup_SystemAttributes_system_type,
    lookup_SystemAttributes_status,
    lookup_SystemAttributes_criticality,
    lookup_SystemAttributes_technology_stack,
    lookup_SystemAttributes_hosting,
    lookup_SystemAttributes_data_classification,
    pOpt_map (asEnum SystemType.parse) (fun e => JValue.str (SystemType.tok e)) a.system_type (fun x hx => asEnum_tok SystemType_parse_tok x) (fun x => rfl),
    pOpt_map (asEnum SystemStatus.parse) (fun e => JValue.str (SystemStatus.tok e)) a.status (fun x hx => asEnum_tok SystemStatus_parse_tok x) (fun x => rfl),
    pOpt_map (asEnum Criticality.parse) (fun e => JValue.str (Criticality.tok e)) a.criticality (fun x hx => asEnum_tok Criticality_parse_tok x) (fun x => rfl),
    pOpt_map (asArr asStr) (fun xs => JValue.arr (List.map JValue.str xs)) a.technology_stack (fun xs hx => by simp only [asArr]; exact exList_ok _ _ xs (fun x hxm => rfl)) (fun xs => rfl),
    pOpt_map asStr JValue.str a.hosting (fun x hx => rfl) (fun x => rfl),
    pOpt_map (asEnum DataClassification.parse) (fun e => JValue.str (DataClassification.tok e)) a.data_classification (fun x hx => asEnum_tok DataClassification_parse_tok x) (fun x => rfl),
    pReq,
    pDef,
    asStr,
    asBool,
    asArr,
    asDict,
    bind,
    Except.bind]

end SystemAttributes

/-- Model `PolicyAttributes` of the source, fields in declaration order. -/
structure PolicyAttributes where
  policy_type : Option PolicyType
  enforcement : Option Enforcement
  scope : Option String
  rationale : Option String
  exceptions_process : Option String
  owner : Option String
  review_cycle : Option String

namespace PolicyAttributes

/-- Fields of the mode json, exclude_none dump, in declaration order. -/
def dumpFields (a : PolicyAttributes) : List (String × JValue) :=
  oField "policy_type" (Option.map (fun e => JValue.str (PolicyType.tok e)) a.policy_type) ++
  (oField "enforcement" (Option.map (fun e => JValue.str (Enforcement.tok e)) a.enforcement) ++
  (oField "scope" (Option.map JValue.str a.scope) ++
  (oField "rationale" (Option.map JValue.str a.rationale) ++
  (oField "exceptions_process" (Option.map JValue.str a.exceptions_process) ++
  (oField "owner" (Option.map JValue.str a.owner) ++
  (oField "review_cycle" (Option.map JValue.str a.review_cycle)))))))

def dump (a : PolicyAttributes) : JValue := JValue.obj a.dumpFields

/-- Schema validation of a field map, mirroring the pydantic model. -/
def parseFields (kvs : List (String × JValue)) : Except VErr PolicyAttributes := do
  let policy_type ← pOpt (List.lookup "policy_type" kvs) (asEnum PolicyType.parse)
  let enforcement ← pOpt (List.lookup "enforcement" kvs) (asEnum Enforcement.parse)
  let scope ← pOpt (List.lookup "scope" kvs) asStr
  let rationale ← pOpt (List.lookup "rationale" kvs) asStr
  let exceptions_process ← pOpt (List.lookup "exceptions_process" kvs) asStr
  let owner ← pOpt (List.lookup "owner" kvs) asStr
  let review_cycle ← pOpt (List.lookup "review_cycle" kvs) asStr
  .ok ⟨policy_type, enforcement, scope, rationale, exceptions_process, owner, review_cycle⟩

/-- The values of this record that pydantic could hold (bounds and nested validity). -/
def valid (_a : PolicyAttributes) : Bool := true

theorem lookup_PolicyAttributes_policy_type (a : PolicyAttributes) :
    List.lookup "policy_type" a.dumpFields = Option.map (fun e => JValue.str (PolicyType.tok e)) a.policy_type := by
  simp [dumpFields, lookup_oField_cons, lookup_oField]

theorem lookup_PolicyAttributes_enforcement (a : PolicyAttributes) :
    List.lookup "enforcement" a.dumpFields = Option.map (fun e => JValue.str (Enforcement.tok e)) a.enforcement := by
  simp [dumpFields, lookup_oField_cons, lookup_oField]

theorem lookup_PolicyAttributes_scope (a : PolicyAttributes) :
    List.lookup "scope" a.dumpFields = Option.map JValue.str a.scope := by
  simp [dumpFields, lookup_oField_cons, lookup_oField]

theorem lookup_PolicyAttributes_rationale (a : PolicyAttributes) :
    List.lookup "rationale" a.dumpFields = Option.map JValue.str a.rationale := by
  simp [dumpFields, lookup_oField_cons, lookup_oField]

theorem lookup_PolicyAttributes_exceptions_process (a : PolicyAttributes) :
    List.lookup "exceptions_process" a.dumpFields = Option.map JValue.str a.exceptions_process := by
  simp [dumpFields, lookup_oField_cons, lookup_oField]

theorem lookup_PolicyAttributes_owner (a : PolicyAttributes) :
    List.lookup "owner" a.dumpFields = Option.map JValue.str a.owner := by
  simp [dumpFields, lookup_oField_cons, lookup_oField]

theorem lookup_PolicyAttributes_review_cycle (a : PolicyAttributes) :
    List.lookup "review_cycle" a.dumpFields = Option.map JValue.str a.review_cycle := by
  simp [dumpFields, lookup_oField_cons, lookup_oField]

theorem parse_dump_PolicyAttributes (a : PolicyAttributes) (h : valid a = true) :
    parseFields a.dumpFields = .ok a := by
  simp only [parseFields,
    lookup_PolicyAttributes_policy_type,
    lookup_PolicyAttributes_enforcement,
    lookup_PolicyAttributes_scope,
    lookup_PolicyAttributes_rationale,
    lookup_PolicyAttributes_exceptions_process,
    lookup_PolicyAttributes_owner,
    lookup_PolicyAttributes_review_cycle,
    pOpt_map (asEnum PolicyType.parse) (fun e => JValue.str (PolicyType.tok e)) a.policy_type (fun x hx => asEnum_tok PolicyType_parse_tok x) (fun x => rfl),
    pOpt_map (asEnum Enforcement.parse) (fun e => JValue.str (Enforcement.tok e)) a.enforcement (fun x hx => asEnum_tok Enforcement_parse_tok x) (fun x => rfl),
    pOpt_map asStr JValue.str a.scope (fun x hx => rfl) (fun x => rfl),
    pOpt_map asStr JValue.str a.rationale (fun x hx => rfl) (fun x => rfl),
    pOpt_map asStr JValue.str a.exceptions_process (fun x hx => rfl) (fun x => rfl),
    pOpt_map asStr JValue.str a.owner (fun x hx => rfl) (fun x => rfl),
    pOpt_map asStr JValue.str a.review_cycle (fun x hx => rfl) (fun x => rfl),
    pReq,
    pDef,
    asStr,
    asBool,
    asArr,
    asDict,
    bind,
    Except.bind]

end PolicyAttributes

/-- Model `FactAttributes` of the source, fields in declaration order. -/
structure FactAttributes where
  fact_type : Option FactType
  value : Option FactValue
  unit : Option String
  confidence : Option Int
  source_reference : Option String
  verified : Option Bool
  verified_at : Option String

namespace FactAttributes

/-- Fields of the mode json, exclude_none dump, in declaration order. -/
def dumpFields (a : FactAttributes) : List (String × JValue) :=
  oField "fact_type" (Option.map (fun e => JValue.str (FactType.tok e)) a.fact_type) ++
  (oField "value" (Option.map FactValue.dump a.value) ++
  (oField "unit" (Option.map JValue.str a.unit) ++
  (oField "confidence" (Option.map JValue.int a.confidence) ++
  (oField "source_reference" (Option.map JValue.str a.source_reference) ++
  (oField "verified" (Option.map JValue.bool a.verified) ++
  (oField "verified_at" (Option.map JValue.str a.verified_at)))))))

def dump (a : FactAttributes) : JValue := JValue.obj a.dumpFields

/-- Schema validation of a field map, mirroring the pydantic model. -/
def parseFields (kvs : List (String × JValue)) : Except VErr FactAttributes := do
  let fact_type ← pOpt (List.lookup "fact_type" kvs) (asEnum FactType.parse)
  let value ← pOpt (List.lookup "value" kvs) asFactValue
  let unit ← pOpt (List.lookup "unit" kvs) asStr
  let confidence ← pOpt (List.lookup "confidence" kvs) (asIntRange "confidence" (some 0) (some 100))
  let source_reference ← pOpt (List.lookup "source_reference" kvs) asStr
  let verified ← pOpt (List.lookup "verified" kvs) asBool
  let verified_at ← pOpt (List.lookup "verified_at" kvs) asStr
  .ok ⟨fact_type, value, unit, confidence, source_reference, verified, verified_at⟩

/-- The values of this record that pydantic could hold (bounds and nested validity). -/
def valid (a : FactAttributes) : Bool :=
  Option.all (fun n => inRange (some 0) (some 100) n) a.confidence

theorem lookup_FactAttributes_fact_type (a : FactAttributes) :
    List.lookup "fact_type" a.dumpFields = Option.map (fun e => JValue.str (FactType.tok e)) a.fact_type := by
  simp [dumpFields, lookup_oField_cons, lookup_oField]

theorem lookup_FactAttributes_value (a : FactAttributes) :
    List.lookup "value" a.dumpFields = Option.map FactValue.dump a.value := by
  simp [dumpFields, lookup_oField_cons, lookup_oField]

theorem lookup_FactAttributes_unit (a : FactAttributes) :
    List.lookup "unit" a.dumpFields = Option.map JValue.str a.unit := by
  simp [dumpFields, lookup_oField_cons, lookup_oField]

theorem lookup_FactAttributes_confidence (a : FactAttributes) :
    List.lookup "confidence" a.dumpFields = Option.map JValue.int a.confidence := by
  simp [dumpFields, lookup_oField_cons, lookup_oField]

theorem lookup_FactAttributes_source_reference (a : FactAttributes) :
    List.lookup "source_reference" a.dumpFields = Option.map JValue.str a.source_reference := by
  simp [dumpFields, lookup_oField_cons, lookup_oField]

theorem lookup_FactAttributes_verified (a : FactAttributes) :
    List.lookup "verified" a.dumpFields = Option.map JValue.bool a.verified := by
  simp [dumpFields, lookup_oField_cons, lookup_oField]

theorem lookup_FactAttributes_verified_at (a : FactAttributes) :
    List.lookup "verified_at" a.dumpFields = Option.map JValue.str a.verified_at := by
  simp [dumpFields, lookup_oField_cons, lookup_oField]

theorem parse_dump_FactAttributes (a : FactAttributes) (h : valid a = true) :
    parseFields a.dumpFields = .ok a := by
  simp only [valid] at h
  simp only [parseFields,
    lookup_FactAttributes_fact_type,
    lookup_FactAttributes_value,
    lookup_FactAttributes_unit,
    lookup_FactAttributes_confidence,
    lookup_FactAttributes_source_reference,
    lookup_FactAttributes_verified,
    lookup_FactAttributes_verified_at,
    pOpt_map (asEnum FactType.parse) (fun e => JValue.str (FactType.tok e)) a.fact_type (fun x hx => asEnum_tok FactType_parse_tok x) (fun x => rfl),
    pOpt_map asFactValue FactValue.dump a.value (fun x hx => FactValue.parse_dump x) (fun x => FactValue.dump_not_null x),
    pOpt_map asStr JValue.str a.unit (fun x hx => rfl) (fun x => rfl),
    pOpt_map (asIntRange "confidence" (some 0) (some 100)) JValue.int a.confidence (fun x hx => asIntRange_ok (optAll h hx)) (fun x => rfl),
    pOpt_map asStr JValue.str a.source_reference (fun x hx => rfl) (fun x => rfl),
    pOpt_map asBool JValue.bool a.verified (fun x hx => rfl) (fun x => rfl),
    pOpt_map asStr JValue.str a.verified_at (fun x hx => rfl) (fun x => rfl),
    pReq,
    pDef,
    asStr,
    asBool,
    asArr,
    asDict,
    bind,
    Except.bind]

end FactAttributes

/-- Model `ArchitectureAttributes` of the source, fields in declaration order. -/
structure ArchitectureAttributes where
  architecture_type : Option ArchitectureType
  domain : Option String
  maturity : Option Maturity
  adoption_status : Option AdoptionStatus
  alternatives : Option (List String)

namespace ArchitectureAttributes

/-- Fields of the mode json, exclude_none dump, in declaration order. -/
def dumpFields (a : ArchitectureAttributes) : List (String × JValue) :=
  oField "architecture_type" (Option.map (fun e => JValue.str (ArchitectureType.tok e)) a.architecture_type) ++
  (oField "domain" (Option.map JValue.str a.domain) ++
  (oField "maturity" (Option.map (fun e => JValue.str (Maturity.tok e)) a.maturity) ++
  (oField "adoption_status" (Option.map (fun e => JValue.str (AdoptionStatus.tok e)) a.adoption_status) ++
  (oField "alternatives" (Option.map (fun xs => JValue.arr (List.map JValue.str xs)) a.alternatives)))))

def dump (a : ArchitectureAttributes) : JValue := JValue.obj a.dumpFields

/-- Schema validation of a field map, mirroring the pydantic model. -/
def parseFields (kvs : List (String × JValue)) : Except VErr ArchitectureAttributes := do
  let architecture_type ← pOpt (List.lookup "architecture_type" kvs) (asEnum ArchitectureType.parse)
  let domain ← pOpt (List.lookup "domain" kvs) asStr
  let maturity ← pOpt (List.lookup "maturity" kvs) (asEnum Maturity.parse)
  let adoption_status ← pOpt (List.lookup "adoption_status" kvs) (asEnum AdoptionStatus.parse)
  let alternatives ← pOpt (List.lookup "alternatives" kvs) (asArr asStr)
  .ok ⟨architecture_type, domain, maturity, adoption_status, alternatives⟩

/-- The values of this record that pydantic could hold (bounds and nested validity). -/
def valid (_a : ArchitectureAttributes) : Bool := true

theorem lookup_ArchitectureAttributes_architecture_type (a : ArchitectureAttributes) :
    List.lookup "architecture_type" a.dumpFields = Option.map (fun e => JValue.str (ArchitectureType.tok e)) a.architecture_type := by
  simp [dumpFields, lookup_oField_cons, lookup_oField]

theorem lookup_ArchitectureAttributes_domain (a : ArchitectureAttributes) :
    List.lookup "domain" a.dumpFields = Option.map JValue.str a.domain := by
  simp [dumpFields, lookup_oField_cons, lookup_oField]

theorem lookup_ArchitectureAttributes_maturity (a : ArchitectureAttributes) :
    List.lookup "maturity" a.dumpFields = Option.map (fun e => JValue.str (Maturity.tok e)) a.maturity := by
  simp [dumpFields, lookup_oField_cons, lookup_oField]

theorem lookup_ArchitectureAttributes_adoption_status (a : ArchitectureAttributes) :
    List.lookup "adoption_status" a.dumpFields = Option.map (fun e => JValue.str (AdoptionStatus.tok e)) a.adoption_status := by
  simp [dumpFields, lookup_oField_cons, lookup_oField]

theorem lookup_ArchitectureAttributes_alternatives (a : ArchitectureAttributes) :
    List.lookup "alternatives" a.dumpFields = Option.map (fun xs => JValue.arr (List.map JValue.str xs)) a.alternatives := by
  simp [dumpFields, lookup_oField_cons, lookup_oField]

theorem parse_dump_ArchitectureAttributes (a : ArchitectureAttributes) (h : valid a = true) :
    parseFields a.dumpFields = .ok a := by
  simp only [parseFields,
    lookup_ArchitectureAttributes_architecture_type,
    lookup_ArchitectureAttributes_domain,
    lookup_ArchitectureAttributes_maturity,
    lookup_ArchitectureAttributes_adoption_status,
    lookup_ArchitectureAttributes_alternatives,
    pOpt_map (asEnum ArchitectureType.parse) (fun e => JValue.str (ArchitectureType.tok e)) a.architecture_type (fun x hx => asEnum_tok ArchitectureType_parse_tok x) (fun x => rfl),
    pOpt_map asStr JValue.str a.domain (fun x hx => rfl) (fun x => rfl),
    pOpt_map (asEnum Maturity.parse) (fun e => JValue.str (Maturity.tok e)) a.maturity (fun x hx => asEnum_tok Maturity_parse_tok x) (fun x => rfl),
    pOpt_map (asEnum AdoptionStatus.parse) (fun e => JValue.str (AdoptionStatus.tok e)) a.adoption_status (fun x hx => asEnum_tok AdoptionStatus_parse_tok x) (fun x => rfl),
    pOpt_map (asArr asStr) (fun xs => JValue.arr (List.map JValue.str xs)) a.alternatives (fun xs hx => by simp only [asArr]; exact exList_ok _ _ xs (fun x hxm => rfl)) (fun xs => rfl),
    pReq,
    pDef,
    asStr,
    asBool,
    asArr,
    asDict,
    bind,
    Except.bind]

end ArchitectureAttributes

/-- Model `CapabilityAttributes` of the source, fields in declaration order. -/
structure CapabilityAttributes where
  capability_type : Option CapabilityType
  proficiency : Option Proficiency
  coverage : Option Int
  training_available : Option Bool
  strategic_importance : Option StrategicImportance

namespace CapabilityAttributes

/-- Fields of the mode json, exclude_none dump, in declaration order. -/
def dumpFields (a : CapabilityAttributes) : List (String × JValue) :=
  oField "capability_type" (Option.map (fun e => JValue.str (CapabilityType.tok e)) a.capability_type) ++
  (oField "proficiency" (Option.map (fun e => JValue.str (Proficiency.tok e)) a.proficiency) ++
  (oField "coverage" (Option.map JValue.int a.coverage) ++
  (oField "training_available" (Option.map JValue.bool a.training_available) ++
  (oField "strategic_importance" (Option.map (fun e => JValue.str (StrategicImportance.tok e)) a.strategic_importance)))))

def dump (a : CapabilityAttributes) : JValue := JValue.obj a.dumpFields

/-- Schema validation of a field map, mirroring the pydantic model. -/
def parseFields (kvs : List (String × JValue)) : Except VErr CapabilityAttributes := do
  let capability_type ← pOpt (List.lookup "capability_type" kvs) (asEnum CapabilityType.parse)
  let proficiency ← pOpt (List.lookup "proficiency" kvs) (asEnum Proficiency.parse)
  let coverage ← pOpt (List.lookup "coverage" kvs) (asIntRange "coverage" (some 0) (some 100))
  let training_available ← pOpt (List.lookup "training_available" kvs) asBool
  let strategic_importance ← pOpt (List.lookup "strategic_importance" kvs) (asEnum StrategicImportance.parse)
  .ok ⟨capability_type, proficiency, coverage, training_available, strategic_importance⟩

/-- The values of this record that pydantic could hold (bounds and nested validity). -/
def valid (a : CapabilityAttributes) : Bool :=
  Option.all (fun n => inRange (some 0) (some 100) n) a.coverage

theorem lookup_CapabilityAttributes_capability_type (a : CapabilityAttributes) :
    List.lookup "capability_type" a.dumpFields = Option.map (fun e => JValue.str (CapabilityType.tok e)) a.capability_type := by
  simp [dumpFields, lookup_oField_cons, lookup_oField]

theorem lookup_CapabilityAttributes_proficiency (a : CapabilityAttributes) :
    List.lookup "proficiency" a.dumpFields = Option.map (fun e => JValue.str (Proficiency.tok e)) a.proficiency := by
  simp [dumpFields, lookup_oField_cons, lookup_oField]

theorem lookup_CapabilityAttributes_coverage (a : CapabilityAttributes) :
    List.lookup "coverage" a.dumpFields = Option.map JValue.int a.coverage := by
  simp [dumpFields, lookup_oField_cons, lookup_oField]

theorem lookup_CapabilityAttributes_training_available (a : CapabilityAttributes) :
    List.lookup "training_available" a.dumpFields = Option.map JValue.bool a.training_available := by
  simp [dumpFields, lookup_oField_cons, lookup_oField]

theorem lookup_CapabilityAttributes_strategic_importance (a : CapabilityAttributes) :
    List.lookup "strategic_importance" a.dumpFields = Option.map (fun e => JValue.str (StrategicImportance.tok e)) a.strategic_importance := by
  simp [dumpFields, lookup_oField_cons, lookup_oField]

theorem parse_dump_CapabilityAttributes (a : CapabilityAttributes) (h : valid a = true) :
    parseFields a.dumpFields = .ok a := by
  simp only [valid] at h
  simp only [parseFields,
    lookup_CapabilityAttributes_capability_type,
    lookup_CapabilityAttributes_proficiency,
    lookup_CapabilityAttributes_coverage,
    lookup_CapabilityAttributes_training_available,
    lookup_CapabilityAttributes_strategic_importance,
    pOpt_map (asEnum CapabilityType.parse) (fun e => JValue.str (CapabilityType.tok e)) a.capability_type (fun x hx => asEnum_tok CapabilityType_parse_tok x) (fun x => rfl),
    pOpt_map (asEnum Proficiency.parse) (fun e => JValue.str (Proficiency.tok e)) a.proficiency (fun x hx => asEnum_tok Proficiency_parse_tok x) (fun x => rfl),
    pOpt_map (asIntRange "coverage" (some 0) (some 100)) JValue.int a.coverage (fun x hx => asIntRange_ok (optAll h hx)) (fun x => rfl),
    pOpt_map asBool JValue.bool a.training_available (fun x hx => rfl) (fun x => rfl),
    pOpt_map (asEnum StrategicImportance.parse) (fun e => JValue.str (StrategicImportance.tok e)) a.strategic_importance (fun x hx => asEnum_tok StrategicImportance_parse_tok x) (fun x => rfl),
    pReq,
    pDef,
    asStr,
    asBool,
    asArr,
    asDict,
    bind,
    Except.bind]

end CapabilityAttributes

/-- Model `Validity` of the source, fields in declaration order. -/
structure Validity where
  valid_from : Option String
  valid_until : Option String

namespace Validity

/-- Fields of the mode json, exclude_none dump, in declaration order. -/
def dumpFields (a : Validity) : List (String × JValue) :=
  oField "valid_from" (Option.map JValue.str a.valid_from) ++
  (oField "valid_until" (Option.map JValue.str a.valid_until))

def dump (a : Validity) : JValue := JValue.obj a.dumpFields

/-- Schema validation of a field map, mirroring the pydantic model. -/
def parseFields (kvs : List (String × JValue)) : Except VErr Validity := do
  let valid_from ← pOpt (List.lookup "valid_from" kvs) asStr
  let valid_until ← pOpt (List.lookup "valid_until" kvs) asStr
  .ok ⟨valid_from, valid_until⟩

/-- The values of this record that pydantic could hold (bounds and nested validity). -/
def valid (_a : Validity) : Bool := true

theorem lookup_Validity_valid_from (a : Validity) :
    List.lookup "valid_from" a.dumpFields = Option.map JValue.str a.valid_from := by
  simp [dumpFields, lookup_oField_cons, lookup_oField]

theorem lookup_Validity_valid_until (a : Validity) :
    List.lookup "valid_until" a.dumpFields = Option.map JValue.str a.valid_until := by
  simp [dumpFields, lookup_oField_cons, lookup_oField]

theorem parse_dump_Validity (a : Validity) (h : valid a = true) :
    parseFields a.dumpFields = .ok a := by
  simp only [parseFields,
    lookup_Validity_valid_from,
    lookup_Validity_valid_until,
    pOpt_map asStr JValue.str a.valid_from (fun x hx => rfl) (fun x => rfl),
    pOpt_map asStr JValue.str a.valid_until (fun x hx => rfl) (fun x => rfl),
    pReq,
    pDef,
    asStr,
    asBool,
    asArr,
    asDict,
    bind,
    Except.bind]

end Validity

/-- Model `CRFRelationship` of the source, fields in declaration order. -/
structure CRFRelationship where
  target_id : String
  type : RelationshipType
  description : Option String

namespace CRFRelationship

/-- Fields of the mode json, exclude_none dump, in declaration order. -/
def dumpFields (a : CRFRelationship) : List (String × JValue) :=
  oField "target_id" (some (JValue.str a.target_id)) ++
  (oField "type" (some (JValue.str (RelationshipType.tok a.type))) ++
  (oField "description" (Option.map JValue.str a.description)))

def dump (a : CRFRelationship) : JValue := JValue.obj a.dumpFields

/-- Schema validation of a field map, mirroring the pydantic model. -/
def parseFields (kvs : List (String × JValue)) : Except VErr CRFRelationship := do
  let target_id ← pReq "target_id" (List.lookup "target_id" kvs) asStr
  let type ← pReq "type" (List.lookup "type" kvs) (asEnum RelationshipType.parse)
  let description ← pOpt (List.lookup "description" kvs) asStr
  .ok ⟨target_id, type, description⟩

/-- The values of this record that pydantic could hold (bounds and nested validity). -/
def valid (_a : CRFRelationship) : Bool := true

theorem lookup_CRFRelationship_target_id (a : CRFRelationship) :
    List.lookup "target_id" a.dumpFields = some (JValue.str a.target_id) := by
  simp [dumpFields, lookup_oField_cons, lookup_oField]

theorem lookup_CRFRelationship_type (a : CRFRelationship) :
    List.lookup "type" a.dumpFields = some (JValue.str (RelationshipType.tok a.type)) := by
  simp [dumpFields, lookup_oField_cons, lookup_oField]

theorem lookup_CRFRelationship_description (a : CRFRelationship) :
    List.lookup "description" a.dumpFields = Option.map JValue.str a.description := by
  simp [dumpFields, lookup_oField_cons, lookup_oField]

theorem parse_dump_CRFRelationship (a : CRFRelationship) (h : valid a = true) :
    parseFields a.dumpFields = .ok a := by
  simp only [parseFields,
    lookup_CRFRelationship_target_id,
    lookup_CRFRelationship_type,
    lookup_CRFRelationship_description,
    pOpt_map asStr JValue.str a.description (fun x hx => rfl) (fun x => rfl),
    asEnum_tok RelationshipType_parse_tok,
    pReq,
    pDef,
    asStr,
    asBool,
    asArr,
    asDict,
    bind,
    Except.bind]

end CRFRelationship

/-- Model `Supersedes` of the source, fields in declaration order. -/
structure Supersedes where
  entity_id : String
  reason : Option String
  superseded_at : Option String

namespace Supersedes

/-- Fields of the mode json, exclude_none dump, in declaration order. -/
def dumpFields (a : Supersedes) : List (String × JValue) :=
  oField "entity_id" (some (JValue.str a.entity_id)) ++
  (oField "reason" (Option.map JValue.str a.reason) ++
  (oField "superseded_at" (Option.map JValue.str a.superseded_at)))

def dump (a : Supersedes) : JValue := JValue.obj a.dumpFields

/-- Schema validation of a field map, mirroring the pydantic model. -/
def parseFields (kvs : List (String × JValue)) : Except VErr Supersedes := do
  let entity_id ← pReq "entity_id" (List.lookup "entity_id" kvs) asStr
  let reason ← pOpt (List.lookup "reason" kvs) asStr
  let superseded_at ← pOpt (List.lookup "superseded_at" kvs) asStr
  .ok ⟨entity_id, reason, superseded_at⟩

/-- The values of this record that pydantic could hold (bounds and nested validity). -/
def valid (_a : Supersedes) : Bool := true

theorem lookup_Supersedes_entity_id (a : Supersedes) :
    List.lookup "entity_id" a.dumpFields = some (JValue.str a.entity_id) := by
  simp [dumpFields, lookup_oField_cons, lookup_oField]

theorem lookup_Supersedes_reason (a : Supersedes) :
    List.lookup "reason" a.dumpFields = Option.map JValue.str a.reason := by
  simp [dumpFields, lookup_oField_cons, lookup_oField]

theorem lookup_Supersedes_superseded_at (a : Supersedes) :
    List.lookup "superseded_at" a.dumpFields = Option.map JValue.str a.superseded_at := by
  simp [dumpFields, lookup_oField_cons, lookup_oField]

theorem parse_dump_Supersedes (a : Supersedes) (h : valid a = true) :
    parseFields a.dumpFields = .ok a := by
  simp only [parseFields,
    lookup_Supersedes_entity_id,
    lookup_Supersedes_reason,
    lookup_Supersedes_superseded_at,
    pOpt_map asStr JValue.str a.reason (fun x hx => rfl) (fun x => rfl),
    pOpt_map asStr JValue.str a.superseded_at (fun x hx => rfl) (fun x => rfl),
    pReq,
    pDef,
    asStr,
    asBool,
    asArr,
    asDict,
    bind,
    Except.bind]

end Supersedes

/-- Model `Provenance` of the source, fields in declaration order. -/
structure Provenance where
  source : String
  created_at : String
  created_by : Option String
  updated_at : Option String
  updated_by : Option String

namespace Provenance

/-- Fields of the mode json, exclude_none dump, in declaration order. -/
def dumpFields (a : Provenance) : List (String × JValue) :=
  oField "source" (some (JValue.str a.source)) ++
  (oField "created_at" (some (JValue.str a.created_at)) ++
  (oField "created_by" (Option.map JValue.str a.created_by) ++
  (oField "updated_at" (Option.map JValue.str a.updated_at) ++
  (oField "updated_by" (Option.map JValue.str a.updated_by)))))

def dump (a : Provenance) : JValue := JValue.obj a.dumpFields

/-- Schema validation of a field map, mirroring the pydantic model. -/
def parseFields (env : GenEnv) (kvs : List (String × JValue)) : Except VErr Provenance := do
  let source ← pReq "source" (List.lookup "source" kvs) asStr
  let created_at ← pDef (List.lookup "created_at" kvs) env.now asStr
  let created_by ← pOpt (List.lookup "created_by" kvs) asStr
  let updated_at ← pOpt (List.lookup "updated_at" kvs) asStr
  let updated_by ← pOpt (List.lookup "updated_by" kvs) asStr
  .ok ⟨source, created_at, created_by, updated_at, updated_by⟩

/-- The values of this record that pydantic could hold (bounds and nested validity). -/
def valid (_a : Provenance) : Bool := true

theorem lookup_Provenance_source (a : Provenance) :
    List.lookup "source" a.dumpFields = some (JValue.str a.source) := by
  simp [dumpFields, lookup_oField_cons, lookup_oField]

theorem lookup_Provenance_created_at (a : Provenance) :
    List.lookup "created_at" a.dumpFields = some (JValue.str a.created_at) := by
  simp [dumpFields, lookup_oField_cons, lookup_oField]

theorem lookup_Provenance_created_by (a : Provenance) :
    List.lookup "created_by" a.dumpFields = Option.map JValue.str a.created_by := by
  simp [dumpFields, lookup_oField_cons, lookup_oField]

theorem lookup_Provenance_updated_at (a : Provenance) :
    List.lookup "updated_at" a.dumpFields = Option.map JValue.str a.updated_at := by
  simp [dumpFields, lookup_oField_cons, lookup_oField]

theorem lookup_Provenance_updated_by (a : Provenance) :
    List.lookup "updated_by" a.dumpFields = Option.map JValue.str a.updated_by := by
  simp [dumpFields, lookup_oField_cons, lookup_oField]

theorem parse_dump_Provenance (env : GenEnv) (a : Provenance) (h : valid a = true) :
    parseFields env a.dumpFields = .ok a := by
  simp only [parseFields,
    lookup_Provenance_source,
    lookup_Provenance_created_at,
    lookup_Provenance_created_by,
    lookup_Provenance_updated_at,
    lookup_Provenance_updated_by,
    pOpt_map asStr JValue.str a.created_by (fun x hx => rfl) (fun x => rfl),
    pOpt_map asStr JValue.str a.updated_at (fun x hx => rfl) (fun x => rfl),
    pOpt_map asStr JValue.str a.updated_by (fun x hx => rfl) (fun x => rfl),
    pReq,
    pDef,
    asStr,
    asBool,
    asArr,
    asDict,
    bind,
    Except.bind]

end Provenance

/-- Model `Constraint` of the source, fields in declaration order. -/
structure Constraint where
  description : String
  source : Option String
  negotiable : Bool

namespace Constraint

/-- Fields of the mode json, exclude_none dump, in declaration order. -/
def dumpFields (a : Constraint) : List (String × JValue) :=
  oField "description" (some (JValue.str a.description)) ++
  (oField "source" (Option.map JValue.str a.source) ++
  (oField "negotiable" (some (JValue.bool a.negotiable))))

def dump (a : Constraint) : JValue := JValue.obj a.dumpFields

/-- Schema validation of a field map, mirroring the pydantic model. -/
def parseFields (kvs : List (String × JValue)) : Except VErr Constraint := do
  let description ← pReq "description" (List.lookup "description" kvs) asStr
  let source ← pOpt (List.lookup "source" kvs) asStr
  let negotiable ← pDef (List.lookup "negotiable" kvs) false asBool
  .ok ⟨description, source, negotiable⟩

/-- The values of this record that pydantic could hold (bounds and nested validity). -/
def valid (_a : Constraint) : Bool := true

theorem lookup_Constraint_description (a : Constraint) :
    List.lookup "description" a.dumpFields = some (JValue.str a.description) := by
  simp [dumpFields, lookup_oField_cons, lookup_oField]

theorem lookup_Constraint_source (a : Constraint) :
    List.lookup "source" a.dumpFields = Option.map JValue.str a.source := by
  simp [dumpFields, lookup_oField_cons, lookup_oField]

theorem lookup_Constraint_negotiable (a : Constraint) :
    List.lookup "negotiable" a.dumpFields = some (JValue.bool a.negotiable) := by
  simp [dumpFields, lookup_oField_cons, lookup_oField]

theorem parse_dump_Constraint (a : Constraint) (h : valid a = true) :
    parseFields a.dumpFields = .ok a := by
  simp only [parseFields,
    lookup_Constraint_description,
    lookup_Constraint_source,
    lookup_Constraint_negotiable,
    pOpt_map asStr JValue.str a.source (fun x hx => rfl) (fun x => rfl),
    pReq,
    pDef,
    asStr,
    asBool,
    asArr,
    asDict,
    bind,
    Except.bind]

end Constraint

/-- Model `Objective` of the source, fields in declaration order. -/
structure Objective where
  description : String
  priority : Option Priority
  measurable : Bool

namespace Objective

/-- Fields of the mode json, exclude_none dump, in declaration order. -/
def dumpFields (a : Objective) : List (String × JValue) :=
  oField "description" (some (JValue.str a.description)) ++
  (oField "priority" (Option.map (fun e => JValue.str (Priority.tok e)) a.priority) ++
  (oField "measurable" (some (JValue.bool a.measurable))))

def dump (a : Objective) : JValue := JValue.obj a.dumpFields

/-- Schema validation of a field map, mirroring the pydantic model. -/
def parseFields (kvs : List (String × JValue)) : Except VErr Objective := do
  let description ← pReq "description" (List.lookup "description" kvs) asStr
  let priority ← pOpt (List.lookup "priority" kvs) (asEnum Priority.parse)
  let measurable ← pDef (List.lookup "measurable" kvs) false asBool
  .ok ⟨description, priority, measurable⟩

/-- The values of this record that pydantic could hold (bounds and nested validity). -/
def valid (_a : Objective) : Bool := true

theorem lookup_Objective_description (a : Objective) :
    List.lookup "description" a.dumpFields = some (JValue.str a.description) := by
  simp [dumpFields, lookup_oField_cons, lookup_oField]

theorem lookup_Objective_priority (a : Objective) :
    List.lookup "priority" a.dumpFields = Option.map (fun e => JValue.str (Priority.tok e)) a.priority := by
  simp [dumpFields, lookup_oField_cons, lookup_oField]

theorem lookup_Objective_measurable (a : Objective) :
    List.lookup "measurable" a.dumpFields = some (JValue.bool a.measurable) := by
  simp [dumpFields, lookup_oField_cons, lookup_oField]

theorem parse_dump_Objective (a : Objective) (h : valid a = true) :
    parseFields a.dumpFields = .ok a := by
  simp only [parseFields,
    lookup_Objective_description,
    lookup_Objective_priority,
    lookup_Objective_measurable,
    pOpt_map (asEnum Priority.parse) (fun e => JValue.str (Priority.tok e)) a.priority (fun x hx => asEnum_tok Priority_parse_tok x) (fun x => rfl),
    pReq,
    pDef,
    asStr,
    asBool,
    asArr,
    asDict,
    bind,
    Except.bind]

end Objective

/-- Model `Environment` of the source, fields in declaration order. -/
structure Environment where
  technical : Option String
  organizational : Option String
  temporal : Option String

namespace Environment

/-- Fields of the mode json, exclude_none dump, in declaration order. -/
def dumpFields (a : Environment) : List (String × JValue) :=
  oField "technical" (Option.map JValue.str a.technical) ++
  (oField "organizational" (Option.map JValue.str a.organizational) ++
  (oField "temporal" (Option.map JValue.str a.temporal)))

def dump (a : Environment) : JValue := JValue.obj a.dumpFields

/-- Schema validation of a field map, mirroring the pydantic model. -/
def parseFields (kvs : List (String × JValue)) : Except VErr Environment := do
  let technical ← pOpt (List.lookup "technical" kvs) asStr
  let organizational ← pOpt (List.lookup "organizational" kvs) asStr
  let temporal ← pOpt (List.lookup "temporal" kvs) asStr
  .ok ⟨technical, organizational, temporal⟩

/-- The values of this record that pydantic could hold (bounds and nested validity). -/
def valid (_a : Environment) : Bool := true

theorem lookup_Environment_technical (a : Environment) :
    List.lookup "technical" a.dumpFields = Option.map JValue.str a.technical := by
  simp [dumpFields, lookup_oField_cons, lookup_oField]

theorem lookup_Environment_organizational (a : Environment) :
    List.lookup "organizational" a.dumpFields = Option.map JValue.str a.organizational := by
  simp [dumpFields, lookup_oField_cons, lookup_oField]

theorem lookup_Environment_temporal (a : Environment) :
    List.lookup "temporal" a.dumpFields = Option.map JValue.str a.temporal := by
  simp [dumpFields, lookup_oField_cons, lookup_oField]

theorem parse_dump_Environment (a : Environment) (h : valid a = true) :
    parseFields a.dumpFields = .ok a := by
  simp only [parseFields,
    lookup_Environment_technical,
    lookup_Environment_organizational,
    lookup_Environment_temporal,
    pOpt_map asStr JValue.str a.technical (fun x hx => rfl) (fun x => rfl),
    pOpt_map asStr JValue.str a.organizational (fun x hx => rfl) (fun x => rfl),
    pOpt_map asStr JValue.str a.temporal (fun x hx => rfl) (fun x => rfl),
    pReq,
    pDef,
    asStr,
    asBool,
    asArr,
    asDict,
    bind,
    Except.bind]

end Environment

/-- Model `RelatedDecision` of the source, fields in declaration order. -/
structure RelatedDecision where
  id : String
  relationship : Relationship
  description : Option String

namespace RelatedDecision

/-- Fields of the mode json, exclude_none dump, in declaration order. -/
def dumpFields (a : RelatedDecision) : List (String × JValue) :=
  oField "id" (some (JValue.str a.id)) ++
  (oField "relationship" (some (JValue.str (Relationship.tok a.relationship))) ++
  (oField "description" (Option.map JValue.str a.description)))

def dump (a : RelatedDecision) : JValue := JValue.obj a.dumpFields

/-- Schema validation of a field map, mirroring the pydantic model. -/
def parseFields (kvs : List (String × JValue)) : Except VErr RelatedDecision := do
  let id ← pReq "id" (List.lookup "id" kvs) asStr
  let relationship ← pReq "relationship" (List.lookup "relationship" kvs) (asEnum Relationship.parse)
  let description ← pOpt (List.lookup "description" kvs) asStr
  .ok ⟨id, relationship, description⟩

/-- The values of this record that pydantic could hold (bounds and nested validity). -/
def valid (_a : RelatedDecision) : Bool := true

theorem lookup_RelatedDecision_id (a : RelatedDecision) :
    List.lookup "id" a.dumpFields = some (JValue.str a.id) := by
  simp [dumpFields, lookup_oField_cons, lookup_oField]

theorem lookup_RelatedDecision_relationship (a : RelatedDecision) :
    List.lookup "relationship" a.dumpFields = some (JValue.str (Relationship.tok a.relationship)) := by
  simp [dumpFields, lookup_oField_cons, lookup_oField]

theorem lookup_RelatedDecision_description (a : RelatedDecision) :
    List.lookup "description" a.dumpFields = Option.map JValue.str a.description := by
  simp [dumpFields, lookup_oField_cons, lookup_oField]

theorem parse_dump_RelatedDecision (a : RelatedDecision) (h : valid a = true) :
    parseFields a.dumpFields = .ok a := by
  simp only [parseFields,
    lookup_RelatedDecision_id,
    lookup_RelatedDecision_relationship,
    lookup_RelatedDecision_description,
    pOpt_map asStr JValue.str a.description (fun x hx => rfl) (fun x => rfl),
    asEnum_tok Relationship_parse_tok,
    pReq,
    pDef,
    asStr,
    asBool,
    asArr,
    asDict,
    bind,
    Except.bind]

end RelatedDecision

/-- Model `Intervention` of the source, fields in declaration order. -/
structure Intervention where
  id : String
  type : InterventionType
  content : String
  source : Option String
  timestamp : Option String
  impact : Option String

namespace Intervention

/-- Fields of the mode json, exclude_none dump, in declaration order. -/
def dumpFields (a : Intervention) : List (String × JValue) :=
  oField "id" (some (JValue.str a.id)) ++
  (oField "type" (some (JValue.str (InterventionType.tok a.type))) ++
  (oField "content" (some (JValue.str a.content)) ++
  (oField "source" (Option.map JValue.str a.source) ++
  (oField "timestamp" (Option.map JValue.str a.timestamp) ++
  (oField "impact" (Option.map JValue.str a.impact))))))

def dump (a : Intervention) : JValue := JValue.obj a.dumpFields

/-- Schema validation of a field map, mirroring the pydantic model. -/
def parseFields (kvs : List (String × JValue)) : Except VErr Intervention := do
  let id ← pReq "id" (List.lookup "id" kvs) asStr
  let type ← pReq "type" (List.lookup "type" kvs) (asEnum InterventionType.parse)
  let content ← pReq "content" (List.lookup "content" kvs) asStr
  let source ← pOpt (List.lookup "source" kvs) asStr
  let timestamp ← pOpt (List.lookup "timestamp" kvs) asStr
  let impact ← pOpt (List.lookup "impact" kvs) asStr
  .ok ⟨id, type, content, source, timestamp, impact⟩

/-- The values of this record that pydantic could hold (bounds and nested validity). -/
def valid (_a : Intervention) : Bool := true

theorem lookup_Intervention_id (a : Intervention) :
    List.lookup "id" a.dumpFields = some (JValue.str a.id) := by
  simp [dumpFields, lookup_oField_cons, lookup_oField]

theorem lookup_Intervention_type (a : Intervention) :
    List.lookup "type" a.dumpFields = some (JValue.str (InterventionType.tok a.type)) := by
  simp [dumpFields, lookup_oField_cons, lookup_oField]

theorem lookup_Intervention_content (a : Intervention) :
    List.lookup "content" a.dumpFields = some (JValue.str a.content) := by
  simp [dumpFields, lookup_oField_cons, lookup_oField]

theorem lookup_Intervention_source (a : Intervention) :
    List.lookup "source" a.dumpFields = Option.map JValue.str a.source := by
  simp [dumpFields, lookup_oField_cons, lookup_oField]

theorem lookup_Intervention_timestamp (a : Intervention) :
    List.lookup "timestamp" a.dumpFields = Option.map JValue.str a.timestamp := by
  simp [dumpFields, lookup_oField_cons, lookup_oField]

theorem lookup_Intervention_impact (a : Intervention) :
    List.lookup "impact" a.dumpFields = Option.map JValue.str a.impact := by
  simp [dumpFields, lookup_oField_cons, lookup_oField]

theorem parse_dump_Intervention (a : Intervention) (h : valid a = true) :
    parseFields a.dumpFields = .ok a := by
  simp only [parseFields,
    lookup_Intervention_id,
    lookup_Intervention_type,
    lookup_Intervention_content,
    lookup_Intervention_source,
    lookup_Intervention_timestamp,
    lookup_Intervention_impact,
    pOpt_map asStr JValue.str a.source (fun x hx => rfl) (fun x => rfl),
    pOpt_map asStr JValue.str a.timestamp (fun x hx => rfl) (fun x => rfl),
    pOpt_map asStr JValue.str a.impact (fun x hx => rfl) (fun x => rfl),
    asEnum_tok InterventionType_parse_tok,
    pReq,
    pDef,
    asStr,
    asBool,
    asArr,
    asDict,
    bind,
    Except.bind]

end Intervention

/-- Model `Assumption` of the source, fields in declaration order. -/
structure Assumption where
  description : String
  validated : Bool
  confidence : Option Int
  source : Option String

namespace Assumption

/-- Fields of the mode json, exclude_none dump, in declaration order. -/
def dumpFields (a : Assumption) : List (String × JValue) :=
  oField "description" (some (JValue.str a.description)) ++
  (oField "validated" (some (JValue.bool a.validated)) ++
  (oField "confidence" (Option.map JValue.int a.confidence) ++
  (oField "source" (Option.map JValue.str a.source))))

def dump (a : Assumption) : JValue := JValue.obj a.dumpFields

/-- Schema validation of a field map, mirroring the pydantic model. -/
def parseFields (kvs : List (String × JValue)) : Except VErr Assumption := do
  let description ← pReq "description" (List.lookup "description" kvs) asStr
  let validated ← pReq "validated" (List.lookup "validated" kvs) asBool
  let confidence ← pOpt (List.lookup "confidence" kvs) (asIntRange "confidence" (some 0) (some 100))
  let source ← pOpt (List.lookup "source" kvs) asStr
  .ok ⟨description, validated, confidence, source⟩

/-- The values of this record that pydantic could hold (bounds and nested validity). -/
def valid (a : Assumption) : Bool :=
  Option.all (fun n => inRange (some 0) (some 100) n) a.confidence

theorem lookup_Assumption_description (a : Assumption) :
    List.lookup "description" a.dumpFields = some (JValue.str a.description) := by
  simp [dumpFields, lookup_oField_cons, lookup_oField]

theorem lookup_Assumption_validated (a : Assumption) :
    List.lookup "validated" a.dumpFields = some (JValue.bool a.validated) := by
  simp [dumpFields, lookup_oField_cons, lookup_oField]

theorem lookup_Assumption_confidence (a : Assumption) :
    List.lookup "confidence" a.dumpFields = Option.map JValue.int a.confidence := by
  simp [dumpFields, lookup_oField_cons, lookup_oField]

theorem lookup_Assumption_source (a : Assumption) :
    List.lookup "source" a.dumpFields = Option.map JValue.str a.source := by
  simp [dumpFields, lookup_oField_cons, lookup_oField]

theorem parse_dump_Assumption (a : Assumption) (h : valid a = true) :
    parseFields a.dumpFields = .ok a := by
  simp only [valid] at h
  simp only [parseFields,
    lookup_Assumption_description,
    lookup_Assumption_validated,
    lookup_Assumption_confidence,
    lookup_Assumption_source,
    pOpt_map (asIntRange "confidence" (some 0) (some 100)) JValue.int a.confidence (fun x hx => asIntRange_ok (optAll h hx)) (fun x => rfl),
    pOpt_map asStr JValue.str a.source (fun x hx => rfl) (fun x => rfl),
    pReq,
    pDef,
    asStr,
    asBool,
    asArr,
    asDict,
    bind,
    Except.bind]

end Assumption

/-- Model `Tension` of the source, fields in declaration order. -/
structure Tension where
  description : String
  impact : Impact
  mitigation : Option String
  accepted_by : Option String

namespace Tension

/-- Fields of the mode json, exclude_none dump, in declaration order. -/
def dumpFields (a : Tension) : List (String × JValue) :=
  oField "description" (some (JValue.str a.description)) ++
  (oField "impact" (some (JValue.str (Impact.tok a.impact))) ++
  (oField "mitigation" (Option.map JValue.str a.mitigation) ++
  (oField "accepted_by" (Option.map JValue.str a.accepted_by))))

def dump (a : Tension) : JValue := JValue.obj a.dumpFields

/-- Schema validation of a field map, mirroring the pydantic model. -/
def parseFields (kvs : List (String × JValue)) : Except VErr Tension := do
  let description ← pReq "description" (List.lookup "description" kvs) asStr
  let impact ← pReq "impact" (List.lookup "impact" kvs) (asEnum Impact.parse)
  let mitigation ← pOpt (List.lookup "mitigation" kvs) asStr
  let accepted_by ← pOpt (List.lookup "accepted_by" kvs) asStr
  .ok ⟨description, impact, mitigation, accepted_by⟩

/-- The values of this record that pydantic could hold (bounds and nested validity). -/
def valid (_a : Tension) : Bool := true

theorem lookup_Tension_description (a : Tension) :
    List.lookup "description" a.dumpFields = some (JValue.str a.description) := by
  simp [dumpFields, lookup_oField_cons, lookup_oField]

theorem lookup_Tension_impact (a : Tension) :
    List.lookup "impact" a.dumpFields = some (JValue.str (Impact.tok a.impact)) := by
  simp [dumpFields, lookup_oField_cons, lookup_oField]

theorem lookup_Tension_mitigation (a : Tension) :
    List.lookup "mitigation" a.dumpFields = Option.map JValue.str a.mitigation := by
  simp [dumpFields, lookup_oField_cons, lookup_oField]

theorem lookup_Tension_accepted_by (a : Tension) :
    List.lookup "accepted_by" a.dumpFields = Option.map JValue.str a.accepted_by := by
  simp [dumpFields, lookup_oField_cons, lookup_oField]

theorem parse_dump_Tension (a : Tension) (h : valid a = true) :
    parseFields a.dumpFields = .ok a := by
  simp only [parseFields,
    lookup_Tension_description,
    lookup_Tension_impact,
    lookup_Tension_mitigation,
    lookup_Tension_accepted_by,
    pOpt_map asStr JValue.str a.mitigation (fun x hx => rfl) (fun x => rfl),
    pOpt_map asStr JValue.str a.accepted_by (fun x hx => rfl) (fun x => rfl),
    asEnum_tok Impact_parse_tok,
    pReq,
    pDef,
    asStr,
    asBool,
    asArr,
    asDict,
    bind,
    Except.bind]

end Tension

/-- Model `FollowUp` of the source, fields in declaration order. -/
structure FollowUp where
  action : String
  owner : Option String
  due_date : Option String

namespace FollowUp

/-- Fields of the mode json, exclude_none dump, in declaration order. -/
def dumpFields (a : FollowUp) : List (String × JValue) :=
  oField "action" (some (JValue.str a.action)) ++
  (oField "owner" (Option.map JValue.str a.owner) ++
  (oField "due_date" (Option.map JValue.str a.due_date)))

def dump (a : FollowUp) : JValue := JValue.obj a.dumpFields

/-- Schema validation of a field map, mirroring the pydantic model. -/
def parseFields (kvs : List (String × JValue)) : Except VErr FollowUp := do
  let action ← pReq "action" (List.lookup "action" kvs) asStr
  let owner ← pOpt (List.lookup "owner" kvs) asStr
  let due_date ← pOpt (List.lookup "due_date" kvs) asStr
  .ok ⟨action, owner, due_date⟩

/-- The values of this record that pydantic could hold (bounds and nested validity). -/
def valid (_a : FollowUp) : Bool := true

theorem lookup_FollowUp_action (a : FollowUp) :
    List.lookup "action" a.dumpFields = some (JValue.str a.action) := by
  simp [dumpFields, lookup_oField_cons, lookup_oField]

theorem lookup_FollowUp_owner (a : FollowUp) :
    List.lookup "owner" a.dumpFields = Option.map JValue.str a.owner := by
  simp [dumpFields, lookup_oField_cons, lookup_oField]

theorem lookup_FollowUp_due_date (a : FollowUp) :
    List.lookup "due_date" a.dumpFields = Option.map JValue.str a.due_date := by
  simp [dumpFields, lookup_oField_cons, lookup_oField]

theorem parse_dump_FollowUp (a : FollowUp) (h : valid a = true) :
    parseFields a.dumpFields = .ok a := by
  simp only [parseFields,
    lookup_FollowUp_action,
    lookup_FollowUp_owner,
    lookup_FollowUp_due_date,
    pOpt_map asStr JValue.str a.owner (fun x hx => rfl) (fun x => rfl),
    pOpt_map asStr JValue.str a.due_date (fun x hx => rfl) (fun x => rfl),
    pReq,
    pDef,
    asStr,
    asBool,
    asArr,
    asDict,
    bind,
    Except.bind]

end FollowUp

/-- Model `DecisionAlternative` of the source, fields in declaration order. -/
structure DecisionAlternative where
  decision : String
  rationale_against : String
  conditions_for_reconsideration : Option String

namespace DecisionAlternative

/-- Fields of the mode json, exclude_none dump, in declaration order. -/
def dumpFields (a : DecisionAlternative) : List (String × JValue) :=
  oField "decision" (some (JValue.str a.decision)) ++
  (oField "rationale_against" (some (JValue.str a.rationale_against)) ++
  (oField "conditions_for_reconsideration" (Option.map JValue.str a.conditions_for_reconsideration)))

def dump (a : DecisionAlternative) : JValue := JValue.obj a.dumpFields

/-- Schema validation of a field map, mirroring the pydantic model. -/
def parseFields (kvs : List (String × JValue)) : Except VErr DecisionAlternative := do
  let decision ← pReq "decision" (List.lookup "decision" kvs) asStr
  let rationale_against ← pReq "rationale_against" (List.lookup "rationale_against" kvs) asStr
  let conditions_for_reconsideration ← pOpt (List.lookup "conditions_for_reconsideration" kvs) asStr
  .ok ⟨decision, rationale_against, conditions_for_reconsideration⟩

/-- The values of this record that pydantic could hold (bounds and nested validity). -/
def valid (_a : DecisionAlternative) : Bool := true

theorem lookup_DecisionAlternative_decision (a : DecisionAlternative) :
    List.lookup "decision" a.dumpFields = some (JValue.str a.decision) := by
  simp [dumpFields, lookup_oField_cons, lookup_oField]

theorem lookup_DecisionAlternative_rationale_against (a : DecisionAlternative) :
    List.lookup "rationale_against" a.dumpFields = some (JValue.str a.rationale_against) := by
  simp [dumpFields, lookup_oField_cons, lookup_oField]

theorem lookup_DecisionAlternative_conditions_for_reconsideration (a : DecisionAlternative) :
    List.lookup "conditions_for_reconsideration" a.dumpFields = Option.map JValue.str a.conditions_for_reconsideration := by
  simp [dumpFields, lookup_oField_cons, lookup_oField]

theorem parse_dump_DecisionAlternative (a : DecisionAlternative) (h : valid a = true) :
    parseFields a.dumpFields = .ok a := by
  simp only [parseFields,
    lookup_DecisionAlternative_decision,
    lookup_DecisionAlternative_rationale_against,
    lookup_DecisionAlternative_conditions_for_reconsideration,
    pOpt_map asStr JValue.str a.conditions_for_reconsideration (fun x hx => rfl) (fun x => rfl),
    pReq,
    pDef,
    asStr,
    asBool,
    asArr,
    asDict,
    bind,
    Except.bind]

end DecisionAlternative

/-- Model `Actor` of the source, fields in declaration order. -/
structure Actor where
  name : String
  role : Role
  email : Option String

namespace Actor

/-- Fields of the mode json, exclude_none dump, in declaration order. -/
def dumpFields (a : Actor) : List (String × JValue) :=
  oField "name" (some (JValue.str a.name)) ++
  (oField "role" (some (JValue.str (Role.tok a.role))) ++
  (oField "email" (Option.map JValue.str a.email)))

def dump (a : Actor) : JValue := JValue.obj a.dumpFields

/-- Schema validation of a field map, mirroring the pydantic model. -/
def parseFields (kvs : List (String × JValue)) : Except VErr Actor := do
  let name ← pReq "name" (List.lookup "name" kvs) asStr
  let role ← pReq "role" (List.lookup "role" kvs) (asEnum Role.parse)
  let email ← pOpt (List.lookup "email" kvs) asEmail
  .ok ⟨name, role, email⟩

/-- The values of this record that pydantic could hold (bounds and nested validity). -/
def valid (a : Actor) : Bool :=
  Option.all emailOk a.email

theorem lookup_Actor_name (a : Actor) :
    List.lookup "name" a.dumpFields = some (JValue.str a.name) := by
  simp [dumpFields, lookup_oField_cons, lookup_oField]

theorem lookup_Actor_role (a : Actor) :
    List.lookup "role" a.dumpFields = some (JValue.str (Role.tok a.role)) := by
  simp [dumpFields, lookup_oField_cons, lookup_oField]

theorem lookup_Actor_email (a : Actor) :
    List.lookup "email" a.dumpFields = Option.map JValue.str a.email := by
  simp [dumpFields, lookup_oField_cons, lookup_oField]

theorem parse_dump_Actor (a : Actor) (h : valid a = true) :
    parseFields a.dumpFields = .ok a := by
  simp only [valid] at h
  simp only [parseFields,
    lookup_Actor_name,
    lookup_Actor_role,
    lookup_Actor_email,
    pOpt_map asEmail JValue.str a.email (fun x hx => asEmail_ok (optAll h hx)) (fun x => rfl),
    asEnum_tok Role_parse_tok,
    pReq,
    pDef,
    asStr,
    asBool,
    asArr,
    asDict,
    bind,
    Except.bind]

end Actor

/-- Model `ContextRef` of the source, fields in declaration order. -/
structure ContextRef where
  context_id : String
  context_type : ContextEntityType
  context_name : Option String
  validation_status : ValidationStatus
  advisory_notes : Option String

namespace ContextRef

/-- Fields of the mode json, exclude_none dump, in declaration order. -/
def dumpFields (a : ContextRef) : List (String × JValue) :=
  oField "context_id" (some (JValue.str a.context_id)) ++
  (oField "context_type" (some (JValue.str (ContextEntityType.tok a.context_type))) ++
  (oField "context_name" (Option.map JValue.str a.context_name) ++
  (oField "validation_status" (some (JValue.str (ValidationStatus.tok a.validation_status))) ++
  (oField "advisory_notes" (Option.map JValue.str a.advisory_notes)))))

def dump (a : ContextRef) : JValue := JValue.obj a.dumpFields

/-- Schema validation of a field map, mirroring the pydantic model. -/
def parseFields (kvs : List (String × JValue)) : Except VErr ContextRef := do
  let context_id ← pReq "context_id" (List.lookup "context_id" kvs) asStr
  let context_type ← pReq "context_type" (List.lookup "context_type" kvs) (asEnum ContextEntityType.parse)
  let context_name ← pOpt (List.lookup "context_name" kvs) asStr
  let validation_status ← pReq "validation_status" (List.lookup "validation_status" kvs) (asEnum ValidationStatus.parse)
  let advisory_notes ← pOpt (List.lookup "advisory_notes" kvs) asStr
  .ok ⟨context_id, context_type, context_name, validation_status, advisory_notes⟩

/-- The values of this record that pydantic could hold (bounds and nested validity). -/
def valid (_a : ContextRef) : Bool := true

theorem lookup_ContextRef_context_id (a : ContextRef) :
    List.lookup "context_id" a.dumpFields = some (JValue.str a.context_id) := by
  simp [dumpFields, lookup_oField_cons, lookup_oField]

theorem lookup_ContextRef_context_type (a : ContextRef) :
    List.lookup "context_type" a.dumpFields = some (JValue.str (ContextEntityType.tok a.context_type)) := by
  simp [dumpFields, lookup_oField_cons, lookup_oField]

theorem lookup_ContextRef_context_name (a : ContextRef) :
    List.lookup "context_name" a.dumpFields = Option.map JValue.str a.context_name := by
  simp [dumpFields, lookup_oField_cons, lookup_oField]

theorem lookup_ContextRef_validation_status (a : ContextRef) :
    List.lookup "validation_status" a.dumpFields = some (JValue.str (ValidationStatus.tok a.validation_status)) := by
  simp [dumpFields, lookup_oField_cons, lookup_oField]

theorem lookup_ContextRef_advisory_notes (a : ContextRef) :
    List.lookup "advisory_notes" a.dumpFields = Option.map JValue.str a.advisory_notes := by
  simp [dumpFields, lookup_oField_cons, lookup_oField]

theorem parse_dump_ContextRef (a : ContextRef) (h : valid a = true) :
    parseFields a.dumpFields = .ok a := by
  simp only [parseFields,
    lookup_ContextRef_context_id,
    lookup_ContextRef_context_type,
    lookup_ContextRef_context_name,
    lookup_ContextRef_validation_status,
    lookup_ContextRef_advisory_notes,
    pOpt_map asStr JValue.str a.context_name (fun x hx => rfl) (fun x => rfl),
    pOpt_map asStr JValue.str a.advisory_notes (fun x hx => rfl) (fun x => rfl),
    asEnum_tok ContextEntityType_parse_tok,
    asEnum_tok ValidationStatus_parse_tok,
    pReq,
    pDef,
    asStr,
    asBool,
    asArr,
    asDict,
    bind,
    Except.bind]

end ContextRef

/-- Model `ContextOutput` of the source, fields in declaration order. -/
structure ContextOutput where
  action : ContextAction
  entity_type : ContextEntityType
  entity_id : Option String
  entity_data : Option (List (String × JValue))
  reason : Option String

namespace ContextOutput

/-- Fields of the mode json, exclude_none dump, in declaration order. -/
def dumpFields (a : ContextOutput) : List (String × JValue) :=
  oField "action" (some (JValue.str (ContextAction.tok a.action))) ++
  (oField "entity_type" (some (JValue.str (ContextEntityType.tok a.entity_type))) ++
  (oField "entity_id" (Option.map JValue.str a.entity_id) ++
  (oField "entity_data" (Option.map JValue.obj a.entity_data) ++
  (oField "reason" (Option.map JValue.str a.reason)))))

def dump (a : ContextOutput) : JValue := JValue.obj a.dumpFields

/-- Schema validation of a field map, mirroring the pydantic model. -/
def parseFields (kvs : List (String × JValue)) : Except VErr ContextOutput := do
  let action ← pReq "action" (List.lookup "action" kvs) (asEnum ContextAction.parse)
  let entity_type ← pReq "entity_type" (List.lookup "entity_type" kvs) (asEnum ContextEntityType.parse)
  let entity_id ← pOpt (List.lookup "entity_id" kvs) asStr
  let entity_data ← pOpt (List.lookup "entity_data" kvs) asDict
  let reason ← pOpt (List.lookup "reason" kvs) asStr
  .ok ⟨action, entity_type, entity_id, entity_data, reason⟩

/-- The values of this record that pydantic could hold (bounds and nested validity). -/
def valid (_a : ContextOutput) : Bool := true

theorem lookup_ContextOutput_action (a : ContextOutput) :
    List.lookup "action" a.dumpFields = some (JValue.str (ContextAction.tok a.action)) := by
  simp [dumpFields, lookup_oField_cons, lookup_oField]

theorem lookup_ContextOutput_entity_type (a : ContextOutput) :
    List.lookup "entity_type" a.dumpFields = some (JValue.str (ContextEntityType.tok a.entity_type)) := by
  simp [dumpFields, lookup_oField_cons, lookup_oField]

theorem lookup_ContextOutput_entity_id (a : ContextOutput) :
    List.lookup "entity_id" a.dumpFields = Option.map JValue.str a.entity_id := by
  simp [dumpFields, lookup_oField_cons, lookup_oField]

theorem lookup_ContextOutput_entity_data (a : ContextOutput) :
    List.lookup "entity_data" a.dumpFields = Option.map JValue.obj a.entity_data := by
  simp [dumpFields, lookup_oField_cons, lookup_oField]

theorem lookup_ContextOutput_reason (a : ContextOutput) :
    List.lookup "reason" a.dumpFields = Option.map JValue.str a.reason := by
  simp [dumpFields, lookup_oField_cons, lookup_oField]

theorem parse_dump_ContextOutput (a : ContextOutput) (h : valid a = true) :
    parseFields a.dumpFields = .ok a := by
  simp only [parseFields,
    lookup_ContextOutput_action,
    lookup_ContextOutput_entity_type,
    lookup_ContextOutput_entity_id,
    lookup_ContextOutput_entity_data,
    lookup_ContextOutput_reason,
    pOpt_map asStr JValue.str a.entity_id (fun x hx => rfl) (fun x => rfl),
    pOpt_map asDict JValue.obj a.entity_data (fun x hx => rfl) (fun x => rfl),
    pOpt_map asStr JValue.str a.reason (fun x hx => rfl) (fun x => rfl),
    asEnum_tok ContextAction_parse_tok,
    asEnum_tok ContextEntityType_parse_tok,
    pReq,
    pDef,
    asStr,
    asBool,
    asArr,
    asDict,
    bind,
    Except.bind]

end ContextOutput

/-- Model `DecisionIdentity` of the source, fields in declaration order. -/
structure DecisionIdentity where
  id : String
  title : String
  domain : Option String
  intent : String
  related_decisions : Option (List RelatedDecision)

namespace DecisionIdentity

/-- Fields of the mode json, exclude_none dump, in declaration order. -/
def dumpFields (a : DecisionIdentity) : List (String × JValue) :=
  oField "id" (some (JValue.str a.id)) ++
  (oField "title" (some (JValue.str a.title)) ++
  (oField "domain" (Option.map JValue.str a.domain) ++
  (oField "intent" (some (JValue.str a.intent)) ++
  (oField "related_decisions" (Option.map (fun xs => JValue.arr (List.map RelatedDecision.dump xs)) a.related_decisions)))))

def dump (a : DecisionIdentity) : JValue := JValue.obj a.dumpFields

/-- Schema validation of a field map, mirroring the pydantic model. -/
def parseFields (env : GenEnv) (kvs : List (String × JValue)) : Except VErr DecisionIdentity := do
  let id ← pDef (List.lookup "id" kvs) (freshUuid env.seed) asStr
  let title ← pReq "title" (List.lookup "title" kvs) (asStrLen "title" 1 (some 200))
  let domain ← pOpt (List.lookup "domain" kvs) asStr
  let intent ← pReq "intent" (List.lookup "intent" kvs) (asStrLen "intent" 1 none)
  let related_decisions ← pOpt (List.lookup "related_decisions" kvs) (asArr (asObj RelatedDecision.parseFields))
  .ok ⟨id, title, domain, intent, related_decisions⟩

/-- The values of this record that pydantic could hold (bounds and nested validity). -/
def valid (a : DecisionIdentity) : Bool :=
  strLenOk 1 (some 200) a.title && (strLenOk 1 none a.intent && (Option.all (fun xs => List.all xs RelatedDecision.valid) a.related_decisions))

theorem lookup_DecisionIdentity_id (a : DecisionIdentity) :
    List.lookup "id" a.dumpFields = some (JValue.str a.id) := by
  simp [dumpFields, lookup_oField_cons, lookup_oField]

theorem lookup_DecisionIdentity_title (a : DecisionIdentity) :
    List.lookup "title" a.dumpFields = some (JValue.str a.title) := by
  simp [dumpFields, lookup_oField_cons, lookup_oField]

theorem lookup_DecisionIdentity_domain (a : DecisionIdentity) :
    List.lookup "domain" a.dumpFields = Option.map JValue.str a.domain := by
  simp [dumpFields, lookup_oField_cons, lookup_oField]

theorem lookup_DecisionIdentity_intent (a : DecisionIdentity) :
    List.lookup "intent" a.dumpFields = some (JValue.str a.intent) := by
  simp [dumpFields, lookup_oField_cons, lookup_oField]

theorem lookup_DecisionIdentity_related_decisions (a : DecisionIdentity) :
    List.lookup "related_decisions" a.dumpFields = Option.map (fun xs => JValue.arr (List.map RelatedDecision.dump xs)) a.related_decisions := by
  simp [dumpFields, lookup_oField_cons, lookup_oField]

theorem parse_dump_DecisionIdentity (env : GenEnv) (a : DecisionIdentity) (h : valid a = true) :
    parseFields env a.dumpFields = .ok a := by
  simp only [valid, Bool.and_eq_true] at h
  obtain ⟨htitle, hintent, hrelated_decisions⟩ := h
  simp only [parseFields,
    lookup_DecisionIdentity_id,
    lookup_DecisionIdentity_title,
    lookup_DecisionIdentity_domain,
    lookup_DecisionIdentity_intent,
    lookup_DecisionIdentity_related_decisions,
    pOpt_map asStr JValue.str a.domain (fun x hx => rfl) (fun x => rfl),
    pOpt_map (asArr (asObj RelatedDecision.parseFields)) (fun xs => JValue.arr (List.map RelatedDecision.dump xs)) a.related_decisions (fun xs hx => by simp only [asArr]; exact exList_ok _ _ xs (fun x hxm => by simp only [RelatedDecision.dump, asObj]; exact RelatedDecision.parse_dump_RelatedDecision x (allMem _ _ (optAll hrelated_decisions hx) x hxm))) (fun xs => rfl),
    asStrLen_ok htitle,
    asStrLen_ok hintent,
    pReq,
    pDef,
    asStr,
    asBool,
    asArr,
    asDict,
    bind,
    Except.bind]

end DecisionIdentity

/-- Model `Context` of the source, fields in declaration order. -/
structure Context where
  constraints : List Constraint
  objectives : List Objective
  environment : Option Environment

namespace Context

/-- Fields of the mode json, exclude_none dump, in declaration order. -/
def dumpFields (a : Context) : List (String × JValue) :=
  oField "constraints" (some (JValue.arr (List.map Constraint.dump a.constraints))) ++
  (oField "objectives" (some (JValue.arr (List.map Objective.dump a.objectives))) ++
  (oField "environment" (Option.map Environment.dump a.environment)))

def dump (a : Context) : JValue := JValue.obj a.dumpFields

/-- Schema validation of a field map, mirroring the pydantic model. -/
def parseFields (kvs : List (String × JValue)) : Except VErr Context := do
  let constraints ← pDef (List.lookup "constraints" kvs) ([] : List Constraint) (asArr (asObj Constraint.parseFields))
  let objectives ← pDef (List.lookup "objectives" kvs) ([] : List Objective) (asArr (asObj Objective.parseFields))
  let environment ← pOpt (List.lookup "environment" kvs) (asObj Environment.parseFields)
  .ok ⟨constraints, objectives, environment⟩

/-- The values of this record that pydantic could hold (bounds and nested validity). -/
def valid (a : Context) : Bool :=
  List.all a.constraints Constraint.valid && (List.all a.objectives Objective.valid && (Option.all Environment.valid a.environment))

theorem lookup_Context_constraints (a : Context) :
    List.lookup "constraints" a.dumpFields = some (JValue.arr (List.map Constraint.dump a.constraints)) := by
  simp [dumpFields, lookup_oField_cons, lookup_oField]

theorem lookup_Context_objectives (a : Context) :
    List.lookup "objectives" a.dumpFields = some (JValue.arr (List.map Objective.dump a.objectives)) := by
  simp [dumpFields, lookup_oField_cons, lookup_oField]

theorem lookup_Context_environment (a : Context) :
    List.lookup "environment" a.dumpFields = Option.map Environment.dump a.environment := by
  simp [dumpFields, lookup_oField_cons, lookup_oField]

theorem parse_dump_Context (a : Context) (h : valid a = true) :
    parseFields a.dumpFields = .ok a := by
  simp only [valid, Bool.and_eq_true] at h
  obtain ⟨hconstraints, hobjectives, henvironment⟩ := h
  have hrconstraints : exList (asObj Constraint.parseFields) (List.map Constraint.dump a.constraints) = .ok a.constraints :=
    exList_ok _ _ a.constraints (fun x hxm => by simp only [Constraint.dump, asObj]; exact Constraint.parse_dump_Constraint x (allMem _ _ hconstraints x hxm))
  have hrobjectives : exList (asObj Objective.parseFields) (List.map Objective.dump a.objectives) = .ok a.objectives :=
    exList_ok _ _ a.objectives (fun x hxm => by simp only [Objective.dump, asObj]; exact Objective.parse_dump_Objective x (allMem _ _ hobjectives x hxm))
  simp only [parseFields,
    lookup_Context_constraints,
    lookup_Context_objectives,
    lookup_Context_environment,
    pOpt_map (asObj (Environment.parseFields )) Environment.dump a.environment (fun x hx => by simp only [Environment.dump, asObj]; exact Environment.parse_dump_Environment x (optAll henvironment hx)) (fun x => rfl),
    hrconstraints,
    hrobjectives,
    pReq,
    pDef,
    asStr,
    asBool,
    asArr,
    asDict,
    bind,
    Except.bind]

end Context

/-- Model `CognitiveState` of the source, fields in declaration order. -/
structure CognitiveState where
  phase : CognitivePhase
  confidence : Int
  phase_notes : Option String

namespace CognitiveState

/-- Fields of the mode json, exclude_none dump, in declaration order. -/
def dumpFields (a : CognitiveState) : List (String × JValue) :=
  oField "phase" (some (JValue.str (CognitivePhase.tok a.phase))) ++
  (oField "confidence" (some (JValue.int a.confidence)) ++
  (oField "phase_notes" (Option.map JValue.str a.phase_notes)))

def dump (a : CognitiveState) : JValue := JValue.obj a.dumpFields

/-- Schema validation of a field map, mirroring the pydantic model. -/
def parseFields (kvs : List (String × JValue)) : Except VErr CognitiveState := do
  let phase ← pReq "phase" (List.lookup "phase" kvs) (asEnum CognitivePhase.parse)
  let confidence ← pReq "confidence" (List.lookup "confidence" kvs) (asIntRange "confidence" (some 0) (some 100))
  let phase_notes ← pOpt (List.lookup "phase_notes" kvs) asStr
  .ok ⟨phase, confidence, phase_notes⟩

/-- The values of this record that pydantic could hold (bounds and nested validity). -/
def valid (a : CognitiveState) : Bool :=
  inRange (some 0) (some 100) a.confidence

theorem lookup_CognitiveState_phase (a : CognitiveState) :
    List.lookup "phase" a.dumpFields = some (JValue.str (CognitivePhase.tok a.phase)) := by
  simp [dumpFields, lookup_oField_cons, lookup_oField]

theorem lookup_CognitiveState_confidence (a : CognitiveState) :
    List.lookup "confidence" a.dumpFields = some (JValue.int a.confidence) := by
  simp [dumpFields, lookup_oField_cons, lookup_oField]

theorem lookup_CognitiveState_phase_notes (a : CognitiveState) :
    List.lookup "phase_notes" a.dumpFields = Option.map JValue.str a.phase_notes := by
  simp [dumpFields, lookup_oField_cons, lookup_oField]

theorem parse_dump_CognitiveState (a : CognitiveState) (h : valid a = true) :
    parseFields a.dumpFields = .ok a := by
  simp only [valid] at h
  simp only [parseFields,
    lookup_CognitiveState_phase,
    lookup_CognitiveState_confidence,
    lookup_CognitiveState_phase_notes,
    pOpt_map asStr JValue.str a.phase_notes (fun x hx => rfl) (fun x => rfl),
    asEnum_tok CognitivePhase_parse_tok,
    asIntRange_ok h,
    pReq,
    pDef,
    asStr,
    asBool,
    asArr,
    asDict,
    bind,
    Except.bind]

end CognitiveState

/-- Model `Reasoning` of the source, fields in declaration order. -/
structure Reasoning where
  patterns_applied : Option (List ReasoningPattern)
  notes : Option String

namespace Reasoning

/-- Fields of the mode json, exclude_none dump, in declaration order. -/
def dumpFields (a : Reasoning) : List (String × JValue) :=
  oField "patterns_applied" (Option.map (fun xs => JValue.arr (List.map (fun e => JValue.str (ReasoningPattern.tok e)) xs)) a.patterns_applied) ++
  (oField "notes" (Option.map JValue.str a.notes))

def dump (a : Reasoning) : JValue := JValue.obj a.dumpFields

/-- Schema validation of a field map, mirroring the pydantic model. -/
def parseFields (kvs : List (String × JValue)) : Except VErr Reasoning := do
  let patterns_applied ← pOpt (List.lookup "patterns_applied" kvs) (asArr (asEnum ReasoningPattern.parse))
  let notes ← pOpt (List.lookup "notes" kvs) asStr
  .ok ⟨patterns_applied, notes⟩

/-- The values of this record that pydantic could hold (bounds and nested validity). -/
def valid (_a : Reasoning) : Bool := true

theorem lookup_Reasoning_patterns_applied (a : Reasoning) :
    List.lookup "patterns_applied" a.dumpFields = Option.map (fun xs => JValue.arr (List.map (fun e => JValue.str (ReasoningPattern.tok e)) xs)) a.patterns_applied := by
  simp [dumpFields, lookup_oField_cons, lookup_oField]

theorem lookup_Reasoning_notes (a : Reasoning) :
    List.lookup "notes" a.dumpFields = Option.map JValue.str a.notes := by
  simp [dumpFields, lookup_oField_cons, lookup_oField]

theorem parse_dump_Reasoning (a : Reasoning) (h : valid a = true) :
    parseFields a.dumpFields = .ok a := by
  simp only [parseFields,
    lookup_Reasoning_patterns_applied,
    lookup_Reasoning_notes,
    pOpt_map (asArr (asEnum ReasoningPattern.parse)) (fun xs => JValue.arr (List.map (fun e => JValue.str (ReasoningPattern.tok e)) xs)) a.patterns_applied (fun xs hx => by simp only [asArr]; exact exList_ok _ _ xs (fun x hxm => asEnum_tok ReasoningPattern_parse_tok x)) (fun xs => rfl),
    pOpt_map asStr JValue.str a.notes (fun x hx => rfl) (fun x => rfl),
    pReq,
    pDef,
    asStr,
    asBool,
    asArr,
    asDict,
    bind,
    Except.bind]

end Reasoning

/-- Model `Synthesis` of the source, fields in declaration order. -/
structure Synthesis where
  decision : String
  rationale : String
  follow_ups : Option (List FollowUp)
  alternatives : Option (List DecisionAlternative)

namespace Synthesis

/-- Fields of the mode json, exclude_none dump, in declaration order. -/
def dumpFields (a : Synthesis) : List (String × JValue) :=
  oField "decision" (some (JValue.str a.decision)) ++
  (oField "rationale" (some (JValue.str a.rationale)) ++
  (oField "follow_ups" (Option.map (fun xs => JValue.arr (List.map FollowUp.dump xs)) a.follow_ups) ++
  (oField "alternatives" (Option.map (fun xs => JValue.arr (List.map DecisionAlternative.dump xs)) a.alternatives))))

def dump (a : Synthesis) : JValue := JValue.obj a.dumpFields

/-- Schema validation of a field map, mirroring the pydantic model. -/
def parseFields (kvs : List (String × JValue)) : Except VErr Synthesis := do
  let decision ← pReq "decision" (List.lookup "decision" kvs) asStr
  let rationale ← pReq "rationale" (List.lookup "rationale" kvs) asStr
  let follow_ups ← pOpt (List.lookup "follow_ups" kvs) (asArr (asObj FollowUp.parseFields))
  let alternatives ← pOpt (List.lookup "alternatives" kvs) (asArr (asObj DecisionAlternative.parseFields))
  .ok ⟨decision, rationale, follow_ups, alternatives⟩

/-- The values of this record that pydantic could hold (bounds and nested validity). -/
def valid (a : Synthesis) : Bool :=
  Option.all (fun xs => List.all xs FollowUp.valid) a.follow_ups && (Option.all (fun xs => List.all xs DecisionAlternative.valid) a.alternatives)

theorem lookup_Synthesis_decision (a : Synthesis) :
    List.lookup "decision" a.dumpFields = some (JValue.str a.decision) := by
  simp [dumpFields, lookup_oField_cons, lookup_oField]

theorem lookup_Synthesis_rationale (a : Synthesis) :
    List.lookup "rationale" a.dumpFields = some (JValue.str a.rationale) := by
  simp [dumpFields, lookup_oField_cons, lookup_oField]

theorem lookup_Synthesis_follow_ups (a : Synthesis) :
    List.lookup "follow_ups" a.dumpFields = Option.map (fun xs => JValue.arr (List.map FollowUp.dump xs)) a.follow_ups := by
  simp [dumpFields, lookup_oField_cons, lookup_oField]

theorem lookup_Synthesis_alternatives (a : Synthesis) :
    List.lookup "alternatives" a.dumpFields = Option.map (fun xs => JValue.arr (List.map DecisionAlternative.dump xs)) a.alternatives := by
  simp [dumpFields, lookup_oField_cons, lookup_oField]

theorem parse_dump_Synthesis (a : Synthesis) (h : valid a = true) :
    parseFields a.dumpFields = .ok a := by
  simp only [valid, Bool.and_eq_true] at h
  obtain ⟨hfollow_ups, halternatives⟩ := h
  simp only [parseFields,
    lookup_Synthesis_decision,
    lookup_Synthesis_rationale,
    lookup_Synthesis_follow_ups,
    lookup_Synthesis_alternatives,
    pOpt_map (asArr (asObj FollowUp.parseFields)) (fun xs => JValue.arr (List.map FollowUp.dump xs)) a.follow_ups (fun xs hx => by simp only [asArr]; exact exList_ok _ _ xs (fun x hxm => by simp only [FollowUp.dump, asObj]; exact FollowUp.parse_dump_FollowUp x (allMem _ _ (optAll hfollow_ups hx) x hxm))) (fun xs => rfl),
    pOpt_map (asArr (asObj DecisionAlternative.parseFields)) (fun xs => JValue.arr (List.map DecisionAlternative.dump xs)) a.alternatives (fun xs hx => by simp only [asArr]; exact exList_ok _ _ xs (fun x hxm => by simp only [DecisionAlternative.dump, asObj]; exact DecisionAlternative.parse_dump_DecisionAlternative x (allMem _ _ (optAll halternatives hx) x hxm))) (fun xs => rfl),
    pReq,
    pDef,
    asStr,
    asBool,
    asArr,
    asDict,
    bind,
    Except.bind]

end Synthesis

/-- Model `ContextValidation` of the source, fields in declaration order. -/
structure ContextValidation where
  validated_at : Option String
  context_refs : Option (List ContextRef)
  context_outputs : Option (List ContextOutput)

namespace ContextValidation

/-- Fields of the mode json, exclude_none dump, in declaration order. -/
def dumpFields (a : ContextValidation) : List (String × JValue) :=
  oField "validated_at" (Option.map JValue.str a.validated_at) ++
  (oField "context_refs" (Option.map (fun xs => JValue.arr (List.map ContextRef.dump xs)) a.context_refs) ++
  (oField "context_outputs" (Option.map (fun xs => JValue.arr (List.map ContextOutput.dump xs)) a.context_outputs)))

def dump (a : ContextValidation) : JValue := JValue.obj a.dumpFields

/-- Schema validation of a field map, mirroring the pydantic model. -/
def parseFields (kvs : List (String × JValue)) : Except VErr ContextValidation := do
  let validated_at ← pOpt (List.lookup "validated_at" kvs) asStr
  let context_refs ← pOpt (List.lookup "context_refs" kvs) (asArr (asObj ContextRef.parseFields))
  let context_outputs ← pOpt (List.lookup "context_outputs" kvs) (asArr (asObj ContextOutput.parseFields))
  .ok ⟨validated_at, context_refs, context_outputs⟩

/-- The values of this record that pydantic could hold (bounds and nested validity). -/
def valid (a : ContextValidation) : Bool :=
  Option.all (fun xs => List.all xs ContextRef.valid) a.context_refs && (Option.all (fun xs => List.all xs ContextOutput.valid) a.context_outputs)

theorem lookup_ContextValidation_validated_at (a : ContextValidation) :
    List.lookup "validated_at" a.dumpFields = Option.map JValue.str a.validated_at := by
  simp [dumpFields, lookup_oField_cons, lookup_oField]

theorem lookup_ContextValidation_context_refs (a : ContextValidation) :
    List.lookup "context_refs" a.dumpFields = Option.map (fun xs => JValue.arr (List.map ContextRef.dump xs)) a.context_refs := by
  simp [dumpFields, lookup_oField_cons, lookup_oField]

theorem lookup_ContextValidation_context_outputs (a : ContextValidation) :
    List.lookup "context_outputs" a.dumpFields = Option.map (fun xs => JValue.arr (List.map ContextOutput.dump xs)) a.context_outputs := by
  simp [dumpFields, lookup_oField_cons, lookup_oField]

theorem parse_dump_ContextValidation (a : ContextValidation) (h : valid a = true) :
    parseFields a.dumpFields = .ok a := by
  simp only [valid, Bool.and_eq_true] at h
  obtain ⟨hcontext_refs, hcontext_outputs⟩ := h
  simp only [parseFields,
    lookup_ContextValidation_validated_at,
    lookup_ContextValidation_context_refs,
    lookup_ContextValidation_context_outputs,
    pOpt_map asStr JValue.str a.validated_at (fun x hx => rfl) (fun x => rfl),
    pOpt_map (asArr (asObj ContextRef.parseFields)) (fun xs => JValue.arr (List.map ContextRef.dump xs)) a.context_refs (fun xs hx => by simp only [asArr]; exact exList_ok _ _ xs (fun x hxm => by simp only [ContextRef.dump, asObj]; exact ContextRef.parse_dump_ContextRef x (allMem _ _ (optAll hcontext_refs hx) x hxm))) (fun xs => rfl),
    pOpt_map (asArr (asObj ContextOutput.parseFields)) (fun xs => JValue.arr (List.map ContextOutput.dump xs)) a.context_outputs (fun xs hx => by simp only [asArr]; exact exList_ok _ _ xs (fun x hxm => by simp only [ContextOutput.dump, asObj]; exact ContextOutput.parse_dump_ContextOutput x (allMem _ _ (optAll hcontext_outputs hx) x hxm))) (fun xs => rfl),
    pReq,
    pDef,
    asStr,
    asBool,
    asArr,
    asDict,
    bind,
    Except.bind]

end ContextValidation

/-- Model `Meta` of the source, fields in declaration order. -/
structure Meta where
  created_at : String
  updated_at : Option String
  status : DecisionStatus
  actors : Option (List Actor)
  source : Option String
  tags : Option (List String)

namespace Meta

/-- Fields of the mode json, exclude_none dump, in declaration order. -/
def dumpFields (a : Meta) : List (String × JValue) :=
  oField "created_at" (some (JValue.str a.created_at)) ++
  (oField "updated_at" (Option.map JValue.str a.updated_at) ++
  (oField "status" (some (JValue.str (DecisionStatus.tok a.status))) ++
  (oField "actors" (Option.map (fun xs => JValue.arr (List.map Actor.dump xs)) a.actors) ++
  (oField "source" (Option.map JValue.str a.source) ++
  (oField "tags" (Option.map (fun xs => JValue.arr (List.map JValue.str xs)) a.tags))))))

def dump (a : Meta) : JValue := JValue.obj a.dumpFields

/-- Schema validation of a field map, mirroring the pydantic model. -/
def parseFields (env : GenEnv) (kvs : List (String × JValue)) : Except VErr Meta := do
  let created_at ← pDef (List.lookup "created_at" kvs) env.now asStr
  let updated_at ← pOpt (List.lookup "updated_at" kvs) asStr
  let status ← pDef (List.lookup "status" kvs) DecisionStatus.draft (asEnum DecisionStatus.parse)
  let actors ← pOpt (List.lookup "actors" kvs) (asArr (asObj Actor.parseFields))
  let source ← pOpt (List.lookup "source" kvs) asStr
  let tags ← pOpt (List.lookup "tags" kvs) (asArr asStr)
  .ok ⟨created_at, updated_at, status, actors, source, tags⟩

/-- The values of this record that pydantic could hold (bounds and nested validity). -/
def valid (a : Meta) : Bool :=
  Option.all (fun xs => List.all xs Actor.valid) a.actors

theorem lookup_Meta_created_at (a : Meta) :
    List.lookup "created_at" a.dumpFields = some (JValue.str a.created_at) := by
  simp [dumpFields, lookup_oField_cons, lookup_oField]

theorem lookup_Meta_updated_at (a : Meta) :
    List.lookup "updated_at" a.dumpFields = Option.map JValue.str a.updated_at := by
  simp [dumpFields, lookup_oField_cons, lookup_oField]

theorem lookup_Meta_status (a : Meta) :
    List.lookup "status" a.dumpFields = some (JValue.str (DecisionStatus.tok a.status)) := by
  simp [dumpFields, lookup_oField_cons, lookup_oField]

theorem lookup_Meta_actors (a : Meta) :
    List.lookup "actors" a.dumpFields = Option.map (fun xs => JValue.arr (List.map Actor.dump xs)) a.actors := by
  simp [dumpFields, lookup_oField_cons, lookup_oField]

theorem lookup_Meta_source (a : Meta) :
    List.lookup "source" a.dumpFields = Option.map JValue.str a.source := by
  simp [dumpFields, lookup_oField_cons, lookup_oField]

theorem lookup_Meta_tags (a : Meta) :
    List.lookup "tags" a.dumpFields = Option.map (fun xs => JValue.arr (List.map JValue.str xs)) a.tags := by
  simp [dumpFields, lookup_oField_cons, lookup_oField]

theorem parse_dump_Meta (env : GenEnv) (a : Meta) (h : valid a = true) :
    parseFields env a.dumpFields = .ok a := by
  simp only [valid] at h
  simp only [parseFields,
    lookup_Meta_created_at,
    lookup_Meta_updated_at,
    lookup_Meta_status,
    lookup_Meta_actors,
    lookup_Meta_source,
    lookup_Meta_tags,
    pOpt_map asStr JValue.str a.updated_at (fun x hx => rfl) (fun x => rfl),
    pOpt_map (asArr (asObj Actor.parseFields)) (fun xs => JValue.arr (List.map Actor.dump xs)) a.actors (fun xs hx => by simp only [asArr]; exact exList_ok _ _ xs (fun x hxm => by simp only [Actor.dump, asObj]; exact Actor.parse_dump_Actor x (allMem _ _ (optAll h hx) x hxm))) (fun xs => rfl),
    pOpt_map asStr JValue.str a.source (fun x hx => rfl) (fun x => rfl),
    pOpt_map (asArr asStr) (fun xs => JValue.arr (List.map JValue.str xs)) a.tags (fun xs hx => by simp only [asArr]; exact exList_ok _ _ xs (fun x hxm => rfl)) (fun xs => rfl),
    asEnum_tok DecisionStatus_parse_tok,
    pReq,
    pDef,
    asStr,
    asBool,
    asArr,
    asDict,
    bind,
    Except.bind]

end Meta


/-- The field-name set of `OrganizationAttributes` (pydantic model_fields keys). -/
def OrganizationAttributes.keys : List String := ["org_type", "size", "headcount", "location", "industry", "compliance_frameworks"]

/-- Number of fields set, as pydantic counts them for smart-union ties. -/
def OrganizationAttributes.fieldsSet (a : OrganizationAttributes) : Nat := scoreOf OrganizationAttributes.keys a.dumpFields

theorem OrganizationAttributes.parse_absent_OrganizationAttributes (kvs : List (String × JValue)) (h0 : List.lookup "org_type" kvs = none) (h1 : List.lookup "size" kvs = none) (h2 : List.lookup "headcount" kvs = none) (h3 : List.lookup "location" kvs = none) (h4 : List.lookup "industry" kvs = none) (h5 : List.lookup "compliance_frameworks" kvs = none) :
    OrganizationAttributes.parseFields kvs = .ok ⟨none, none, none, none, none, none⟩ := by
  simp only [OrganizationAttributes.parseFields, h0, h1, h2, h3, h4, h5, pOpt, bind, Except.bind]

theorem OrganizationAttributes.lookup_other_OrganizationAttributes (a : OrganizationAttributes) (k : String) (h0 : (k == "org_type") = false) (h1 : (k == "size") = false) (h2 : (k == "headcount") = false) (h3 : (k == "location") = false) (h4 : (k == "industry") = false) (h5 : (k == "compliance_frameworks") = false) :
    List.lookup k a.dumpFields = none := by
  simp [OrganizationAttributes.dumpFields, lookup_oField_cons, lookup_oField, h0, h1, h2, h3, h4, h5]


/-- The field-name set of `SystemAttributes` (pydantic model_fields keys). -/
def SystemAttributes.keys : List String := ["system_type", "status", "criticality", "technology_stack", "hosting", "data_classification"]

/-- Number of fields set, as pydantic counts them for smart-union ties. -/
def SystemAttributes.fieldsSet (a : SystemAttributes) : Nat := scoreOf SystemAttributes.keys a.dumpFields

theorem SystemAttributes.parse_absent_SystemAttributes (kvs : List (String × JValue)) (h0 : List.lookup "system_type" kvs = none) (h1 : List.lookup "status" kvs = none) (h2 : List.lookup "criticality" kvs = none) (h3 : List.lookup "technology_stack" kvs = none) (h4 : List.lookup "hosting" kvs = none) (h5 : List.lookup "data_classification" kvs = none) :
    SystemAttributes.parseFields kvs = .ok ⟨none, none, none, none, none, none⟩ := by
  simp only [SystemAttributes.parseFields, h0, h1, h2, h3, h4, h5, pOpt, bind, Except.bind]

theorem SystemAttributes.lookup_other_SystemAttributes (a : SystemAttributes) (k : String) (h0 : (k == "system_type") = false) (h1 : (k == "status") = false) (h2 : (k == "criticality") = false) (h3 : (k == "technology_stack") = false) (h4 : (k == "hosting") = false) (h5 : (k == "data_classification") = false) :
    List.lookup k a.dumpFields = none := by
  simp [SystemAttributes.dumpFields, lookup_oField_cons, lookup_oField, h0, h1, h2, h3, h4, h5]


/-- The field-name set of `PolicyAttributes` (pydantic model_fields keys). -/
def PolicyAttributes.keys : List String := ["policy_type", "enforcement", "scope", "rationale", "exceptions_process", "owner", "review_cycle"]

/-- Number of fields set, as pydantic counts them for smart-union ties. -/
def PolicyAttributes.fieldsSet (a : PolicyAttributes) : Nat := scoreOf PolicyAttributes.keys a.dumpFields

theorem PolicyAttributes.parse_absent_PolicyAttributes (kvs : List (String × JValue)) (h0 : List.lookup "policy_type" kvs = none) (h1 : List.lookup "enforcement" kvs = none) (h2 : List.lookup "scope" kvs = none) (h3 : List.lookup "rationale" kvs = none) (h4 : List.lookup "exceptions_process" kvs = none) (h5 : List.lookup "owner" kvs = none) (h6 : List.lookup "review_cycle" kvs = none) :
    PolicyAttributes.parseFields kvs = .ok ⟨none, none, none, none, none, none, none⟩ := by
  simp only [PolicyAttributes.parseFields, h0, h1, h2, h3, h4, h5, h6, pOpt, bind, Except.bind]

theorem PolicyAttributes.lookup_other_PolicyAttributes (a : PolicyAttributes) (k : String) (h0 : (k == "policy_type") = false) (h1 : (k == "enforcement") = false) (h2 : (k == "scope") = false) (h3 : (k == "rationale") = false) (h4 : (k == "exceptions_process") = false) (h5 : (k == "owner") = false) (h6 : (k == "review_cycle") = false) :
    List.lookup k a.dumpFields = none := by
  simp [PolicyAttributes.dumpFields, lookup_oField_cons, lookup_oField, h0, h1, h2, h3, h4, h5, h6]


/-- The field-name set of `FactAttributes` (pydantic model_fields keys). -/
def FactAttributes.keys : List String := ["fact_type", "value", "unit", "confidence", "source_reference", "verified", "verified_at"]

/-- Number of fields set, as pydantic counts them for smart-union ties. -/
def FactAttributes.fieldsSet (a : FactAttributes) : Nat := scoreOf FactAttributes.keys a.dumpFields

theorem FactAttributes.parse_absent_FactAttributes (kvs : List (String × JValue)) (h0 : List.lookup "fact_type" kvs = none) (h1 : List.lookup "value" kvs = none) (h2 : List.lookup "unit" kvs = none) (h3 : List.lookup "confidence" kvs = none) (h4 : List.lookup "source_reference" kvs = none) (h5 : List.lookup "verified" kvs = none) (h6 : List.lookup "verified_at" kvs = none) :
    FactAttributes.parseFields kvs = .ok ⟨none, none, none, none, none, none, none⟩ := by
  simp only [FactAttributes.parseFields, h0, h1, h2, h3, h4, h5, h6, pOpt, bind, Except.bind]

theorem FactAttributes.lookup_other_FactAttributes (a : FactAttributes) (k : String) (h0 : (k == "fact_type") = false) (h1 : (k == "value") = false) (h2 : (k == "unit") = false) (h3 : (k == "confidence") = false) (h4 : (k == "source_reference") = false) (h5 : (k == "verified") = false) (h6 : (k == "verified_at") = false) :
    List.lookup k a.dumpFields = none := by
  simp [FactAttributes.dumpFields, lookup_oField_cons, lookup_oField, h0, h1, h2, h3, h4, h5, h6]


/-- The field-name set of `ArchitectureAttributes` (pydantic model_fields keys). -/
def ArchitectureAttributes.keys : List String := ["architecture_type", "domain", "maturity", "adoption_status", "alternatives"]

/-- Number of fields set, as pydantic counts them for smart-union ties. -/
def ArchitectureAttributes.fieldsSet (a : ArchitectureAttributes) : Nat := scoreOf ArchitectureAttributes.keys a.dumpFields

theorem ArchitectureAttributes.parse_absent_ArchitectureAttributes (kvs : List (String × JValue)) (h0 : List.lookup "architecture_type" kvs = none) (h1 : List.lookup "domain" kvs = none) (h2 : List.lookup "maturity" kvs = none) (h3 : List.lookup "adoption_status" kvs = none) (h4 : List.lookup "alternatives" kvs = none) :
    ArchitectureAttributes.parseFields kvs = .ok ⟨none, none, none, none, none⟩ := by
  simp only [ArchitectureAttributes.parseFields, h0, h1, h2, h3, h4, pOpt, bind, Except.bind]

theorem ArchitectureAttributes.lookup_other_ArchitectureAttributes (a : ArchitectureAttributes) (k : String) (h0 : (k == "architecture_type") = false) (h1 : (k == "domain") = false) (h2 : (k == "maturity") = false) (h3 : (k == "adoption_status") = false) (h4 : (k == "alternatives") = false) :
    List.lookup k a.dumpFields = none := by
  simp [ArchitectureAttributes.dumpFields, lookup_oField_cons, lookup_oField, h0, h1, h2, h3, h4]


/-- The field-name set of `CapabilityAttributes` (pydantic model_fields keys). -/
def CapabilityAttributes.keys : List String := ["capability_type", "proficiency", "coverage", "training_available", "strategic_importance"]

/-- Number of fields set, as pydantic counts them for smart-union ties. -/
def CapabilityAttributes.fieldsSet (a : CapabilityAttributes) : Nat := scoreOf CapabilityAttributes.keys a.dumpFields

theorem CapabilityAttributes.parse_absent_CapabilityAttributes (kvs : List (String × JValue)) (h0 : List.lookup "capability_type" kvs = none) (h1 : List.lookup "proficiency" kvs = none) (h2 : List.lookup "coverage" kvs = none) (h3 : List.lookup "training_available" kvs = none) (h4 : List.lookup "strategic_importance" kvs = none) :
    CapabilityAttributes.parseFields kvs = .ok ⟨none, none, none, none, none⟩ := by
  simp only [CapabilityAttributes.parseFields, h0, h1, h2, h3, h4, pOpt, bind, Except.bind]

theorem CapabilityAttributes.lookup_other_CapabilityAttributes (a : CapabilityAttributes) (k : String) (h0 : (k == "capability_type") = false) (h1 : (k == "proficiency") = false) (h2 : (k == "coverage") = false) (h3 : (k == "training_available") = false) (h4 : (k == "strategic_importance") = false) :
    List.lookup k a.dumpFields = none := by
  simp [CapabilityAttributes.dumpFields, lookup_oField_cons, lookup_oField, h0, h1, h2, h3, h4]

theorem SystemAttributes.score_SystemAttributes_dump_OrganizationAttributes (a : OrganizationAttributes) :
    scoreOf SystemAttributes.keys a.dumpFields = 0 := by
  have e0 : List.lookup "system_type" a.dumpFields = none := OrganizationAttributes.lookup_other_OrganizationAttributes a "system_type" (by decide) (by decide) (by decide) (by decide) (by decide) (by decide)
  have e1 : List.lookup "status" a.dumpFields = none := OrganizationAttributes.lookup_other_OrganizationAttributes a "status" (by decide) (by decide) (by decide) (by decide) (by decide) (by decide)
  have e2 : List.lookup "criticality" a.dumpFields = none := OrganizationAttributes.lookup_other_OrganizationAttributes a "criticality" (by decide) (by decide) (by decide) (by decide) (by decide) (by decide)
  have e3 : List.lookup "technology_stack" a.dumpFields = none := OrganizationAttributes.lookup_other_OrganizationAttributes a "technology_stack" (by decide) (by decide) (by decide) (by decide) (by decide) (by decide)
  have e4 : List.lookup "hosting" a.dumpFields = none := OrganizationAttributes.lookup_other_OrganizationAttributes a "hosting" (by decide) (by decide) (by decide) (by decide) (by decide) (by decide)
  have e5 : List.lookup "data_classification" a.dumpFields = none := OrganizationAttributes.lookup_other_OrganizationAttributes a "data_classification" (by decide) (by decide) (by decide) (by decide) (by decide) (by decide)
  simp [scoreOf, SystemAttributes.keys, e0, e1, e2, e3, e4, e5]

theorem SystemAttributes.parse_SystemAttributes_dump_OrganizationAttributes (a : OrganizationAttributes) :
    SystemAttributes.parseFields a.dumpFields = .ok ⟨none, none, none, none, none, none⟩ := by
  have e0 : List.lookup "system_type" a.dumpFields = none := OrganizationAttributes.lookup_other_OrganizationAttributes a "system_type" (by decide) (by decide) (by decide) (by decide) (by decide) (by decide)
  have e1 : List.lookup "status" a.dumpFields = none := OrganizationAttributes.lookup_other_OrganizationAttributes a "status" (by decide) (by decide) (by decide) (by decide) (by decide) (by decide)
  have e2 : List.lookup "criticality" a.dumpFields = none := OrganizationAttributes.lookup_other_OrganizationAttributes a "criticality" (by decide) (by decide) (by decide) (by decide) (by decide) (by decide)
  have e3 : List.lookup "technology_stack" a.dumpFields = none := OrganizationAttributes.lookup_other_OrganizationAttributes a "technology_stack" (by decide) (by decide) (by decide) (by decide) (by decide) (by decide)
  have e4 : List.lookup "hosting" a.dumpFields = none := OrganizationAttributes.lookup_other_OrganizationAttributes a "hosting" (by decide) (by decide) (by decide) (by decide) (by decide) (by decide)
  have e5 : List.lookup "data_classification" a.dumpFields = none := OrganizationAttributes.lookup_other_OrganizationAttributes a "data_classification" (by decide) (by decide) (by decide) (by decide) (by decide) (by decide)
  exact SystemAttributes.parse_absent_SystemAttributes a.dumpFields e0 e1 e2 e3 e4 e5

theorem PolicyAttributes.score_PolicyAttributes_dump_OrganizationAttributes (a : OrganizationAttributes) :
    scoreOf PolicyAttributes.keys a.dumpFields = 0 := by
  have e0 : List.lookup "policy_type" a.dumpFields = none := OrganizationAttributes.lookup_other_OrganizationAttributes a "policy_type" (by decide) (by decide) (by decide) (by decide) (by decide) (by decide)
  have e1 : List.lookup "enforcement" a.dumpFields = none := OrganizationAttributes.lookup_other_OrganizationAttributes a "enforcement" (by decide) (by decide) (by decide) (by decide) (by decide) (by decide)
  have e2 : List.lookup "scope" a.dumpFields = none := OrganizationAttributes.lookup_other_OrganizationAttributes a "scope" (by decide) (by decide) (by decide) (by decide) (by decide) (by decide)
  have e3 : List.lookup "rationale" a.dumpFields = none := OrganizationAttributes.lookup_other_OrganizationAttributes a "rationale" (by decide) (by decide) (by decide) (by decide) (by decide) (by decide)
  have e4 : List.lookup "exceptions_process" a.dumpFields = none := OrganizationAttributes.lookup_other_OrganizationAttributes a "exceptions_process" (by decide) (by decide) (by decide) (by decide) (by decide) (by decide)
  have e5 : List.lookup "owner" a.dumpFields = none := OrganizationAttributes.lookup_other_OrganizationAttributes a "owner" (by decide) (by decide) (by decide) (by decide) (by decide) (by decide)
  have e6 : List.lookup "review_cycle" a.dumpFields = none := OrganizationAttributes.lookup_other_OrganizationAttributes a "review_cycle" (by decide) (by decide) (by decide) (by decide) (by decide) (by decide)
  simp [scoreOf, PolicyAttributes.keys, e0, e1, e2, e3, e4, e5, e6]

theorem PolicyAttributes.parse_PolicyAttributes_dump_OrganizationAttributes (a : OrganizationAttributes) :
    PolicyAttributes.parseFields a.dumpFields = .ok ⟨none, none, none, none, none, none, none⟩ := by
  have e0 : List.lookup "policy_type" a.dumpFields = none := OrganizationAttributes.lookup_other_OrganizationAttributes a "policy_type" (by decide) (by decide) (by decide) (by decide) (by decide) (by decide)
  have e1 : List.lookup "enforcement" a.dumpFields = none := OrganizationAttributes.lookup_other_OrganizationAttributes a "enforcement" (by decide) (by decide) (by decide) (by decide) (by decide) (by decide)
  have e2 : List.lookup "scope" a.dumpFields = none := OrganizationAttributes.lookup_other_OrganizationAttributes a "scope" (by decide) (by decide) (by decide) (by decide) (by decide) (by decide)
  have e3 : List.lookup "rationale" a.dumpFields = none := OrganizationAttributes.lookup_other_OrganizationAttributes a "rationale" (by decide) (by decide) (by decide) (by decide) (by decide) (by decide)
  have e4 : List.lookup "exceptions_process" a.dumpFields = none := OrganizationAttributes.lookup_other_OrganizationAttributes a "exceptions_process" (by decide) (by decide) (by decide) (by decide) (by decide) (by decide)
  have e5 : List.lookup "owner" a.dumpFields = none := OrganizationAttributes.lookup_other_OrganizationAttributes a "owner" (by decide) (by decide) (by decide) (by decide) (by decide) (by decide)
  have e6 : List.lookup "review_cycle" a.dumpFields = none := OrganizationAttributes.lookup_other_OrganizationAttributes a "review_cycle" (by decide) (by decide) (by decide) (by decide) (by decide) (by decide)
  exact PolicyAttributes.parse_absent_PolicyAttributes a.dumpFields e0 e1 e2 e3 e4 e5 e6

theorem FactAttributes.score_FactAttributes_dump_OrganizationAttributes (a : OrganizationAttributes) :
    scoreOf FactAttributes.keys a.dumpFields = 0 := by
  have e0 : List.lookup "fact_type" a.dumpFields = none := OrganizationAttributes.lookup_other_OrganizationAttributes a "fact_type" (by decide) (by decide) (by decide) (by decide) (by decide) (by decide)
  have e1 : List.lookup "value" a.dumpFields = none := OrganizationAttributes.lookup_other_OrganizationAttributes a "value" (by decide) (by decide) (by decide) (by decide) (by decide) (by decide)
  have e2 : List.lookup "unit" a.dumpFields = none := OrganizationAttributes.lookup_other_OrganizationAttributes a "unit" (by decide) (by decide) (by decide) (by decide) (by decide) (by decide)
  have e3 : List.lookup "confidence" a.dumpFields = none := OrganizationAttributes.lookup_other_OrganizationAttributes a "confidence" (by decide) (by decide) (by decide) (by decide) (by decide) (by decide)
  have e4 : List.lookup "source_reference" a.dumpFields = none := OrganizationAttributes.lookup_other_OrganizationAttributes a "source_reference" (by decide) (by decide) (by decide) (by decide) (by decide) (by decide)
  have e5 : List.lookup "verified" a.dumpFields = none := OrganizationAttributes.lookup_other_OrganizationAttributes a "verified" (by decide) (by decide) (by decide) (by decide) (by decide) (by decide)
  have e6 : List.lookup "verified_at" a.dumpFields = none := OrganizationAttributes.lookup_other_OrganizationAttributes a "verified_at" (by decide) (by decide) (by decide) (by decide) (by decide) (by decide)
  simp [scoreOf, FactAttributes.keys, e0, e1, e2, e3, e4, e5, e6]

theorem FactAttributes.parse_FactAttributes_dump_OrganizationAttributes (a : OrganizationAttributes) :
    FactAttributes.parseFields a.dumpFields = .ok ⟨none, none, none, none, none, none, none⟩ := by
  have e0 : List.lookup "fact_type" a.dumpFields = none := OrganizationAttributes.lookup_other_OrganizationAttributes a "fact_type" (by decide) (by decide) (by decide) (by decide) (by decide) (by decide)
  have e1 : List.lookup "value" a.dumpFields = none := OrganizationAttributes.lookup_other_OrganizationAttributes a "value" (by decide) (by decide) (by decide) (by decide) (by decide) (by decide)
  have e2 : List.lookup "unit" a.dumpFields = none := OrganizationAttributes.lookup_other_OrganizationAttributes a "unit" (by decide) (by decide) (by decide) (by decide) (by decide) (by decide)
  have e3 : List.lookup "confidence" a.dumpFields = none := OrganizationAttributes.lookup_other_OrganizationAttributes a "confidence" (by decide) (by decide) (by decide) (by decide) (by decide) (by decide)
  have e4 : List.lookup "source_reference" a.dumpFields = none := OrganizationAttributes.lookup_other_OrganizationAttributes a "source_reference" (by decide) (by decide) (by decide) (by decide) (by decide) (by decide)
  have e5 : List.lookup "verified" a.dumpFields = none := OrganizationAttributes.lookup_other_OrganizationAttributes a "verified" (by decide) (by decide) (by decide) (by decide) (by decide) (by decide)
  have e6 : List.lookup "verified_at" a.dumpFields = none := OrganizationAttributes.lookup_other_OrganizationAttributes a "verified_at" (by decide) (by decide) (by decide) (by decide) (by decide) (by decide)
  exact FactAttributes.parse_absent_FactAttributes a.dumpFields e0 e1 e2 e3 e4 e5 e6

theorem ArchitectureAttributes.score_ArchitectureAttributes_dump_OrganizationAttributes (a : OrganizationAttributes) :
    scoreOf ArchitectureAttributes.keys a.dumpFields = 0 := by
  have e0 : List.lookup "architecture_type" a.dumpFields = none := OrganizationAttributes.lookup_other_OrganizationAttributes a "architecture_type" (by decide) (by decide) (by decide) (by decide) (by decide) (by decide)
  have e1 : List.lookup "domain" a.dumpFields = none := OrganizationAttributes.lookup_other_OrganizationAttributes a "domain" (by decide) (by decide) (by decide) (by decide) (by decide) (by decide)
  have e2 : List.lookup "maturity" a.dumpFields = none := OrganizationAttributes.lookup_other_OrganizationAttributes a "maturity" (by decide) (by decide) (by decide) (by decide) (by decide) (by decide)
  have e3 : List.lookup "adoption_status" a.dumpFields = none := OrganizationAttributes.lookup_other_OrganizationAttributes a "adoption_status" (by decide) (by decide) (by decide) (by decide) (by decide) (by decide)
  have e4 : List.lookup "alternatives" a.dumpFields = none := OrganizationAttributes.lookup_other_OrganizationAttributes a "alternatives" (by decide) (by decide) (by decide) (by decide) (by decide) (by decide)
  simp [scoreOf, ArchitectureAttributes.keys, e0, e1, e2, e3, e4]

theorem ArchitectureAttributes.parse_ArchitectureAttributes_dump_OrganizationAttributes (a : OrganizationAttributes) :
    ArchitectureAttributes.parseFields a.dumpFields = .ok ⟨none, none, none, none, none⟩ := by
  have e0 : List.lookup "architecture_type" a.dumpFields = none := OrganizationAttributes.lookup_other_OrganizationAttributes a "architecture_type" (by decide) (by decide) (by decide) (by decide) (by decide) (by decide)
  have e1 : List.lookup "domain" a.dumpFields = none := OrganizationAttributes.lookup_other_OrganizationAttributes a "domain" (by decide) (by decide) (by decide) (by decide) (by decide) (by decide)
  have e2 : List.lookup "maturity" a.dumpFields = none := OrganizationAttributes.lookup_other_OrganizationAttributes a "maturity" (by decide) (by decide) (by decide) (by decide) (by decide) (by decide)
  have e3 : List.lookup "adoption_status" a.dumpFields = none := OrganizationAttributes.lookup_other_OrganizationAttributes a "adoption_status" (by decide) (by decide) (by decide) (by decide) (by decide) (by decide)
  have e4 : List.lookup "alternatives" a.dumpFields = none := OrganizationAttributes.lookup_other_OrganizationAttributes a "alternatives" (by decide) (by decide) (by decide) (by decide) (by decide) (by decide)
  exact ArchitectureAttributes.parse_absent_ArchitectureAttributes a.dumpFields e0 e1 e2 e3 e4

theorem CapabilityAttributes.score_CapabilityAttributes_dump_OrganizationAttributes (a : OrganizationAttributes) :
    scoreOf CapabilityAttributes.keys a.dumpFields = 0 := by
  have e0 : List.lookup "capability_type" a.dumpFields = none := OrganizationAttributes.lookup_other_OrganizationAttributes a "capability_type" (by decide) (by decide) (by decide) (by decide) (by decide) (by decide)
  have e1 : List.lookup "proficiency" a.dumpFields = none := OrganizationAttributes.lookup_other_OrganizationAttributes a "proficiency" (by decide) (by decide) (by decide) (by decide) (by decide) (by decide)
  have e2 : List.lookup "coverage" a.dumpFields = none := OrganizationAttributes.lookup_other_OrganizationAttributes a "coverage" (by decide) (by decide) (by decide) (by decide) (by decide) (by decide)
  have e3 : List.lookup "training_available" a.dumpFields = none := OrganizationAttributes.lookup_other_OrganizationAttributes a "training_available" (by decide) (by decide) (by decide) (by decide) (by decide) (by decide)
  have e4 : List.lookup "strategic_importance" a.dumpFields = none := OrganizationAttributes.lookup_other_OrganizationAttributes a "strategic_importance" (by decide) (by decide) (by decide) (by decide) (by decide) (by decide)
  simp [scoreOf, CapabilityAttributes.keys, e0, e1, e2, e3, e4]

theorem CapabilityAttributes.parse_CapabilityAttributes_dump_OrganizationAttributes (a : OrganizationAttributes) :
    CapabilityAttributes.parseFields a.dumpFields = .ok ⟨none, none, none, none, none⟩ := by
  have e0 : List.lookup "capability_type" a.dumpFields = none := OrganizationAttributes.lookup_other_OrganizationAttributes a "capability_type" (by decide) (by decide) (by decide) (by decide) (by decide) (by decide)
  have e1 : List.lookup "proficiency" a.dumpFields = none := OrganizationAttributes.lookup_other_OrganizationAttributes a "proficiency" (by decide) (by decide) (by decide) (by decide) (by decide) (by decide)
  have e2 : List.lookup "coverage" a.dumpFields = none := OrganizationAttributes.lookup_other_OrganizationAttributes a "coverage" (by decide) (by decide) (by decide) (by decide) (by decide) (by decide)
  have e3 : List.lookup "training_available" a.dumpFields = none := OrganizationAttributes.lookup_other_OrganizationAttributes a "training_available" (by decide) (by decide) (by decide) (by decide) (by decide) (by decide)
  have e4 : List.lookup "strategic_importance" a.dumpFields = none := OrganizationAttributes.lookup_other_OrganizationAttributes a "strategic_importance" (by decide) (by decide) (by decide) (by decide) (by decide) (by decide)
  exact CapabilityAttributes.parse_absent_CapabilityAttributes a.dumpFields e0 e1 e2 e3 e4

theorem OrganizationAttributes.score_OrganizationAttributes_dump_SystemAttributes (a : SystemAttributes) :
    scoreOf OrganizationAttributes.keys a.dumpFields = 0 := by
  have e0 : List.lookup "org_type" a.dumpFields = none := SystemAttributes.lookup_other_SystemAttributes a "org_type" (by decide) (by decide) (by decide) (by decide) (by decide) (by decide)
  have e1 : List.lookup "size" a.dumpFields = none := SystemAttributes.lookup_other_SystemAttributes a "size" (by decide) (by decide) (by decide) (by decide) (by decide) (by decide)
  have e2 : List.lookup "headcount" a.dumpFields = none := SystemAttributes.lookup_other_SystemAttributes a "headcount" (by decide) (by decide) (by decide) (by decide) (by decide) (by decide)
  have e3 : List.lookup "location" a.dumpFields = none := SystemAttributes.lookup_other_SystemAttributes a "location" (by decide) (by decide) (by decide) (by decide) (by decide) (by decide)
  have e4 : List.lookup "industry" a.dumpFields = none := SystemAttributes.lookup_other_SystemAttributes a "industry" (by decide) (by decide) (by decide) (by decide) (by decide) (by decide)
  have e5 : List.lookup "compliance_frameworks" a.dumpFields = none := SystemAttributes.lookup_other_SystemAttributes a "compliance_frameworks" (by decide) (by decide) (by decide) (by decide) (by decide) (by decide)
  simp [scoreOf, OrganizationAttributes.keys, e0, e1, e2, e3, e4, e5]

theorem OrganizationAttributes.parse_OrganizationAttributes_dump_SystemAttributes (a : SystemAttributes) :
    OrganizationAttributes.parseFields a.dumpFields = .ok ⟨none, none, none, none, none, none⟩ := by
  have e0 : List.lookup "org_type" a.dumpFields = none := SystemAttributes.lookup_other_SystemAttributes a "org_type" (by decide) (by decide) (by decide) (by decide) (by decide) (by decide)
  have e1 : List.lookup "size" a.dumpFields = none := SystemAttributes.lookup_other_SystemAttributes a "size" (by decide) (by decide) (by decide) (by decide) (by decide) (by decide)
  have e2 : List.lookup "headcount" a.dumpFields = none := SystemAttributes.lookup_other_SystemAttributes a "headcount" (by decide) (by decide) (by decide) (by decide) (by decide) (by decide)
  have e3 : List.lookup "location" a.dumpFields = none := SystemAttributes.lookup_other_SystemAttributes a "location" (by decide) (by decide) (by decide) (by decide) (by decide) (by decide)
  have e4 : List.lookup "industry" a.dumpFields = none := SystemAttributes.lookup_other_SystemAttributes a "industry" (by decide) (by decide) (by decide) (by decide) (by decide) (by decide)
  have e5 : List.lookup "compliance_frameworks" a.dumpFields = none := SystemAttributes.lookup_other_SystemAttributes a "compliance_frameworks" (by decide) (by decide) (by decide) (by decide) (by decide) (by decide)
  exact OrganizationAttributes.parse_absent_OrganizationAttributes a.dumpFields e0 e1 e2 e3 e4 e5

theorem PolicyAttributes.score_PolicyAttributes_dump_SystemAttributes (a : SystemAttributes) :
    scoreOf PolicyAttributes.keys a.dumpFields = 0 := by
  have e0 : List.lookup "policy_type" a.dumpFields = none := SystemAttributes.lookup_other_SystemAttributes a "policy_type" (by decide) (by decide) (by decide) (by decide) (by decide) (by decide)
  have e1 : List.lookup "enforcement" a.dumpFields = none := SystemAttributes.lookup_other_SystemAttributes a "enforcement" (by decide) (by decide) (by decide) (by decide) (by decide) (by decide)
  have e2 : List.lookup "scope" a.dumpFields = none := SystemAttributes.lookup_other_SystemAttributes a "scope" (by decide) (by decide) (by decide) (by decide) (by decide) (by decide)
  have e3 : List.lookup "rationale" a.dumpFields = none := SystemAttributes.lookup_other_SystemAttributes a "rationale" (by decide) (by decide) (by decide) (by decide) (by decide) (by decide)
  have e4 : List.lookup "exceptions_process" a.dumpFields = none := SystemAttributes.lookup_other_SystemAttributes a "exceptions_process" (by decide) (by decide) (by decide) (by decide) (by decide) (by decide)
  have e5 : List.lookup "owner" a.dumpFields = none := SystemAttributes.lookup_other_SystemAttributes a "owner" (by decide) (by decide) (by decide) (by decide) (by decide) (by decide)
  have e6 : List.lookup "review_cycle" a.dumpFields = none := SystemAttributes.lookup_other_SystemAttributes a "review_cycle" (by decide) (by decide) (by decide) (by decide) (by decide) (by decide)
  simp [scoreOf, PolicyAttributes.keys, e0, e1, e2, e3, e4, e5, e6]

theorem PolicyAttributes.parse_PolicyAttributes_dump_SystemAttributes (a : SystemAttributes) :
    PolicyAttributes.parseFields a.dumpFields = .ok ⟨none, none, none, none, none, none, none⟩ := by
  have e0 : List.lookup "policy_type" a.dumpFields = none := SystemAttributes.lookup_other_SystemAttributes a "policy_type" (by decide) (by decide) (by decide) (by decide) (by decide) (by decide)
  have e1 : List.lookup "enforcement" a.dumpFields = none := SystemAttributes.lookup_other_SystemAttributes a "enforcement" (by decide) (by decide) (by decide) (by decide) (by decide) (by decide)
  have e2 : List.lookup "scope" a.dumpFields = none := SystemAttributes.lookup_other_SystemAttributes a "scope" (by decide) (by decide) (by decide) (by decide) (by decide) (by decide)
  have e3 : List.lookup "rationale" a.dumpFields = none := SystemAttributes.lookup_other_SystemAttributes a "rationale" (by decide) (by decide) (by decide) (by decide) (by decide) (by decide)
  have e4 : List.lookup "exceptions_process" a.dumpFields = none := SystemAttributes.lookup_other_SystemAttributes a "exceptions_process" (by decide) (by decide) (by decide) (by decide) (by decide) (by decide)
  have e5 : List.lookup "owner" a.dumpFields = none := SystemAttributes.lookup_other_SystemAttributes a "owner" (by decide) (by decide) (by decide) (by decide) (by decide) (by decide)
  have e6 : List.lookup "review_cycle" a.dumpFields = none := SystemAttributes.lookup_other_SystemAttributes a "review_cycle" (by decide) (by decide) (by decide) (by decide) (by decide) (by decide)
  exact PolicyAttributes.parse_absent_PolicyAttributes a.dumpFields e0 e1 e2 e3 e4 e5 e6

theorem FactAttributes.score_FactAttributes_dump_SystemAttributes (a : SystemAttributes) :
    scoreOf FactAttributes.keys a.dumpFields = 0 := by
  have e0 : List.lookup "fact_type" a.dumpFields = none := SystemAttributes.lookup_other_SystemAttributes a "fact_type" (by decide) (by decide) (by decide) (by decide) (by decide) (by decide)
  have e1 : List.lookup "value" a.dumpFields = none := SystemAttributes.lookup_other_SystemAttributes a "value" (by decide) (by decide) (by decide) (by decide) (by decide) (by decide)
  have e2 : List.lookup "unit" a.dumpFields = none := SystemAttributes.lookup_other_SystemAttributes a "unit" (by decide) (by decide) (by decide) (by decide) (by decide) (by decide)
  have e3 : List.lookup "confidence" a.dumpFields = none := SystemAttributes.lookup_other_SystemAttributes a "confidence" (by decide) (by decide) (by decide) (by decide) (by decide) (by decide)
  have e4 : List.lookup "source_reference" a.dumpFields = none := SystemAttributes.lookup_other_SystemAttributes a "source_reference" (by decide) (by decide) (by decide) (by decide) (by decide) (by decide)
  have e5 : List.lookup "verified" a.dumpFields = none := SystemAttributes.lookup_other_SystemAttributes a "verified" (by decide) (by decide) (by decide) (by decide) (by decide) (by decide)
  have e6 : List.lookup "verified_at" a.dumpFields = none := SystemAttributes.lookup_other_SystemAttributes a "verified_at" (by decide) (by decide) (by decide) (by decide) (by decide) (by decide)
  simp [scoreOf, FactAttributes.keys, e0, e1, e2, e3, e4, e5, e6]

theorem FactAttributes.parse_FactAttributes_dump_SystemAttributes (a : SystemAttributes) :
    FactAttributes.parseFields a.dumpFields = .ok ⟨none, none, none, none, none, none, none⟩ := by
  have e0 : List.lookup "fact_type" a.dumpFields = none := SystemAttributes.lookup_other_SystemAttributes a "fact_type" (by decide) (by decide) (by decide) (by decide) (by decide) (by decide)
  have e1 : List.lookup "value" a.dumpFields = none := SystemAttributes.lookup_other_SystemAttributes a "value" (by decide) (by decide) (by decide) (by decide) (by decide) (by decide)
  have e2 : List.lookup "unit" a.dumpFields = none := SystemAttributes.lookup_other_SystemAttributes a "unit" (by decide) (by decide) (by decide) (by decide) (by decide) (by decide)
  have e3 : List.lookup "confidence" a.dumpFields = none := SystemAttributes.lookup_other_SystemAttributes a "confidence" (by decide) (by decide) (by decide) (by decide) (by decide) (by decide)
  have e4 : List.lookup "source_reference" a.dumpFields = none := SystemAttributes.lookup_other_SystemAttributes a "source_reference" (by decide) (by decide) (by decide) (by decide) (by decide) (by decide)
  have e5 : List.lookup "verified" a.dumpFields = none := SystemAttributes.lookup_other_SystemAttributes a "verified" (by decide) (by decide) (by decide) (by decide) (by decide) (by decide)
  have e6 : List.lookup "verified_at" a.dumpFields = none := SystemAttributes.lookup_other_SystemAttributes a "verified_at" (by decide) (by decide) (by decide) (by decide) (by decide) (by decide)
  exact FactAttributes.parse_absent_FactAttributes a.dumpFields e0 e1 e2 e3 e4 e5 e6

theorem ArchitectureAttributes.score_ArchitectureAttributes_dump_SystemAttributes (a : SystemAttributes) :
    scoreOf ArchitectureAttributes.keys a.dumpFields = 0 := by
  have e0 : List.lookup "architecture_type" a.dumpFields = none := SystemAttributes.lookup_other_SystemAttributes a "architecture_type" (by decide) (by decide) (by decide) (by decide) (by decide) (by decide)
  have e1 : List.lookup "domain" a.dumpFields = none := SystemAttributes.lookup_other_SystemAttributes a "domain" (by decide) (by decide) (by decide) (by decide) (by decide) (by decide)
  have e2 : List.lookup "maturity" a.dumpFields = none := SystemAttributes.lookup_other_SystemAttributes a "maturity" (by decide) (by decide) (by decide) (by decide) (by decide) (by decide)
  have e3 : List.lookup "adoption_status" a.dumpFields = none := SystemAttributes.lookup_other_SystemAttributes a "adoption_status" (by decide) (by decide) (by decide) (by decide) (by decide) (by decide)
  have e4 : List.lookup "alternatives" a.dumpFields = none := SystemAttributes.lookup_other_SystemAttributes a "alternatives" (by decide) (by decide) (by decide) (by decide) (by decide) (by decide)
  simp [scoreOf, ArchitectureAttributes.keys, e0, e1, e2, e3, e4]

theorem ArchitectureAttributes.parse_ArchitectureAttributes_dump_SystemAttributes (a : SystemAttributes) :
    ArchitectureAttributes.parseFields a.dumpFields = .ok ⟨none, none, none, none, none⟩ := by
  have e0 : List.lookup "architecture_type" a.dumpFields = none := SystemAttributes.lookup_other_SystemAttributes a "architecture_type" (by decide) (by decide) (by decide) (by decide) (by decide) (by decide)
  have e1 : List.lookup "domain" a.dumpFields = none := SystemAttributes.lookup_other_SystemAttributes a "domain" (by decide) (by decide) (by decide) (by decide) (by decide) (by decide)
  have e2 : List.lookup "maturity" a.dumpFields = none := SystemAttributes.lookup_other_SystemAttributes a "maturity" (by decide) (by decide) (by decide) (by decide) (by decide) (by decide)
  have e3 : List.lookup "adoption_status" a.dumpFields = none := SystemAttributes.lookup_other_SystemAttributes a "adoption_status" (by decide) (by decide) (by decide) (by decide) (by decide) (by decide)
  have e4 : List.lookup "alternatives" a.dumpFields = none := SystemAttributes.lookup_other_SystemAttributes a "alternatives" (by decide) (by decide) (by decide) (by decide) (by decide) (by decide)
  exact ArchitectureAttributes.parse_absent_ArchitectureAttributes a.dumpFields e0 e1 e2 e3 e4

theorem CapabilityAttributes.score_CapabilityAttributes_dump_SystemAttributes (a : SystemAttributes) :
    scoreOf CapabilityAttributes.keys a.dumpFields = 0 := by
  have e0 : List.lookup "capability_type" a.dumpFields = none := SystemAttributes.lookup_other_SystemAttributes a "capability_type" (by decide) (by decide) (by decide) (by decide) (by decide) (by decide)
  have e1 : List.lookup "proficiency" a.dumpFields = none := SystemAttributes.lookup_other_SystemAttributes a "proficiency" (by decide) (by decide) (by decide) (by decide) (by decide) (by decide)
  have e2 : List.lookup "coverage" a.dumpFields = none := SystemAttributes.lookup_other_SystemAttributes a "coverage" (by decide) (by decide) (by decide) (by decide) (by decide) (by decide)
  have e3 : List.lookup "training_available" a.dumpFields = none := SystemAttributes.lookup_other_SystemAttributes a "training_available" (by decide) (by decide) (by decide) (by decide) (by decide) (by decide)
  have e4 : List.lookup "strategic_importance" a.dumpFields = none := SystemAttributes.lookup_other_SystemAttributes a "strategic_importance" (by decide) (by decide) (by decide) (by decide) (by decide) (by decide)
  simp [scoreOf, CapabilityAttributes.keys, e0, e1, e2, e3, e4]

theorem CapabilityAttributes.parse_CapabilityAttributes_dump_SystemAttributes (a : SystemAttributes) :
    CapabilityAttributes.parseFields a.dumpFields = .ok ⟨none, none, none, none, none⟩ := by
  have e0 : List.lookup "capability_type" a.dumpFields = none := SystemAttributes.lookup_other_SystemAttributes a "capability_type" (by decide) (by decide) (by decide) (by decide) (by decide) (by decide)
  have e1 : List.lookup "proficiency" a.dumpFields = none := SystemAttributes.lookup_other_SystemAttributes a "proficiency" (by decide) (by decide) (by decide) (by decide) (by decide) (by decide)
  have e2 : List.lookup "coverage" a.dumpFields = none := SystemAttributes.lookup_other_SystemAttributes a "coverage" (by decide) (by decide) (by decide) (by decide) (by decide) (by decide)
  have e3 : List.lookup "training_available" a.dumpFields = none := SystemAttributes.lookup_other_SystemAttributes a "training_available" (by decide) (by decide) (by decide) (by decide) (by decide) (by decide)
  have e4 : List.lookup "strategic_importance" a.dumpFields = none := SystemAttributes.lookup_other_SystemAttributes a "strategic_importance" (by decide) (by decide) (by decide) (by decide) (by decide) (by decide)
  exact CapabilityAttributes.parse_absent_CapabilityAttributes a.dumpFields e0 e1 e2 e3 e4

theorem OrganizationAttributes.score_OrganizationAttributes_dump_PolicyAttributes (a : PolicyAttributes) :
    scoreOf OrganizationAttributes.keys a.dumpFields = 0 := by
  have e0 : List.lookup "org_type" a.dumpFields = none := PolicyAttributes.lookup_other_PolicyAttributes a "org_type" (by decide) (by decide) (by decide) (by decide) (by decide) (by decide) (by decide)
  have e1 : List.lookup "size" a.dumpFields = none := PolicyAttributes.lookup_other_PolicyAttributes a "size" (by decide) (by decide) (by decide) (by decide) (by decide) (by decide) (by decide)
  have e2 : List.lookup "headcount" a.dumpFields = none := PolicyAttributes.lookup_other_PolicyAttributes a "headcount" (by decide) (by decide) (by decide) (by decide) (by decide) (by decide) (by decide)
  have e3 : List.lookup "location" a.dumpFields = none := PolicyAttributes.lookup_other_PolicyAttributes a "location" (by decide) (by decide) (by decide) (by decide) (by decide) (by decide) (by decide)
  have e4 : List.lookup "industry" a.dumpFields = none := PolicyAttributes.lookup_other_PolicyAttributes a "industry" (by decide) (by decide) (by decide) (by decide) (by decide) (by decide) (by decide)
  have e5 : List.lookup "compliance_frameworks" a.dumpFields = none := PolicyAttributes.lookup_other_PolicyAttributes a "compliance_frameworks" (by decide) (by decide) (by decide) (by decide) (by decide) (by decide) (by decide)
  simp [scoreOf, OrganizationAttributes.keys, e0, e1, e2, e3, e4, e5]

theorem OrganizationAttributes.parse_OrganizationAttributes_dump_PolicyAttributes (a : PolicyAttributes) :
    OrganizationAttributes.parseFields a.dumpFields = .ok ⟨none, none, none, none, none, none⟩ := by
  have e0 : List.lookup "org_type" a.dumpFields = none := PolicyAttributes.lookup_other_PolicyAttributes a "org_type" (by decide) (by decide) (by decide) (by decide) (by decide) (by decide) (by decide)
  have e1 : List.lookup "size" a.dumpFields = none := PolicyAttributes.lookup_other_PolicyAttributes a "size" (by decide) (by decide) (by decide) (by decide) (by decide) (by decide) (by decide)
  have e2 : List.lookup "headcount" a.dumpFields = none := PolicyAttributes.lookup_other_PolicyAttributes a "headcount" (by decide) (by decide) (by decide) (by decide) (by decide) (by decide) (by decide)
  have e3 : List.lookup "location" a.dumpFields = none := PolicyAttributes.lookup_other_PolicyAttributes a "location" (by decide) (by decide) (by decide) (by decide) (by decide) (by decide) (by decide)
  have e4 : List.lookup "industry" a.dumpFields = none := PolicyAttributes.lookup_other_PolicyAttributes a "industry" (by decide) (by decide) (by decide) (by decide) (by decide) (by decide) (by decide)
  have e5 : List.lookup "compliance_frameworks" a.dumpFields = none := PolicyAttributes.lookup_other_PolicyAttributes a "compliance_frameworks" (by decide) (by decide) (by decide) (by decide) (by decide) (by decide) (by decide)
  exact OrganizationAttributes.parse_absent_OrganizationAttributes a.dumpFields e0 e1 e2 e3 e4 e5

theorem SystemAttributes.score_SystemAttributes_dump_PolicyAttributes (a : PolicyAttributes) :
    scoreOf SystemAttributes.keys a.dumpFields = 0 := by
  have e0 : List.lookup "system_type" a.dumpFields = none := PolicyAttributes.lookup_other_PolicyAttributes a "system_type" (by decide) (by decide) (by decide) (by decide) (by decide) (by decide) (by decide)
  have e1 : List.lookup "status" a.dumpFields = none := PolicyAttributes.lookup_other_PolicyAttributes a "status" (by decide) (by decide) (by decide) (by decide) (by decide) (by decide) (by decide)
  have e2 : List.lookup "criticality" a.dumpFields = none := PolicyAttributes.lookup_other_PolicyAttributes a "criticality" (by decide) (by decide) (by decide) (by decide) (by decide) (by decide) (by decide)
  have e3 : List.lookup "technology_stack" a.dumpFields = none := PolicyAttributes.lookup_other_PolicyAttributes a "technology_stack" (by decide) (by decide) (by decide) (by decide) (by decide) (by decide) (by decide)
  have e4 : List.lookup "hosting" a.dumpFields = none := PolicyAttributes.lookup_other_PolicyAttributes a "hosting" (by decide) (by decide) (by decide) (by decide) (by decide) (by decide) (by decide)
  have e5 : List.lookup "data_classification" a.dumpFields = none := PolicyAttributes.lookup_other_PolicyAttributes a "data_classification" (by decide) (by decide) (by decide) (by decide) (by decide) (by decide) (by decide)
  simp [scoreOf, SystemAttributes.keys, e0, e1, e2, e3, e4, e5]

theorem SystemAttributes.parse_SystemAttributes_dump_PolicyAttributes (a : PolicyAttributes) :
    SystemAttributes.parseFields a.dumpFields = .ok ⟨none, none, none, none, none, none⟩ := by
  have e0 : List.lookup "system_type" a.dumpFields = none := PolicyAttributes.lookup_other_PolicyAttributes a "system_type" (by decide) (by decide) (by decide) (by decide) (by decide) (by decide) (by decide)
  have e1 : List.lookup "status" a.dumpFields = none := PolicyAttributes.lookup_other_PolicyAttributes a "status" (by decide) (by decide) (by decide) (by decide) (by decide) (by decide) (by decide)
  have e2 : List.lookup "criticality" a.dumpFields = none := PolicyAttributes.lookup_other_PolicyAttributes a "criticality" (by decide) (by decide) (by decide) (by decide) (by decide) (by decide) (by decide)
  have e3 : List.lookup "technology_stack" a.dumpFields = none := PolicyAttributes.lookup_other_PolicyAttributes a "technology_stack" (by decide) (by decide) (by decide) (by decide) (by decide) (by decide) (by decide)
  have e4 : List.lookup "hosting" a.dumpFields = none := PolicyAttributes.lookup_other_PolicyAttributes a "hosting" (by decide) (by decide) (by decide) (by decide) (by decide) (by decide) (by decide)
  have e5 : List.lookup "data_classification" a.dumpFields = none := PolicyAttributes.lookup_other_PolicyAttributes a "data_classification" (by decide) (by decide) (by decide) (by decide) (by decide) (by decide) (by decide)
  exact SystemAttributes.parse_absent_SystemAttributes a.dumpFields e0 e1 e2 e3 e4 e5

theorem FactAttributes.score_FactAttributes_dump_PolicyAttributes (a : PolicyAttributes) :
    scoreOf FactAttributes.keys a.dumpFields = 0 := by
  have e0 : List.lookup "fact_type" a.dumpFields = none := PolicyAttributes.lookup_other_PolicyAttributes a "fact_type" (by decide) (by decide) (by decide) (by decide) (by decide) (by decide) (by decide)
  have e1 : List.lookup "value" a.dumpFields = none := PolicyAttributes.lookup_other_PolicyAttributes a "value" (by decide) (by decide) (by decide) (by decide) (by decide) (by decide) (by decide)
  have e2 : List.lookup "unit" a.dumpFields = none := PolicyAttributes.lookup_other_PolicyAttributes a "unit" (by decide) (by decide) (by decide) (by decide) (by decide) (by decide) (by decide)
  have e3 : List.lookup "confidence" a.dumpFields = none := PolicyAttributes.lookup_other_PolicyAttributes a "confidence" (by decide) (by decide) (by decide) (by decide) (by decide) (by decide) (by decide)
  have e4 : List.lookup "source_reference" a.dumpFields = none := PolicyAttributes.lookup_other_PolicyAttributes a "source_reference" (by decide) (by decide) (by decide) (by decide) (by decide) (by decide) (by decide)
  have e5 : List.lookup "verified" a.dumpFields = none := PolicyAttributes.lookup_other_PolicyAttributes a "verified" (by decide) (by decide) (by decide) (by decide) (by decide) (by decide) (by decide)
  have e6 : List.lookup "verified_at" a.dumpFields = none := PolicyAttributes.lookup_other_PolicyAttributes a "verified_at" (by decide) (by decide) (by decide) (by decide) (by decide) (by decide) (by decide)
  simp [scoreOf, FactAttributes.keys, e0, e1, e2, e3, e4, e5, e6]

theorem FactAttributes.parse_FactAttributes_dump_PolicyAttributes (a : PolicyAttributes) :
    FactAttributes.parseFields a.dumpFields = .ok ⟨none, none, none, none, none, none, none⟩ := by
  have e0 : List.lookup "fact_type" a.dumpFields = none := PolicyAttributes.lookup_other_PolicyAttributes a "fact_type" (by decide) (by decide) (by decide) (by decide) (by decide) (by decide) (by decide)
  have e1 : List.lookup "value" a.dumpFields = none := PolicyAttributes.lookup_other_PolicyAttributes a "value" (by decide) (by decide) (by decide) (by decide) (by decide) (by decide) (by decide)
  have e2 : List.lookup "unit" a.dumpFields = none := PolicyAttributes.lookup_other_PolicyAttributes a "unit" (by decide) (by decide) (by decide) (by decide) (by decide) (by decide) (by decide)
  have e3 : List.lookup "confidence" a.dumpFields = none := PolicyAttributes.lookup_other_PolicyAttributes a "confidence" (by decide) (by decide) (by decide) (by decide) (by decide) (by decide) (by decide)
  have e4 : List.lookup "source_reference" a.dumpFields = none := PolicyAttributes.lookup_other_PolicyAttributes a "source_reference" (by decide) (by decide) (by decide) (by decide) (by decide) (by decide) (by decide)
  have e5 : List.lookup "verified" a.dumpFields = none := PolicyAttributes.lookup_other_PolicyAttributes a "verified" (by decide) (by decide) (by decide) (by decide) (by decide) (by decide) (by decide)
  have e6 : List.lookup "verified_at" a.dumpFields = none := PolicyAttributes.lookup_other_PolicyAttributes a "verified_at" (by decide) (by decide) (by decide) (by decide) (by decide) (by decide) (by decide)
  exact FactAttributes.parse_absent_FactAttributes a.dumpFields e0 e1 e2 e3 e4 e5 e6

theorem ArchitectureAttributes.score_ArchitectureAttributes_dump_PolicyAttributes (a : PolicyAttributes) :
    scoreOf ArchitectureAttributes.keys a.dumpFields = 0 := by
  have e0 : List.lookup "architecture_type" a.dumpFields = none := PolicyAttributes.lookup_other_PolicyAttributes a "architecture_type" (by decide) (by decide) (by decide) (by decide) (by decide) (by decide) (by decide)
  have e1 : List.lookup "domain" a.dumpFields = none := PolicyAttributes.lookup_other_PolicyAttributes a "domain" (by decide) (by decide) (by decide) (by decide) (by decide) (by decide) (by decide)
  have e2 : List.lookup "maturity" a.dumpFields = none := PolicyAttributes.lookup_other_PolicyAttributes a "maturity" (by decide) (by decide) (by decide) (by decide) (by decide) (by decide) (by decide)
  have e3 : List.lookup "adoption_status" a.dumpFields = none := PolicyAttributes.lookup_other_PolicyAttributes a "adoption_status" (by decide) (by decide) (by decide) (by decide) (by decide) (by decide) (by decide)
  have e4 : List.lookup "alternatives" a.dumpFields = none := PolicyAttributes.lookup_other_PolicyAttributes a "alternatives" (by decide) (by decide) (by decide) (by decide) (by decide) (by decide) (by decide)
  simp [scoreOf, ArchitectureAttributes.keys, e0, e1, e2, e3, e4]

theorem ArchitectureAttributes.parse_ArchitectureAttributes_dump_PolicyAttributes (a : PolicyAttributes) :
    ArchitectureAttributes.parseFields a.dumpFields = .ok ⟨none, none, none, none, none⟩ := by
  have e0 : List.lookup "architecture_type" a.dumpFields = none := PolicyAttributes.lookup_other_PolicyAttributes a "architecture_type" (by decide) (by decide) (by decide) (by decide) (by decide) (by decide) (by decide)
  have e1 : List.lookup "domain" a.dumpFields = none := PolicyAttributes.lookup_other_PolicyAttributes a "domain" (by decide) (by decide) (by decide) (by decide) (by decide) (by decide) (by decide)
  have e2 : List.lookup "maturity" a.dumpFields = none := PolicyAttributes.lookup_other_PolicyAttributes a "maturity" (by decide) (by decide) (by decide) (by decide) (by decide) (by decide) (by decide)
  have e3 : List.lookup "adoption_status" a.dumpFields = none := PolicyAttributes.lookup_other_PolicyAttributes a "adoption_status" (by decide) (by decide) (by decide) (by decide) (by decide) (by decide) (by decide)
  have e4 : List.lookup "alternatives" a.dumpFields = none := PolicyAttributes.lookup_other_PolicyAttributes a "alternatives" (by decide) (by decide) (by decide) (by decide) (by decide) (by decide) (by decide)
  exact ArchitectureAttributes.parse_absent_ArchitectureAttributes a.dumpFields e0 e1 e2 e3 e4

theorem CapabilityAttributes.score_CapabilityAttributes_dump_PolicyAttributes (a : PolicyAttributes) :
    scoreOf CapabilityAttributes.keys a.dumpFields = 0 := by
  have e0 : List.lookup "capability_type" a.dumpFields = none := PolicyAttributes.lookup_other_PolicyAttributes a "capability_type" (by decide) (by decide) (by decide) (by decide) (by decide) (by decide) (by decide)
  have e1 : List.lookup "proficiency" a.dumpFields = none := PolicyAttributes.lookup_other_PolicyAttributes a "proficiency" (by decide) (by decide) (by decide) (by decide) (by decide) (by decide) (by decide)
  have e2 : List.lookup "coverage" a.dumpFields = none := PolicyAttributes.lookup_other_PolicyAttributes a "coverage" (by decide) (by decide) (by decide) (by decide) (by decide) (by decide) (by decide)
  have e3 : List.lookup "training_available" a.dumpFields = none := PolicyAttributes.lookup_other_PolicyAttributes a "training_available" (by decide) (by decide) (by decide) (by decide) (by decide) (by decide) (by decide)
  have e4 : List.lookup "strategic_importance" a.dumpFields = none := PolicyAttributes.lookup_other_PolicyAttributes a "strategic_importance" (by decide) (by decide) (by decide) (by decide) (by decide) (by decide) (by decide)
  simp [scoreOf, CapabilityAttributes.keys, e0, e1, e2, e3, e4]

theorem CapabilityAttributes.parse_CapabilityAttributes_dump_PolicyAttributes (a : PolicyAttributes) :
    CapabilityAttributes.parseFields a.dumpFields = .ok ⟨none, none, none, none, none⟩ := by
  have e0 : List.lookup "capability_type" a.dumpFields = none := PolicyAttributes.lookup_other_PolicyAttributes a "capability_type" (by decide) (by decide) (by decide) (by decide) (by decide) (by decide) (by decide)
  have e1 : List.lookup "proficiency" a.dumpFields = none := PolicyAttributes.lookup_other_PolicyAttributes a "proficiency" (by decide) (by decide) (by decide) (by decide) (by decide) (by decide) (by decide)
  have e2 : List.lookup "coverage" a.dumpFields = none := PolicyAttributes.lookup_other_PolicyAttributes a "coverage" (by decide) (by decide) (by decide) (by decide) (by decide) (by decide) (by decide)
  have e3 : List.lookup "training_available" a.dumpFields = none := PolicyAttributes.lookup_other_PolicyAttributes a "training_available" (by decide) (by decide) (by decide) (by decide) (by decide) (by decide) (by decide)
  have e4 : List.lookup "strategic_importance" a.dumpFields = none := PolicyAttributes.lookup_other_PolicyAttributes a "strategic_importance" (by decide) (by decide) (by decide) (by decide) (by decide) (by decide) (by decide)
  exact CapabilityAttributes.parse_absent_CapabilityAttributes a.dumpFields e0 e1 e2 e3 e4

theorem OrganizationAttributes.score_OrganizationAttributes_dump_FactAttributes (a : FactAttributes) :
    scoreOf OrganizationAttributes.keys a.dumpFields = 0 := by
  have e0 : List.lookup "org_type" a.dumpFields = none := FactAttributes.lookup_other_FactAttributes a "org_type" (by decide) (by decide) (by decide) (by decide) (by decide) (by decide) (by decide)
  have e1 : List.lookup "size" a.dumpFields = none := FactAttributes.lookup_other_FactAttributes a "size" (by decide) (by decide) (by decide) (by decide) (by decide) (by decide) (by decide)
  have e2 : List.lookup "headcount" a.dumpFields = none := FactAttributes.lookup_other_FactAttributes a "headcount" (by decide) (by decide) (by decide) (by decide) (by decide) (by decide) (by decide)
  have e3 : List.lookup "location" a.dumpFields = none := FactAttributes.lookup_other_FactAttributes a "location" (by decide) (by decide) (by decide) (by decide) (by decide) (by decide) (by decide)
  have e4 : List.lookup "industry" a.dumpFields = none := FactAttributes.lookup_other_FactAttributes a "industry" (by decide) (by decide) (by decide) (by decide) (by decide) (by decide) (by decide)
  have e5 : List.lookup "compliance_frameworks" a.dumpFields = none := FactAttributes.lookup_other_FactAttributes a "compliance_frameworks" (by decide) (by decide) (by decide) (by decide) (by decide) (by decide) (by decide)
  simp [scoreOf, OrganizationAttributes.keys, e0, e1, e2, e3, e4, e5]

theorem OrganizationAttributes.parse_OrganizationAttributes_dump_FactAttributes (a : FactAttributes) :
    OrganizationAttributes.parseFields a.dumpFields = .ok ⟨none, none, none, none, none, none⟩ := by
  have e0 : List.lookup "org_type" a.dumpFields = none := FactAttributes.lookup_other_FactAttributes a "org_type" (by decide) (by decide) (by decide) (by decide) (by decide) (by decide) (by decide)
  have e1 : List.lookup "size" a.dumpFields = none := FactAttributes.lookup_other_FactAttributes a "size" (by decide) (by decide) (by decide) (by decide) (by decide) (by decide) (by decide)
  have e2 : List.lookup "headcount" a.dumpFields = none := FactAttributes.lookup_other_FactAttributes a "headcount" (by decide) (by decide) (by decide) (by decide) (by decide) (by decide) (by decide)
  have e3 : List.lookup "location" a.dumpFields = none := FactAttributes.lookup_other_FactAttributes a "location" (by decide) (by decide) (by decide) (by decide) (by decide) (by decide) (by decide)
  have e4 : List.lookup "industry" a.dumpFields = none := FactAttributes.lookup_other_FactAttributes a "industry" (by decide) (by decide) (by decide) (by decide) (by decide) (by decide) (by decide)
  have e5 : List.lookup "compliance_frameworks" a.dumpFields = none := FactAttributes.lookup_other_FactAttributes a "compliance_frameworks" (by decide) (by decide) (by decide) (by decide) (by decide) (by decide) (by decide)
  exact OrganizationAttributes.parse_absent_OrganizationAttributes a.dumpFields e0 e1 e2 e3 e4 e5

theorem SystemAttributes.score_SystemAttributes_dump_FactAttributes (a : FactAttributes) :
    scoreOf SystemAttributes.keys a.dumpFields = 0 := by
  have e0 : List.lookup "system_type" a.dumpFields = none := FactAttributes.lookup_other_FactAttributes a "system_type" (by decide) (by decide) (by decide) (by decide) (by decide) (by decide) (by decide)
  have e1 : List.lookup "status" a.dumpFields = none := FactAttributes.lookup_other_FactAttributes a "status" (by decide) (by decide) (by decide) (by decide) (by decide) (by decide) (by decide)
  have e2 : List.lookup "criticality" a.dumpFields = none := FactAttributes.lookup_other_FactAttributes a "criticality" (by decide) (by decide) (by decide) (by decide) (by decide) (by decide) (by decide)
  have e3 : List.lookup "technology_stack" a.dumpFields = none := FactAttributes.lookup_other_FactAttributes a "technology_stack" (by decide) (by decide) (by decide) (by decide) (by decide) (by decide) (by decide)
  have e4 : List.lookup "hosting" a.dumpFields = none := FactAttributes.lookup_other_FactAttributes a "hosting" (by decide) (by decide) (by decide) (by decide) (by decide) (by decide) (by decide)
  have e5 : List.lookup "data_classification" a.dumpFields = none := FactAttributes.lookup_other_FactAttributes a "data_classification" (by decide) (by decide) (by decide) (by decide) (by decide) (by decide) (by decide)
  simp [scoreOf, SystemAttributes.keys, e0, e1, e2, e3, e4, e5]

theorem SystemAttributes.parse_SystemAttributes_dump_FactAttributes (a : FactAttributes) :
    SystemAttributes.parseFields a.dumpFields = .ok ⟨none, none, none, none, none, none⟩ := by
  have e0 : List.lookup "system_type" a.dumpFields = none := FactAttributes.lookup_other_FactAttributes a "system_type" (by decide) (by decide) (by decide) (by decide) (by decide) (by decide) (by decide)
  have e1 : List.lookup "status" a.dumpFields = none := FactAttributes.lookup_other_FactAttributes a "status" (by decide) (by decide) (by decide) (by decide) (by decide) (by decide) (by decide)
  have e2 : List.lookup "criticality" a.dumpFields = none := FactAttributes.lookup_other_FactAttributes a "criticality" (by decide) (by decide) (by decide) (by decide) (by decide) (by decide) (by decide)
  have e3 : List.lookup "technology_stack" a.dumpFields = none := FactAttributes.lookup_other_FactAttributes a "technology_stack" (by decide) (by decide) (by decide) (by decide) (by decide) (by decide) (by decide)
  have e4 : List.lookup "hosting" a.dumpFields = none := FactAttributes.lookup_other_FactAttributes a "hosting" (by decide) (by decide) (by decide) (by decide) (by decide) (by decide) (by decide)
  have e5 : List.lookup "data_classification" a.dumpFields = none := FactAttributes.lookup_other_FactAttributes a "data_classification" (by decide) (by decide) (by decide) (by decide) (by decide) (by decide) (by decide)
  exact SystemAttributes.parse_absent_SystemAttributes a.dumpFields e0 e1 e2 e3 e4 e5

theorem PolicyAttributes.score_PolicyAttributes_dump_FactAttributes (a : FactAttributes) :
    scoreOf PolicyAttributes.keys a.dumpFields = 0 := by
  have e0 : List.lookup "policy_type" a.dumpFields = none := FactAttributes.lookup_other_FactAttributes a "policy_type" (by decide) (by decide) (by decide) (by decide) (by decide) (by decide) (by decide)
  have e1 : List.lookup "enforcement" a.dumpFields = none := FactAttributes.lookup_other_FactAttributes a "enforcement" (by decide) (by decide) (by decide) (by decide) (by decide) (by decide) (by decide)
  have e2 : List.lookup "scope" a.dumpFields = none := FactAttributes.lookup_other_FactAttributes a "scope" (by decide) (by decide) (by decide) (by decide) (by decide) (by decide) (by decide)
  have e3 : List.lookup "rationale" a.dumpFields = none := FactAttributes.lookup_other_FactAttributes a "rationale" (by decide) (by decide) (by decide) (by decide) (by decide) (by decide) (by decide)
  have e4 : List.lookup "exceptions_process" a.dumpFields = none := FactAttributes.lookup_other_FactAttributes a "exceptions_process" (by decide) (by decide) (by decide) (by decide) (by decide) (by decide) (by decide)
  have e5 : List.lookup "owner" a.dumpFields = none := FactAttributes.lookup_other_FactAttributes a "owner" (by decide) (by decide) (by decide) (by decide) (by decide) (by decide) (by decide)
  have e6 : List.lookup "review_cycle" a.dumpFields = none := FactAttributes.lookup_other_FactAttributes a "review_cycle" (by decide) (by decide) (by decide) (by decide) (by decide) (by decide) (by decide)
  simp [scoreOf, PolicyAttributes.keys, e0, e1, e2, e3, e4, e5, e6]

theorem PolicyAttributes.parse_PolicyAttributes_dump_FactAttributes (a : FactAttributes) :
    PolicyAttributes.parseFields a.dumpFields = .ok ⟨none, none, none, none, none, none, none⟩ := by
  have e0 : List.lookup "policy_type" a.dumpFields = none := FactAttributes.lookup_other_FactAttributes a "policy_type" (by decide) (by decide) (by decide) (by decide) (by decide) (by decide) (by decide)
  have e1 : List.lookup "enforcement" a.dumpFields = none := FactAttributes.lookup_other_FactAttributes a "enforcement" (by decide) (by decide) (by decide) (by decide) (by decide) (by decide) (by decide)
  have e2 : List.lookup "scope" a.dumpFields = none := FactAttributes.lookup_other_FactAttributes a "scope" (by decide) (by decide) (by decide) (by decide) (by decide) (by decide) (by decide)
  have e3 : List.lookup "rationale" a.dumpFields = none := FactAttributes.lookup_other_FactAttributes a "rationale" (by decide) (by decide) (by decide) (by decide) (by decide) (by decide) (by decide)
  have e4 : List.lookup "exceptions_process" a.dumpFields = none := FactAttributes.lookup_other_FactAttributes a "exceptions_process" (by decide) (by decide) (by decide) (by decide) (by decide) (by decide) (by decide)
  have e5 : List.lookup "owner" a.dumpFields = none := FactAttributes.lookup_other_FactAttributes a "owner" (by decide) (by decide) (by decide) (by decide) (by decide) (by decide) (by decide)
  have e6 : List.lookup "review_cycle" a.dumpFields = none := FactAttributes.lookup_other_FactAttributes a "review_cycle" (by decide) (by decide) (by decide) (by decide) (by decide) (by decide) (by decide)
  exact PolicyAttributes.parse_absent_PolicyAttributes a.dumpFields e0 e1 e2 e3 e4 e5 e6

theorem ArchitectureAttributes.score_ArchitectureAttributes_dump_FactAttributes (a : FactAttributes) :
    scoreOf ArchitectureAttributes.keys a.dumpFields = 0 := by
  have e0 : List.lookup "architecture_type" a.dumpFields = none := FactAttributes.lookup_other_FactAttributes a "architecture_type" (by decide) (by decide) (by decide) (by decide) (by decide) (by decide) (by decide)
  have e1 : List.lookup "domain" a.dumpFields = none := FactAttributes.lookup_other_FactAttributes a "domain" (by decide) (by decide) (by decide) (by decide) (by decide) (by decide) (by decide)
  have e2 : List.lookup "maturity" a.dumpFields = none := FactAttributes.lookup_other_FactAttributes a "maturity" (by decide) (by decide) (by decide) (by decide) (by decide) (by decide) (by decide)
  have e3 : List.lookup "adoption_status" a.dumpFields = none := FactAttributes.lookup_other_FactAttributes a "adoption_status" (by decide) (by decide) (by decide) (by decide) (by decide) (by decide) (by decide)
  have e4 : List.lookup "alternatives" a.dumpFields = none := FactAttributes.lookup_other_FactAttributes a "alternatives" (by decide) (by decide) (by decide) (by decide) (by decide) (by decide) (by decide)
  simp [scoreOf, ArchitectureAttributes.keys, e0, e1, e2, e3, e4]

theorem ArchitectureAttributes.parse_ArchitectureAttributes_dump_FactAttributes (a : FactAttributes) :
    ArchitectureAttributes.parseFields a.dumpFields = .ok ⟨none, none, none, none, none⟩ := by
  have e0 : List.lookup "architecture_type" a.dumpFields = none := FactAttributes.lookup_other_FactAttributes a "architecture_type" (by decide) (by decide) (by decide) (by decide) (by decide) (by decide) (by decide)
  have e1 : List.lookup "domain" a.dumpFields = none := FactAttributes.lookup_other_FactAttributes a "domain" (by decide) (by decide) (by decide) (by decide) (by decide) (by decide) (by decide)
  have e2 : List.lookup "maturity" a.dumpFields = none := FactAttributes.lookup_other_FactAttributes a "maturity" (by decide) (by decide) (by decide) (by decide) (by decide) (by decide) (by decide)
  have e3 : List.lookup "adoption_status" a.dumpFields = none := FactAttributes.lookup_other_FactAttributes a "adoption_status" (by decide) (by decide) (by decide) (by decide) (by decide) (by decide) (by decide)
  have e4 : List.lookup "alternatives" a.dumpFields = none := FactAttributes.lookup_other_FactAttributes a "alternatives" (by decide) (by decide) (by decide) (by decide) (by decide) (by decide) (by decide)
  exact ArchitectureAttributes.parse_absent_ArchitectureAttributes a.dumpFields e0 e1 e2 e3 e4

theorem CapabilityAttributes.score_CapabilityAttributes_dump_FactAttributes (a : FactAttributes) :
    scoreOf CapabilityAttributes.keys a.dumpFields = 0 := by
  have e0 : List.lookup "capability_type" a.dumpFields = none := FactAttributes.lookup_other_FactAttributes a "capability_type" (by decide) (by decide) (by decide) (by decide) (by decide) (by decide) (by decide)
  have e1 : List.lookup "proficiency" a.dumpFields = none := FactAttributes.lookup_other_FactAttributes a "proficiency" (by decide) (by decide) (by decide) (by decide) (by decide) (by decide) (by decide)
  have e2 : List.lookup "coverage" a.dumpFields = none := FactAttributes.lookup_other_FactAttributes a "coverage" (by decide) (by decide) (by decide) (by decide) (by decide) (by decide) (by decide)
  have e3 : List.lookup "training_available" a.dumpFields = none := FactAttributes.lookup_other_FactAttributes a "training_available" (by decide) (by decide) (by decide) (by decide) (by decide) (by decide) (by decide)
  have e4 : List.lookup "strategic_importance" a.dumpFields = none := FactAttributes.lookup_other_FactAttributes a "strategic_importance" (by decide) (by decide) (by decide) (by decide) (by decide) (by decide) (by decide)
  simp [scoreOf, CapabilityAttributes.keys, e0, e1, e2, e3, e4]

theorem CapabilityAttributes.parse_CapabilityAttributes_dump_FactAttributes (a : FactAttributes) :
    CapabilityAttributes.parseFields a.dumpFields = .ok ⟨none, none, none, none, none⟩ := by
  have e0 : List.lookup "capability_type" a.dumpFields = none := FactAttributes.lookup_other_FactAttributes a "capability_type" (by decide) (by decide) (by decide) (by decide) (by decide) (by decide) (by decide)
  have e1 : List.lookup "proficiency" a.dumpFields = none := FactAttributes.lookup_other_FactAttributes a "proficiency" (by decide) (by decide) (by decide) (by decide) (by decide) (by decide) (by decide)
  have e2 : List.lookup "coverage" a.dumpFields = none := FactAttributes.lookup_other_FactAttributes a "coverage" (by decide) (by decide) (by decide) (by decide) (by decide) (by decide) (by decide)
  have e3 : List.lookup "training_available" a.dumpFields = none := FactAttributes.lookup_other_FactAttributes a "training_available" (by decide) (by decide) (by decide) (by decide) (by decide) (by decide) (by decide)
  have e4 : List.lookup "strategic_importance" a.dumpFields = none := FactAttributes.lookup_other_FactAttributes a "strategic_importance" (by decide) (by decide) (by decide) (by decide) (by decide) (by decide) (by decide)
  exact CapabilityAttributes.parse_absent_CapabilityAttributes a.dumpFields e0 e1 e2 e3 e4

theorem OrganizationAttributes.score_OrganizationAttributes_dump_ArchitectureAttributes (a : ArchitectureAttributes) :
    scoreOf OrganizationAttributes.keys a.dumpFields = 0 := by
  have e0 : List.lookup "org_type" a.dumpFields = none := ArchitectureAttributes.lookup_other_ArchitectureAttributes a "org_type" (by decide) (by decide) (by decide) (by decide) (by decide)
  have e1 : List.lookup "size" a.dumpFields = none := ArchitectureAttributes.lookup_other_ArchitectureAttributes a "size" (by decide) (by decide) (by decide) (by decide) (by decide)
  have e2 : List.lookup "headcount" a.dumpFields = none := ArchitectureAttributes.lookup_other_ArchitectureAttributes a "headcount" (by decide) (by decide) (by decide) (by decide) (by decide)
  have e3 : List.lookup "location" a.dumpFields = none := ArchitectureAttributes.lookup_other_ArchitectureAttributes a "location" (by decide) (by decide) (by decide) (by decide) (by decide)
  have e4 : List.lookup "industry" a.dumpFields = none := ArchitectureAttributes.lookup_other_ArchitectureAttributes a "industry" (by decide) (by decide) (by decide) (by decide) (by decide)
  have e5 : List.lookup "compliance_frameworks" a.dumpFields = none := ArchitectureAttributes.lookup_other_ArchitectureAttributes a "compliance_frameworks" (by decide) (by decide) (by decide) (by decide) (by decide)
  simp [scoreOf, OrganizationAttributes.keys, e0, e1, e2, e3, e4, e5]

theorem OrganizationAttributes.parse_OrganizationAttributes_dump_ArchitectureAttributes (a : ArchitectureAttributes) :
    OrganizationAttributes.parseFields a.dumpFields = .ok ⟨none, none, none, none, none, none⟩ := by
  have e0 : List.lookup "org_type" a.dumpFields = none := ArchitectureAttributes.lookup_other_ArchitectureAttributes a "org_type" (by decide) (by decide) (by decide) (by decide) (by decide)
  have e1 : List.lookup "size" a.dumpFields = none := ArchitectureAttributes.lookup_other_ArchitectureAttributes a "size" (by decide) (by decide) (by decide) (by decide) (by decide)
  have e2 : List.lookup "headcount" a.dumpFields = none := ArchitectureAttributes.lookup_other_ArchitectureAttributes a "headcount" (by decide) (by decide) (by decide) (by decide) (by decide)
  have e3 : List.lookup "location" a.dumpFields = none := ArchitectureAttributes.lookup_other_ArchitectureAttributes a "location" (by decide) (by decide) (by decide) (by decide) (by decide)
  have e4 : List.lookup "industry" a.dumpFields = none := ArchitectureAttributes.lookup_other_ArchitectureAttributes a "industry" (by decide) (by decide) (by decide) (by decide) (by decide)
  have e5 : List.lookup "compliance_frameworks" a.dumpFields = none := ArchitectureAttributes.lookup_other_ArchitectureAttributes a "compliance_frameworks" (by decide) (by decide) (by decide) (by decide) (by decide)
  exact OrganizationAttributes.parse_absent_OrganizationAttributes a.dumpFields e0 e1 e2 e3 e4 e5

theorem SystemAttributes.score_SystemAttributes_dump_ArchitectureAttributes (a : ArchitectureAttributes) :
    scoreOf SystemAttributes.keys a.dumpFields = 0 := by
  have e0 : List.lookup "system_type" a.dumpFields = none := ArchitectureAttributes.lookup_other_ArchitectureAttributes a "system_type" (by decide) (by decide) (by decide) (by decide) (by decide)
  have e1 : List.lookup "status" a.dumpFields = none := ArchitectureAttributes.lookup_other_ArchitectureAttributes a "status" (by decide) (by decide) (by decide) (by decide) (by decide)
  have e2 : List.lookup "criticality" a.dumpFields = none := ArchitectureAttributes.lookup_other_ArchitectureAttributes a "criticality" (by decide) (by decide) (by decide) (by decide) (by decide)
  have e3 : List.lookup "technology_stack" a.dumpFields = none := ArchitectureAttributes.lookup_other_ArchitectureAttributes a "technology_stack" (by decide) (by decide) (by decide) (by decide) (by decide)
  have e4 : List.lookup "hosting" a.dumpFields = none := ArchitectureAttributes.lookup_other_ArchitectureAttributes a "hosting" (by decide) (by decide) (by decide) (by decide) (by decide)
  have e5 : List.lookup "data_classification" a.dumpFields = none := ArchitectureAttributes.lookup_other_ArchitectureAttributes a "data_classification" (by decide) (by decide) (by decide) (by decide) (by decide)
  simp [scoreOf, SystemAttributes.keys, e0, e1, e2, e3, e4, e5]

theorem SystemAttributes.parse_SystemAttributes_dump_ArchitectureAttributes (a : ArchitectureAttributes) :
    SystemAttributes.parseFields a.dumpFields = .ok ⟨none, none, none, none, none, none⟩ := by
  have e0 : List.lookup "system_type" a.dumpFields = none := ArchitectureAttributes.lookup_other_ArchitectureAttributes a "system_type" (by decide) (by decide) (by decide) (by decide) (by decide)
  have e1 : List.lookup "status" a.dumpFields = none := ArchitectureAttributes.lookup_other_ArchitectureAttributes a "status" (by decide) (by decide) (by decide) (by decide) (by decide)
  have e2 : List.lookup "criticality" a.dumpFields = none := ArchitectureAttributes.lookup_other_ArchitectureAttributes a "criticality" (by decide) (by decide) (by decide) (by decide) (by decide)
  have e3 : List.lookup "technology_stack" a.dumpFields = none := ArchitectureAttributes.lookup_other_ArchitectureAttributes a "technology_stack" (by decide) (by decide) (by decide) (by decide) (by decide)
  have e4 : List.lookup "hosting" a.dumpFields = none := ArchitectureAttributes.lookup_other_ArchitectureAttributes a "hosting" (by decide) (by decide) (by decide) (by decide) (by decide)
  have e5 : List.lookup "data_classification" a.dumpFields = none := ArchitectureAttributes.lookup_other_ArchitectureAttributes a "data_classification" (by decide) (by decide) (by decide) (by decide) (by decide)
  exact SystemAttributes.parse_absent_SystemAttributes a.dumpFields e0 e1 e2 e3 e4 e5

theorem PolicyAttributes.score_PolicyAttributes_dump_ArchitectureAttributes (a : ArchitectureAttributes) :
    scoreOf PolicyAttributes.keys a.dumpFields = 0 := by
  have e0 : List.lookup "policy_type" a.dumpFields = none := ArchitectureAttributes.lookup_other_ArchitectureAttributes a "policy_type" (by decide) (by decide) (by decide) (by decide) (by decide)
  have e1 : List.lookup "enforcement" a.dumpFields = none := ArchitectureAttributes.lookup_other_ArchitectureAttributes a "enforcement" (by decide) (by decide) (by decide) (by decide) (by decide)
  have e2 : List.lookup "scope" a.dumpFields = none := ArchitectureAttributes.lookup_other_ArchitectureAttributes a "scope" (by decide) (by decide) (by decide) (by decide) (by decide)
  have e3 : List.lookup "rationale" a.dumpFields = none := ArchitectureAttributes.lookup_other_ArchitectureAttributes a "rationale" (by decide) (by decide) (by decide) (by decide) (by decide)
  have e4 : List.lookup "exceptions_process" a.dumpFields = none := ArchitectureAttributes.lookup_other_ArchitectureAttributes a "exceptions_process" (by decide) (by decide) (by decide) (by decide) (by decide)
  have e5 : List.lookup "owner" a.dumpFields = none := ArchitectureAttributes.lookup_other_ArchitectureAttributes a "owner" (by decide) (by decide) (by decide) (by decide) (by decide)
  have e6 : List.lookup "review_cycle" a.dumpFields = none := ArchitectureAttributes.lookup_other_ArchitectureAttributes a "review_cycle" (by decide) (by decide) (by decide) (by decide) (by decide)
  simp [scoreOf, PolicyAttributes.keys, e0, e1, e2, e3, e4, e5, e6]

theorem PolicyAttributes.parse_PolicyAttributes_dump_ArchitectureAttributes (a : ArchitectureAttributes) :
    PolicyAttributes.parseFields a.dumpFields = .ok ⟨none, none, none, none, none, none, none⟩ := by
  have e0 : List.lookup "policy_type" a.dumpFields = none := ArchitectureAttributes.lookup_other_ArchitectureAttributes a "policy_type" (by decide) (by decide) (by decide) (by decide) (by decide)
  have e1 : List.lookup "enforcement" a.dumpFields = none := ArchitectureAttributes.lookup_other_ArchitectureAttributes a "enforcement" (by decide) (by decide) (by decide) (by decide) (by decide)
  have e2 : List.lookup "scope" a.dumpFields = none := ArchitectureAttributes.lookup_other_ArchitectureAttributes a "scope" (by decide) (by decide) (by decide) (by decide) (by decide)
  have e3 : List.lookup "rationale" a.dumpFields = none := ArchitectureAttributes.lookup_other_ArchitectureAttributes a "rationale" (by decide) (by decide) (by decide) (by decide) (by decide)
  have e4 : List.lookup "exceptions_process" a.dumpFields = none := ArchitectureAttributes.lookup_other_ArchitectureAttributes a "exceptions_process" (by decide) (by decide) (by decide) (by decide) (by decide)
  have e5 : List.lookup "owner" a.dumpFields = none := ArchitectureAttributes.lookup_other_ArchitectureAttributes a "owner" (by decide) (by decide) (by decide) (by decide) (by decide)
  have e6 : List.lookup "review_cycle" a.dumpFields = none := ArchitectureAttributes.lookup_other_ArchitectureAttributes a "review_cycle" (by decide) (by decide) (by decide) (by decide) (by decide)
  exact PolicyAttributes.parse_absent_PolicyAttributes a.dumpFields e0 e1 e2 e3 e4 e5 e6

theorem FactAttributes.score_FactAttributes_dump_ArchitectureAttributes (a : ArchitectureAttributes) :
    scoreOf FactAttributes.keys a.dumpFields = 0 := by
  have e0 : List.lookup "fact_type" a.dumpFields = none := ArchitectureAttributes.lookup_other_ArchitectureAttributes a "fact_type" (by decide) (by decide) (by decide) (by decide) (by decide)
  have e1 : List.lookup "value" a.dumpFields = none := ArchitectureAttributes.lookup_other_ArchitectureAttributes a "value" (by decide) (by decide) (by decide) (by decide) (by decide)
  have e2 : List.lookup "unit" a.dumpFields = none := ArchitectureAttributes.lookup_other_ArchitectureAttributes a "unit" (by decide) (by decide) (by decide) (by decide) (by decide)
  have e3 : List.lookup "confidence" a.dumpFields = none := ArchitectureAttributes.lookup_other_ArchitectureAttributes a "confidence" (by decide) (by decide) (by decide) (by decide) (by decide)
  have e4 : List.lookup "source_reference" a.dumpFields = none := ArchitectureAttributes.lookup_other_ArchitectureAttributes a "source_reference" (by decide) (by decide) (by decide) (by decide) (by decide)
  have e5 : List.lookup "verified" a.dumpFields = none := ArchitectureAttributes.lookup_other_ArchitectureAttributes a "verified" (by decide) (by decide) (by decide) (by decide) (by decide)
  have e6 : List.lookup "verified_at" a.dumpFields = none := ArchitectureAttributes.lookup_other_ArchitectureAttributes a "verified_at" (by decide) (by decide) (by decide) (by decide) (by decide)
  simp [scoreOf, FactAttributes.keys, e0, e1, e2, e3, e4, e5, e6]

theorem FactAttributes.parse_FactAttributes_dump_ArchitectureAttributes (a : ArchitectureAttributes) :
    FactAttributes.parseFields a.dumpFields = .ok ⟨none, none, none, none, none, none, none⟩ := by
  have e0 : List.lookup "fact_type" a.dumpFields = none := ArchitectureAttributes.lookup_other_ArchitectureAttributes a "fact_type" (by decide) (by decide) (by decide) (by decide) (by decide)
  have e1 : List.lookup "value" a.dumpFields = none := ArchitectureAttributes.lookup_other_ArchitectureAttributes a "value" (by decide) (by decide) (by decide) (by decide) (by decide)
  have e2 : List.lookup "unit" a.dumpFields = none := ArchitectureAttributes.lookup_other_ArchitectureAttributes a "unit" (by decide) (by decide) (by decide) (by decide) (by decide)
  have e3 : List.lookup "confidence" a.dumpFields = none := ArchitectureAttributes.lookup_other_ArchitectureAttributes a "confidence" (by decide) (by decide) (by decide) (by decide) (by decide)
  have e4 : List.lookup "source_reference" a.dumpFields = none := ArchitectureAttributes.lookup_other_ArchitectureAttributes a "source_reference" (by decide) (by decide) (by decide) (by decide) (by decide)
  have e5 : List.lookup "verified" a.dumpFields = none := ArchitectureAttributes.lookup_other_ArchitectureAttributes a "verified" (by decide) (by decide) (by decide) (by decide) (by decide)
  have e6 : List.lookup "verified_at" a.dumpFields = none := ArchitectureAttributes.lookup_other_ArchitectureAttributes a "verified_at" (by decide) (by decide) (by decide) (by decide) (by decide)
  exact FactAttributes.parse_absent_FactAttributes a.dumpFields e0 e1 e2 e3 e4 e5 e6

theorem CapabilityAttributes.score_CapabilityAttributes_dump_ArchitectureAttributes (a : ArchitectureAttributes) :
    scoreOf CapabilityAttributes.keys a.dumpFields = 0 := by
  have e0 : List.lookup "capability_type" a.dumpFields = none := ArchitectureAttributes.lookup_other_ArchitectureAttributes a "capability_type" (by decide) (by decide) (by decide) (by decide) (by decide)
  have e1 : List.lookup "proficiency" a.dumpFields = none := ArchitectureAttributes.lookup_other_ArchitectureAttributes a "proficiency" (by decide) (by decide) (by decide) (by decide) (by decide)
  have e2 : List.lookup "coverage" a.dumpFields = none := ArchitectureAttributes.lookup_other_ArchitectureAttributes a "coverage" (by decide) (by decide) (by decide) (by decide) (by decide)
  have e3 : List.lookup "training_available" a.dumpFields = none := ArchitectureAttributes.lookup_other_ArchitectureAttributes a "training_available" (by decide) (by decide) (by decide) (by decide) (by decide)
  have e4 : List.lookup "strategic_importance" a.dumpFields = none := ArchitectureAttributes.lookup_other_ArchitectureAttributes a "strategic_importance" (by decide) (by decide) (by decide) (by decide) (by decide)
  simp [scoreOf, CapabilityAttributes.keys, e0, e1, e2, e3, e4]

theorem CapabilityAttributes.parse_CapabilityAttributes_dump_ArchitectureAttributes (a : ArchitectureAttributes) :
    CapabilityAttributes.parseFields a.dumpFields = .ok ⟨none, none, none, none, none⟩ := by
  have e0 : List.lookup "capability_type" a.dumpFields = none := ArchitectureAttributes.lookup_other_ArchitectureAttributes a "capability_type" (by decide) (by decide) (by decide) (by decide) (by decide)
  have e1 : List.lookup "proficiency" a.dumpFields = none := ArchitectureAttributes.lookup_other_ArchitectureAttributes a "proficiency" (by decide) (by decide) (by decide) (by decide) (by decide)
  have e2 : List.lookup "coverage" a.dumpFields = none := ArchitectureAttributes.lookup_other_ArchitectureAttributes a "coverage" (by decide) (by decide) (by decide) (by decide) (by decide)
  have e3 : List.lookup "training_available" a.dumpFields = none := ArchitectureAttributes.lookup_other_ArchitectureAttributes a "training_available" (by decide) (by decide) (by decide) (by decide) (by decide)
  have e4 : List.lookup "strategic_importance" a.dumpFields = none := ArchitectureAttributes.lookup_other_ArchitectureAttributes a "strategic_importance" (by decide) (by decide) (by decide) (by decide) (by decide)
  exact CapabilityAttributes.parse_absent_CapabilityAttributes a.dumpFields e0 e1 e2 e3 e4

theorem OrganizationAttributes.score_OrganizationAttributes_dump_CapabilityAttributes (a : CapabilityAttributes) :
    scoreOf OrganizationAttributes.keys a.dumpFields = 0 := by
  have e0 : List.lookup "org_type" a.dumpFields = none := CapabilityAttributes.lookup_other_CapabilityAttributes a "org_type" (by decide) (by decide) (by decide) (by decide) (by decide)
  have e1 : List.lookup "size" a.dumpFields = none := CapabilityAttributes.lookup_other_CapabilityAttributes a "size" (by decide) (by decide) (by decide) (by decide) (by decide)
  have e2 : List.lookup "headcount" a.dumpFields = none := CapabilityAttributes.lookup_other_CapabilityAttributes a "headcount" (by decide) (by decide) (by decide) (by decide) (by decide)
  have e3 : List.lookup "location" a.dumpFields = none := CapabilityAttributes.lookup_other_CapabilityAttributes a "location" (by decide) (by decide) (by decide) (by decide) (by decide)
  have e4 : List.lookup "industry" a.dumpFields = none := CapabilityAttributes.lookup_other_CapabilityAttributes a "industry" (by decide) (by decide) (by decide) (by decide) (by decide)
  have e5 : List.lookup "compliance_frameworks" a.dumpFields = none := CapabilityAttributes.lookup_other_CapabilityAttributes a "compliance_frameworks" (by decide) (by decide) (by decide) (by decide) (by decide)
  simp [scoreOf, OrganizationAttributes.keys, e0, e1, e2, e3, e4, e5]

theorem OrganizationAttributes.parse_OrganizationAttributes_dump_CapabilityAttributes (a : CapabilityAttributes) :
    OrganizationAttributes.parseFields a.dumpFields = .ok ⟨none, none, none, none, none, none⟩ := by
  have e0 : List.lookup "org_type" a.dumpFields = none := CapabilityAttributes.lookup_other_CapabilityAttributes a "org_type" (by decide) (by decide) (by decide) (by decide) (by decide)
  have e1 : List.lookup "size" a.dumpFields = none := CapabilityAttributes.lookup_other_CapabilityAttributes a "size" (by decide) (by decide) (by decide) (by decide) (by decide)
  have e2 : List.lookup "headcount" a.dumpFields = none := CapabilityAttributes.lookup_other_CapabilityAttributes a "headcount" (by decide) (by decide) (by decide) (by decide) (by decide)
  have e3 : List.lookup "location" a.dumpFields = none := CapabilityAttributes.lookup_other_CapabilityAttributes a "location" (by decide) (by decide) (by decide) (by decide) (by decide)
  have e4 : List.lookup "industry" a.dumpFields = none := CapabilityAttributes.lookup_other_CapabilityAttributes a "industry" (by decide) (by decide) (by decide) (by decide) (by decide)
  have e5 : List.lookup "compliance_frameworks" a.dumpFields = none := CapabilityAttributes.lookup_other_CapabilityAttributes a "compliance_frameworks" (by decide) (by decide) (by decide) (by decide) (by decide)
  exact OrganizationAttributes.parse_absent_OrganizationAttributes a.dumpFields e0 e1 e2 e3 e4 e5

theorem SystemAttributes.score_SystemAttributes_dump_CapabilityAttributes (a : CapabilityAttributes) :
    scoreOf SystemAttributes.keys a.dumpFields = 0 := by
  have e0 : List.lookup "system_type" a.dumpFields = none := CapabilityAttributes.lookup_other_CapabilityAttributes a "system_type" (by decide) (by decide) (by decide) (by decide) (by decide)
  have e1 : List.lookup "status" a.dumpFields = none := CapabilityAttributes.lookup_other_CapabilityAttributes a "status" (by decide) (by decide) (by decide) (by decide) (by decide)
  have e2 : List.lookup "criticality" a.dumpFields = none := CapabilityAttributes.lookup_other_CapabilityAttributes a "criticality" (by decide) (by decide) (by decide) (by decide) (by decide)
  have e3 : List.lookup "technology_stack" a.dumpFields = none := CapabilityAttributes.lookup_other_CapabilityAttributes a "technology_stack" (by decide) (by decide) (by decide) (by decide) (by decide)
  have e4 : List.lookup "hosting" a.dumpFields = none := CapabilityAttributes.lookup_other_CapabilityAttributes a "hosting" (by decide) (by decide) (by decide) (by decide) (by decide)
  have e5 : List.lookup "data_classification" a.dumpFields = none := CapabilityAttributes.lookup_other_CapabilityAttributes a "data_classification" (by decide) (by decide) (by decide) (by decide) (by decide)
  simp [scoreOf, SystemAttributes.keys, e0, e1, e2, e3, e4, e5]

theorem SystemAttributes.parse_SystemAttributes_dump_CapabilityAttributes (a : CapabilityAttributes) :
    SystemAttributes.parseFields a.dumpFields = .ok ⟨none, none, none, none, none, none⟩ := by
  have e0 : List.lookup "system_type" a.dumpFields = none := CapabilityAttributes.lookup_other_CapabilityAttributes a "system_type" (by decide) (by decide) (by decide) (by decide) (by decide)
  have e1 : List.lookup "status" a.dumpFields = none := CapabilityAttributes.lookup_other_CapabilityAttributes a "status" (by decide) (by decide) (by decide) (by decide) (by decide)
  have e2 : List.lookup "criticality" a.dumpFields = none := CapabilityAttributes.lookup_other_CapabilityAttributes a "criticality" (by decide) (by decide) (by decide) (by decide) (by decide)
  have e3 : List.lookup "technology_stack" a.dumpFields = none := CapabilityAttributes.lookup_other_CapabilityAttributes a "technology_stack" (by decide) (by decide) (by decide) (by decide) (by decide)
  have e4 : List.lookup "hosting" a.dumpFields = none := CapabilityAttributes.lookup_other_CapabilityAttributes a "hosting" (by decide) (by decide) (by decide) (by decide) (by decide)
  have e5 : List.lookup "data_classification" a.dumpFields = none := CapabilityAttributes.lookup_other_CapabilityAttributes a "data_classification" (by decide) (by decide) (by decide) (by decide) (by decide)
  exact SystemAttributes.parse_absent_SystemAttributes a.dumpFields e0 e1 e2 e3 e4 e5

theorem PolicyAttributes.score_PolicyAttributes_dump_CapabilityAttributes (a : CapabilityAttributes) :
    scoreOf PolicyAttributes.keys a.dumpFields = 0 := by
  have e0 : List.lookup "policy_type" a.dumpFields = none := CapabilityAttributes.lookup_other_CapabilityAttributes a "policy_type" (by decide) (by decide) (by decide) (by decide) (by decide)
  have e1 : List.lookup "enforcement" a.dumpFields = none := CapabilityAttributes.lookup_other_CapabilityAttributes a "enforcement" (by decide) (by decide) (by decide) (by decide) (by decide)
  have e2 : List.lookup "scope" a.dumpFields = none := CapabilityAttributes.lookup_other_CapabilityAttributes a "scope" (by decide) (by decide) (by decide) (by decide) (by decide)
  have e3 : List.lookup "rationale" a.dumpFields = none := CapabilityAttributes.lookup_other_CapabilityAttributes a "rationale" (by decide) (by decide) (by decide) (by decide) (by decide)
  have e4 : List.lookup "exceptions_process" a.dumpFields = none := CapabilityAttributes.lookup_other_CapabilityAttributes a "exceptions_process" (by decide) (by decide) (by decide) (by decide) (by decide)
  have e5 : List.lookup "owner" a.dumpFields = none := CapabilityAttributes.lookup_other_CapabilityAttributes a "owner" (by decide) (by decide) (by decide) (by decide) (by decide)
  have e6 : List.lookup "review_cycle" a.dumpFields = none := CapabilityAttributes.lookup_other_CapabilityAttributes a "review_cycle" (by decide) (by decide) (by decide) (by decide) (by decide)
  simp [scoreOf, PolicyAttributes.keys, e0, e1, e2, e3, e4, e5, e6]

theorem PolicyAttributes.parse_PolicyAttributes_dump_CapabilityAttributes (a : CapabilityAttributes) :
    PolicyAttributes.parseFields a.dumpFields = .ok ⟨none, none, none, none, none, none, none⟩ := by
  have e0 : List.lookup "policy_type" a.dumpFields = none := CapabilityAttributes.lookup_other_CapabilityAttributes a "policy_type" (by decide) (by decide) (by decide) (by decide) (by decide)
  have e1 : List.lookup "enforcement" a.dumpFields = none := CapabilityAttributes.lookup_other_CapabilityAttributes a "enforcement" (by decide) (by decide) (by decide) (by decide) (by decide)
  have e2 : List.lookup "scope" a.dumpFields = none := CapabilityAttributes.lookup_other_CapabilityAttributes a "scope" (by decide) (by decide) (by decide) (by decide) (by decide)
  have e3 : List.lookup "rationale" a.dumpFields = none := CapabilityAttributes.lookup_other_CapabilityAttributes a "rationale" (by decide) (by decide) (by decide) (by decide) (by decide)
  have e4 : List.lookup "exceptions_process" a.dumpFields = none := CapabilityAttributes.lookup_other_CapabilityAttributes a "exceptions_process" (by decide) (by decide) (by decide) (by decide) (by decide)
  have e5 : List.lookup "owner" a.dumpFields = none := CapabilityAttributes.lookup_other_CapabilityAttributes a "owner" (by decide) (by decide) (by decide) (by decide) (by decide)
  have e6 : List.lookup "review_cycle" a.dumpFields = none := CapabilityAttributes.lookup_other_CapabilityAttributes a "review_cycle" (by decide) (by decide) (by decide) (by decide) (by decide)
  exact PolicyAttributes.parse_absent_PolicyAttributes a.dumpFields e0 e1 e2 e3 e4 e5 e6

theorem FactAttributes.score_FactAttributes_dump_CapabilityAttributes (a : CapabilityAttributes) :
    scoreOf FactAttributes.keys a.dumpFields = 0 := by
  have e0 : List.lookup "fact_type" a.dumpFields = none := CapabilityAttributes.lookup_other_CapabilityAttributes a "fact_type" (by decide) (by decide) (by decide) (by decide) (by decide)
  have e1 : List.lookup "value" a.dumpFields = none := CapabilityAttributes.lookup_other_CapabilityAttributes a "value" (by decide) (by decide) (by decide) (by decide) (by decide)
  have e2 : List.lookup "unit" a.dumpFields = none := CapabilityAttributes.lookup_other_CapabilityAttributes a "unit" (by decide) (by decide) (by decide) (by decide) (by decide)
  have e3 : List.lookup "confidence" a.dumpFields = none := CapabilityAttributes.lookup_other_CapabilityAttributes a "confidence" (by decide) (by decide) (by decide) (by decide) (by decide)
  have e4 : List.lookup "source_reference" a.dumpFields = none := CapabilityAttributes.lookup_other_CapabilityAttributes a "source_reference" (by decide) (by decide) (by decide) (by decide) (by decide)
  have e5 : List.lookup "verified" a.dumpFields = none := CapabilityAttributes.lookup_other_CapabilityAttributes a "verified" (by decide) (by decide) (by decide) (by decide) (by decide)
  have e6 : List.lookup "verified_at" a.dumpFields = none := CapabilityAttributes.lookup_other_CapabilityAttributes a "verified_at" (by decide) (by decide) (by decide) (by decide) (by decide)
  simp [scoreOf, FactAttributes.keys, e0, e1, e2, e3, e4, e5, e6]

theorem FactAttributes.parse_FactAttributes_dump_CapabilityAttributes (a : CapabilityAttributes) :
    FactAttributes.parseFields a.dumpFields = .ok ⟨none, none, none, none, none, none, none⟩ := by
  have e0 : List.lookup "fact_type" a.dumpFields = none := CapabilityAttributes.lookup_other_CapabilityAttributes a "fact_type" (by decide) (by decide) (by decide) (by decide) (by decide)
  have e1 : List.lookup "value" a.dumpFields = none := CapabilityAttributes.lookup_other_CapabilityAttributes a "value" (by decide) (by decide) (by decide) (by decide) (by decide)
  have e2 : List.lookup "unit" a.dumpFields = none := CapabilityAttributes.lookup_other_CapabilityAttributes a "unit" (by decide) (by decide) (by decide) (by decide) (by decide)
  have e3 : List.lookup "confidence" a.dumpFields = none := CapabilityAttributes.lookup_other_CapabilityAttributes a "confidence" (by decide) (by decide) (by decide) (by decide) (by decide)
  have e4 : List.lookup "source_reference" a.dumpFields = none := CapabilityAttributes.lookup_other_CapabilityAttributes a "source_reference" (by decide) (by decide) (by decide) (by decide) (by decide)
  have e5 : List.lookup "verified" a.dumpFields = none := CapabilityAttributes.lookup_other_CapabilityAttributes a "verified" (by decide) (by decide) (by decide) (by decide) (by decide)
  have e6 : List.lookup "verified_at" a.dumpFields = none := CapabilityAttributes.lookup_other_CapabilityAttributes a "verified_at" (by decide) (by decide) (by decide) (by decide) (by decide)
  exact FactAttributes.parse_absent_FactAttributes a.dumpFields e0 e1 e2 e3 e4 e5 e6

theorem ArchitectureAttributes.score_ArchitectureAttributes_dump_CapabilityAttributes (a : CapabilityAttributes) :
    scoreOf ArchitectureAttributes.keys a.dumpFields = 0 := by
  have e0 : List.lookup "architecture_type" a.dumpFields = none := CapabilityAttributes.lookup_other_CapabilityAttributes a "architecture_type" (by decide) (by decide) (by decide) (by decide) (by decide)
  have e1 : List.lookup "domain" a.dumpFields = none := CapabilityAttributes.lookup_other_CapabilityAttributes a "domain" (by decide) (by decide) (by decide) (by decide) (by decide)
  have e2 : List.lookup "maturity" a.dumpFields = none := CapabilityAttributes.lookup_other_CapabilityAttributes a "maturity" (by decide) (by decide) (by decide) (by decide) (by decide)
  have e3 : List.lookup "adoption_status" a.dumpFields = none := CapabilityAttributes.lookup_other_CapabilityAttributes a "adoption_status" (by decide) (by decide) (by decide) (by decide) (by decide)
  have e4 : List.lookup "alternatives" a.dumpFields = none := CapabilityAttributes.lookup_other_CapabilityAttributes a "alternatives" (by decide) (by decide) (by decide) (by decide) (by decide)
  simp [scoreOf, ArchitectureAttributes.keys, e0, e1, e2, e3, e4]

theorem ArchitectureAttributes.parse_ArchitectureAttributes_dump_CapabilityAttributes (a : CapabilityAttributes) :
    ArchitectureAttributes.parseFields a.dumpFields = .ok ⟨none, none, none, none, none⟩ := by
  have e0 : List.lookup "architecture_type" a.dumpFields = none := CapabilityAttributes.lookup_other_CapabilityAttributes a "architecture_type" (by decide) (by decide) (by decide) (by decide) (by decide)
  have e1 : List.lookup "domain" a.dumpFields = none := CapabilityAttributes.lookup_other_CapabilityAttributes a "domain" (by decide) (by decide) (by decide) (by decide) (by decide)
  have e2 : List.lookup "maturity" a.dumpFields = none := CapabilityAttributes.lookup_other_CapabilityAttributes a "maturity" (by decide) (by decide) (by decide) (by decide) (by decide)
  have e3 : List.lookup "adoption_status" a.dumpFields = none := CapabilityAttributes.lookup_other_CapabilityAttributes a "adoption_status" (by decide) (by decide) (by decide) (by decide) (by decide)
  have e4 : List.lookup "alternatives" a.dumpFields = none := CapabilityAttributes.lookup_other_CapabilityAttributes a "alternatives" (by decide) (by decide) (by decide) (by decide) (by decide)
  exact ArchitectureAttributes.parse_absent_ArchitectureAttributes a.dumpFields e0 e1 e2 e3 e4

-- === EntityAttributes: the six-variant, non-discriminated attributes union ===

/-- The `EntityAttributes` union alias of the source: exactly one of six
record shapes, selected (at validation time) by pydantic smart-union matching,
not by `Entity.type`. -/
inductive EntityAttributes where
  | org (a : OrganizationAttributes)
  | system (a : SystemAttributes)
  | policy (a : PolicyAttributes)
  | fact (a : FactAttributes)
  | architecture (a : ArchitectureAttributes)
  | capability (a : CapabilityAttributes)

def EntityAttributes.dump : EntityAttributes → JValue
  | .org a => a.dump
  | .system a => a.dump
  | .policy a => a.dump
  | .fact a => a.dump
  | .architecture a => a.dump
  | .capability a => a.dump

def EntityAttributes.valid : EntityAttributes → Bool
  | .org a => a.valid
  | .system a => a.valid
  | .policy a => a.valid
  | .fact a => a.valid
  | .architecture a => a.valid
  | .capability a => a.valid

/-- pydantic's model_fields_set count for the serialized record. -/
def EntityAttributes.fieldsSet : EntityAttributes → Nat
  | .org a => a.fieldsSet
  | .system a => a.fieldsSet
  | .policy a => a.fieldsSet
  | .fact a => a.fieldsSet
  | .architecture a => a.fieldsSet
  | .capability a => a.fieldsSet

/-- One step of pydantic smart-union candidate selection over model members:
failures are skipped; among successes the most fields set wins and ties keep
the leftmost (pydantic-core's union validator, model choices). -/
def pickStep (best : Option (EntityAttributes × Nat)) (c : Except VErr EntityAttributes × Nat) :
    Option (EntityAttributes × Nat) :=
  match c with
  | (.error _, _) => best
  | (.ok a, n) =>
    match best with
    | none => some (a, n)
    | some (b, m) => if m < n then some (a, n) else some (b, m)

def pickBest (cands : List (Except VErr EntityAttributes × Nat)) : Except VErr EntityAttributes :=
  match cands.foldl pickStep none with
  | some (a, _) => .ok a
  | none => .error .unionNoMatch

/-- Smart-union validation of `attributes`: every member is attempted in
declaration order; each succeeding member is scored by its number of fields
set, and the best-scoring (leftmost on ties) is chosen. -/
def EntityAttributes.parseJ (v : JValue) : Except VErr EntityAttributes :=
  match v with
  | .obj kvs =>
    pickBest [
      ((OrganizationAttributes.parseFields kvs).map EntityAttributes.org,
        scoreOf OrganizationAttributes.keys kvs),
      ((SystemAttributes.parseFields kvs).map EntityAttributes.system,
        scoreOf SystemAttributes.keys kvs),
      ((PolicyAttributes.parseFields kvs).map EntityAttributes.policy,
        scoreOf PolicyAttributes.keys kvs),
      ((FactAttributes.parseFields kvs).map EntityAttributes.fact,
        scoreOf FactAttributes.keys kvs),
      ((ArchitectureAttributes.parseFields kvs).map EntityAttributes.architecture,
        scoreOf ArchitectureAttributes.keys kvs),
      ((CapabilityAttributes.parseFields kvs).map EntityAttributes.capability,
        scoreOf CapabilityAttributes.keys kvs)]
  | _ => .error (.wrongType "attributes")

theorem EntityAttributes.dump_not_null_attrs (x : EntityAttributes) : x.dump.isNull = false := by
  cases x <;> rfl

/-- A dumped attributes record with at least one field set re-validates to
itself: its own variant scores that count while every other variant scores 0
(the six field-name sets are pairwise disjoint). -/
theorem EntityAttributes.parse_dump_attrs (x : EntityAttributes) (hv : x.valid = true)
    (hs : 1 ≤ x.fieldsSet) : EntityAttributes.parseJ x.dump = .ok x := by
  cases x with
  | org a =>
    simp only [valid] at hv
    have hpos : 0 < scoreOf OrganizationAttributes.keys a.dumpFields := hs
    simp [dump, OrganizationAttributes.dump, parseJ, pickBest, pickStep, Except.map,
      OrganizationAttributes.parse_dump_OrganizationAttributes a hv,
      SystemAttributes.parse_SystemAttributes_dump_OrganizationAttributes a,
      PolicyAttributes.parse_PolicyAttributes_dump_OrganizationAttributes a,
      FactAttributes.parse_FactAttributes_dump_OrganizationAttributes a,
      ArchitectureAttributes.parse_ArchitectureAttributes_dump_OrganizationAttributes a,
      CapabilityAttributes.parse_CapabilityAttributes_dump_OrganizationAttributes a,
      SystemAttributes.score_SystemAttributes_dump_OrganizationAttributes a,
      PolicyAttributes.score_PolicyAttributes_dump_OrganizationAttributes a,
      FactAttributes.score_FactAttributes_dump_OrganizationAttributes a,
      ArchitectureAttributes.score_ArchitectureAttributes_dump_OrganizationAttributes a,
      CapabilityAttributes.score_CapabilityAttributes_dump_OrganizationAttributes a,
      Nat.not_lt_zero, hpos]
  | system a =>
    simp only [valid] at hv
    have hpos : 0 < scoreOf SystemAttributes.keys a.dumpFields := hs
    simp [dump, SystemAttributes.dump, parseJ, pickBest, pickStep, Except.map,
      SystemAttributes.parse_dump_SystemAttributes a hv,
      OrganizationAttributes.parse_OrganizationAttributes_dump_SystemAttributes a,
      PolicyAttributes.parse_PolicyAttributes_dump_SystemAttributes a,
      FactAttributes.parse_FactAttributes_dump_SystemAttributes a,
      ArchitectureAttributes.parse_ArchitectureAttributes_dump_SystemAttributes a,
      CapabilityAttributes.parse_CapabilityAttributes_dump_SystemAttributes a,
      OrganizationAttributes.score_OrganizationAttributes_dump_SystemAttributes a,
      PolicyAttributes.score_PolicyAttributes_dump_SystemAttributes a,
      FactAttributes.score_FactAttributes_dump_SystemAttributes a,
      ArchitectureAttributes.score_ArchitectureAttributes_dump_SystemAttributes a,
      CapabilityAttributes.score_CapabilityAttributes_dump_SystemAttributes a,
      Nat.not_lt_zero, hpos]
  | policy a =>
    simp only [valid] at hv
    have hpos : 0 < scoreOf PolicyAttributes.keys a.dumpFields := hs
    simp [dump, PolicyAttributes.dump, parseJ, pickBest, pickStep, Except.map,
      PolicyAttributes.parse_dump_PolicyAttributes a hv,
      OrganizationAttributes.parse_OrganizationAttributes_dump_PolicyAttributes a,
      SystemAttributes.parse_SystemAttributes_dump_PolicyAttributes a,
      FactAttributes.parse_FactAttributes_dump_PolicyAttributes a,
      ArchitectureAttributes.parse_ArchitectureAttributes_dump_PolicyAttributes a,
      CapabilityAttributes.parse_CapabilityAttributes_dump_PolicyAttributes a,
      OrganizationAttributes.score_OrganizationAttributes_dump_PolicyAttributes a,
      SystemAttributes.score_SystemAttributes_dump_PolicyAttributes a,
      FactAttributes.score_FactAttributes_dump_PolicyAttributes a,
      ArchitectureAttributes.score_ArchitectureAttributes_dump_PolicyAttributes a,
      CapabilityAttributes.score_CapabilityAttributes_dump_PolicyAttributes a,
      Nat.not_lt_zero, hpos]
  | fact a =>
    simp only [valid] at hv
    have hpos : 0 < scoreOf FactAttributes.keys a.dumpFields := hs
    simp [dump, FactAttributes.dump, parseJ, pickBest, pickStep, Except.map,
      FactAttributes.parse_dump_FactAttributes a hv,
      OrganizationAttributes.parse_OrganizationAttributes_dump_FactAttributes a,
      SystemAttributes.parse_SystemAttributes_dump_FactAttributes a,
      PolicyAttributes.parse_PolicyAttributes_dump_FactAttributes a,
      ArchitectureAttributes.parse_ArchitectureAttributes_dump_FactAttributes a,
      CapabilityAttributes.parse_CapabilityAttributes_dump_FactAttributes a,
      OrganizationAttributes.score_OrganizationAttributes_dump_FactAttributes a,
      SystemAttributes.score_SystemAttributes_dump_FactAttributes a,
      PolicyAttributes.score_PolicyAttributes_dump_FactAttributes a,
      ArchitectureAttributes.score_ArchitectureAttributes_dump_FactAttributes a,
      CapabilityAttributes.score_CapabilityAttributes_dump_FactAttributes a,
      Nat.not_lt_zero, hpos]
  | architecture a =>
    simp only [valid] at hv
    have hpos : 0 < scoreOf ArchitectureAttributes.keys a.dumpFields := hs
    simp [dump, ArchitectureAttributes.dump, parseJ, pickBest, pickStep, Except.map,
      ArchitectureAttributes.parse_dump_ArchitectureAttributes a hv,
      OrganizationAttributes.parse_OrganizationAttributes_dump_ArchitectureAttributes a,
      SystemAttributes.parse_SystemAttributes_dump_ArchitectureAttributes a,
      PolicyAttributes.parse_PolicyAttributes_dump_ArchitectureAttributes a,
      FactAttributes.parse_FactAttributes_dump_ArchitectureAttributes a,
      CapabilityAttributes.parse_CapabilityAttributes_dump_ArchitectureAttributes a,
      OrganizationAttributes.score_OrganizationAttributes_dump_ArchitectureAttributes a,
      SystemAttributes.score_SystemAttributes_dump_ArchitectureAttributes a,
      PolicyAttributes.score_PolicyAttributes_dump_ArchitectureAttributes a,
      FactAttributes.score_FactAttributes_dump_ArchitectureAttributes a,
      CapabilityAttributes.score_CapabilityAttributes_dump_ArchitectureAttributes a,
      Nat.not_lt_zero, hpos]
  | capability a =>
    simp only [valid] at hv
    have hpos : 0 < scoreOf CapabilityAttributes.keys a.dumpFields := hs
    simp [dump, CapabilityAttributes.dump, parseJ, pickBest, pickStep, Except.map,
      CapabilityAttributes.parse_dump_CapabilityAttributes a hv,
      OrganizationAttributes.parse_OrganizationAttributes_dump_CapabilityAttributes a,
      SystemAttributes.parse_SystemAttributes_dump_CapabilityAttributes a,
      PolicyAttributes.parse_PolicyAttributes_dump_CapabilityAttributes a,
      FactAttributes.parse_FactAttributes_dump_CapabilityAttributes a,
      ArchitectureAttributes.parse_ArchitectureAttributes_dump_CapabilityAttributes a,
      OrganizationAttributes.score_OrganizationAttributes_dump_CapabilityAttributes a,
      SystemAttributes.score_SystemAttributes_dump_CapabilityAttributes a,
      PolicyAttributes.score_PolicyAttributes_dump_CapabilityAttributes a,
      FactAttributes.score_FactAttributes_dump_CapabilityAttributes a,
      ArchitectureAttributes.score_ArchitectureAttributes_dump_CapabilityAttributes a,
      Nat.not_lt_zero, hpos]

-- === Entity: the single typed node of a CRF document ===

/-- Model `Entity` of the source, fields in declaration order. `id` is a UUID
carried as its canonical text, generated by `uuid4` when absent. -/
structure Entity where
  id : String
  type : EntityType
  name : String
  description : Option String
  attributes : Option EntityAttributes
  validity : Option Validity
  relationships : Option (List CRFRelationship)
  supersedes : Option Supersedes
  provenance : Option Provenance
  tags : Option (List String)

namespace Entity

def dumpFields (a : Entity) : List (String × JValue) :=
  oField "id" (some (JValue.str a.id)) ++
  (oField "type" (some (JValue.str (EntityType.tok a.type))) ++
  (oField "name" (some (JValue.str a.name)) ++
  (oField "description" (Option.map JValue.str a.description) ++
  (oField "attributes" (Option.map EntityAttributes.dump a.attributes) ++
  (oField "validity" (Option.map Validity.dump a.validity) ++
  (oField "relationships" (Option.map (fun xs => JValue.arr (List.map CRFRelationship.dump xs)) a.relationships) ++
  (oField "supersedes" (Option.map Supersedes.dump a.supersedes) ++
  (oField "provenance" (Option.map Provenance.dump a.provenance) ++
  oField "tags" (Option.map (fun xs => JValue.arr (List.map JValue.str xs)) a.tags)))))))))

def dump (a : Entity) : JValue := JValue.obj a.dumpFields

/-- Schema validation of an entity map, mirroring the pydantic model
(`id` defaults to a fresh uuid4 when absent). -/
def parseFields (env : GenEnv) (kvs : List (String × JValue)) : Except VErr Entity := do
  let id ← pDef (List.lookup "id" kvs) (freshUuid env.seed) asStr
  let type ← pReq "type" (List.lookup "type" kvs) (asEnum EntityType.parse)
  let name ← pReq "name" (List.lookup "name" kvs) (asStrLen "name" 1 (some 200))
  let description ← pOpt (List.lookup "description" kvs) asStr
  let attributes ← pOpt (List.lookup "attributes" kvs) EntityAttributes.parseJ
  let validity ← pOpt (List.lookup "validity" kvs) (asObj Validity.parseFields)
  let relationships ← pOpt (List.lookup "relationships" kvs) (asArr (asObj CRFRelationship.parseFields))
  let supersedes ← pOpt (List.lookup "supersedes" kvs) (asObj Supersedes.parseFields)
  let provenance ← pOpt (List.lookup "provenance" kvs) (asObj (Provenance.parseFields env))
  let tags ← pOpt (List.lookup "tags" kvs) (asArr asStr)
  .ok ⟨id, type, name, description, attributes, validity, relationships, supersedes, provenance, tags⟩

def valid (a : Entity) : Bool :=
  strLenOk 1 (some 200) a.name &&
  (Option.all EntityAttributes.valid a.attributes &&
  (Option.all Validity.valid a.validity &&
  (Option.all (fun xs => List.all xs CRFRelationship.valid) a.relationships &&
  (Option.all Supersedes.valid a.supersedes &&
  Option.all Provenance.valid a.provenance))))

/-- Whether the attributes record, when present, has at least one field set
(the condition under which the smart union re-selects the same variant). -/
def attrsTagged (a : Entity) : Bool :=
  Option.all (fun x => decide (1 ≤ EntityAttributes.fieldsSet x)) a.attributes

theorem lookup_entity_id (a : Entity) :
    List.lookup "id" a.dumpFields = some (JValue.str a.id) := by
  simp [dumpFields, lookup_oField_cons, lookup_oField]

theorem lookup_entity_type (a : Entity) :
    List.lookup "type" a.dumpFields = some (JValue.str (EntityType.tok a.type)) := by
  simp [dumpFields, lookup_oField_cons, lookup_oField]

theorem lookup_entity_name (a : Entity) :
    List.lookup "name" a.dumpFields = some (JValue.str a.name) := by
  simp [dumpFields, lookup_oField_cons, lookup_oField]

theorem lookup_entity_description (a : Entity) :
    List.lookup "description" a.dumpFields = Option.map JValue.str a.description := by
  simp [dumpFields, lookup_oField_cons, lookup_oField]

theorem lookup_entity_attributes (a : Entity) :
    List.lookup "attributes" a.dumpFields = Option.map EntityAttributes.dump a.attributes := by
  simp [dumpFields, lookup_oField_cons, lookup_oField]

theorem lookup_entity_validity (a : Entity) :
    List.lookup "validity" a.dumpFields = Option.map Validity.dump a.validity := by
  simp [dumpFields, lookup_oField_cons, lookup_oField]

theorem lookup_entity_relationships (a : Entity) :
    List.lookup "relationships" a.dumpFields =
      Option.map (fun xs => JValue.arr (List.map CRFRelationship.dump xs)) a.relationships := by
  simp [dumpFields, lookup_oField_cons, lookup_oField]

theorem lookup_entity_supersedes (a : Entity) :
    List.lookup "supersedes" a.dumpFields = Option.map Supersedes.dump a.supersedes := by
  simp [dumpFields, lookup_oField_cons, lookup_oField]

theorem lookup_entity_provenance (a : Entity) :
    List.lookup "provenance" a.dumpFields = Option.map Provenance.dump a.provenance := by
  simp [dumpFields, lookup_oField_cons, lookup_oField]

theorem lookup_entity_tags (a : Entity) :
    List.lookup "tags" a.dumpFields =
      Option.map (fun xs => JValue.arr (List.map JValue.str xs)) a.tags := by
  simp [dumpFields, lookup_oField_cons, lookup_oField]

theorem parse_dump_entity (env : GenEnv) (a : Entity) (h : valid a = true)
    (hA : attrsTagged a = true) : parseFields env a.dumpFields = .ok a := by
  simp only [valid, Bool.and_eq_true] at h
  obtain ⟨hname, hattrs, hvalidity, hrels, hsup, hprov⟩ := h
  simp only [attrsTagged] at hA
  simp only [parseFields, lookup_entity_id, lookup_entity_type, lookup_entity_name,
    lookup_entity_description, lookup_entity_attributes, lookup_entity_validity,
    lookup_entity_relationships, lookup_entity_supersedes, lookup_entity_provenance,
    lookup_entity_tags,
    pOpt_map asStr JValue.str a.description (fun x hx => rfl) (fun x => rfl),
    pOpt_map EntityAttributes.parseJ EntityAttributes.dump a.attributes
      (fun x hx => EntityAttributes.parse_dump_attrs x (optAll hattrs hx)
        (of_decide_eq_true (optAll hA hx)))
      (fun x => EntityAttributes.dump_not_null_attrs x),
    pOpt_map (asObj Validity.parseFields) Validity.dump a.validity
      (fun x hx => by
        simp only [Validity.dump, asObj]
        exact Validity.parse_dump_Validity x (optAll hvalidity hx)) (fun x => rfl),
    pOpt_map (asArr (asObj CRFRelationship.parseFields))
      (fun xs => JValue.arr (List.map CRFRelationship.dump xs)) a.relationships
      (fun xs hx => by
        simp only [asArr]
        exact exList_ok _ _ xs (fun x hxm => by
          simp only [CRFRelationship.dump, asObj]
          exact CRFRelationship.parse_dump_CRFRelationship x (allMem _ _ (optAll hrels hx) x hxm)))
      (fun xs => rfl),
    pOpt_map (asObj Supersedes.parseFields) Supersedes.dump a.supersedes
      (fun x hx => by
        simp only [Supersedes.dump, asObj]
        exact Supersedes.parse_dump_Supersedes x (optAll hsup hx)) (fun x => rfl),
    pOpt_map (asObj (Provenance.parseFields env)) Provenance.dump a.provenance
      (fun x hx => by
        simp only [Provenance.dump, asObj]
        exact Provenance.parse_dump_Provenance env x (optAll hprov hx)) (fun x => rfl),
    pOpt_map (asArr asStr) (fun xs => JValue.arr (List.map JValue.str xs)) a.tags
      (fun xs hx => by
        simp only [asArr]
        exact exList_ok _ _ xs (fun x hxm => rfl)) (fun xs => rfl),
    asEnum_tok EntityType_parse_tok, asStrLen_ok hname,
    pReq, pDef, asStr, bind, Except.bind]

/-- The validating construction of an Entity (pydantic `Entity(...)`):
only the declared constraints are checked (`name` length 1..200). -/
def mk? (id : String) (type : EntityType) (name : String) (description : Option String)
    (attributes : Option EntityAttributes) (validity : Option Validity)
    (relationships : Option (List CRFRelationship)) (supersedes : Option Supersedes)
    (provenance : Option Provenance) (tags : Option (List String)) : Except VErr Entity :=
  if strLenOk 1 (some 200) name then
    .ok ⟨id, type, name, description, attributes, validity, relationships, supersedes,
      provenance, tags⟩
  else .error (.outOfRange "name")

-- === Entity builder methods ===

/-- `add_relationship`: coerce a raw token first (an invalid token fails before
any state is touched), then append an edge, creating the list if absent.
The error branch carries the document state at the time of the raise. -/
def add_relationship (a : Entity) (target_id : String)
    (rel_type : RelationshipType ⊕ String) (description : Option String) :
    Except (VErr × Entity) Entity :=
  match coerceEnum RelationshipType.parse rel_type with
  | .error e => .error (e, a)
  | .ok t =>
    .ok { a with
      relationships := some ((a.relationships.getD []) ++ [⟨target_id, t, description⟩]) }

/-- `set_validity`: replace the validity sub-record wholesale. -/
def set_validity (a : Entity) (valid_from valid_until : Option String) : Entity :=
  { a with validity := some ⟨valid_from, valid_until⟩ }

/-- `supersede`: set the supersedes sub-record, stamping the current time. -/
def supersede (a : Entity) (now : String) (previous_entity_id : String)
    (reason : Option String) : Entity :=
  { a with supersedes := some ⟨previous_entity_id, reason, some now⟩ }

end Entity

-- === ContextDocument: the CRF serialization root ===

/-- Root model `ContextDocument`: a format-version tag and one entity, with
`extra="allow"`: unrecognized top-level keys are kept in `extra` and re-emitted. -/
structure ContextDocument where
  crf_version : String
  entity : Entity
  extra : List (String × JValue)

namespace ContextDocument

def knownKeys : List String := ["crf_version", "entity"]

/-- `exclude_none` also drops extra keys whose value is None. -/
def extraDump (xs : List (String × JValue)) : List (String × JValue) :=
  List.filter (fun p => !p.2.isNull) xs

def dumpFields (d : ContextDocument) : List (String × JValue) :=
  oField "crf_version" (some (JValue.str d.crf_version)) ++
  (oField "entity" (some (Entity.dump d.entity)) ++
  extraDump d.extra)

/-- `model_dump(mode="json", exclude_none=True)`: the tree both `to_json` and
`to_yaml` serialize. -/
def dump (d : ContextDocument) : JValue := JValue.obj d.dumpFields

def parseFields (env : GenEnv) (kvs : List (String × JValue)) : Except VErr ContextDocument := do
  let crf_version ← pDef (List.lookup "crf_version" kvs) "0.1.0" asStr
  let entity ← pReq "entity" (List.lookup "entity" kvs) (asObj (Entity.parseFields env))
  .ok ⟨crf_version, entity, List.filter (fun p => !(knownKeys.contains p.1)) kvs⟩

/-- `model_validate` of a parsed tree: the top level must be a dict; known
keys validate by schema, unknown keys are preserved (extra="allow"). -/
def parseJ (env : GenEnv) (v : JValue) : Except VErr ContextDocument :=
  match v with
  | .obj kvs => parseFields env kvs
  | _ => .error (.wrongType "document")

def valid (d : ContextDocument) : Bool :=
  Entity.valid d.entity &&
  List.all d.extra (fun p => !(knownKeys.contains p.1) && !p.2.isNull)

def attrsTagged (d : ContextDocument) : Bool := Entity.attrsTagged d.entity

/-- `to_json`: the structural encoding. The textual JSON codec is a faithful
transport of this tree (json.dumps/json.loads). -/
def to_json (d : ContextDocument) : JValue := d.dump

/-- `from_json`: structural decoding plus full schema validation. -/
def from_json (env : GenEnv) (v : JValue) : Except VErr ContextDocument := parseJ env v

/-- `to_yaml`: the block encoding serializes the same
`model_dump(mode="json", exclude_none=True)` tree through the YAML codec. -/
def to_yaml (d : ContextDocument) : JValue := d.dump

/-- `from_yaml`: block decoding plus full schema validation. -/
def from_yaml (env : GenEnv) (v : JValue) : Except VErr ContextDocument := parseJ env v

theorem extraDump_id_cd (d : ContextDocument) (h : valid d = true) : extraDump d.extra = d.extra := by
  simp only [valid, Bool.and_eq_true] at h
  apply List.filter_eq_self.mpr
  intro p hp
  have h2 := allMem _ _ h.2 p hp
  simp only [Bool.and_eq_true] at h2
  exact h2.2

theorem extra_keys_unknown_cd (d : ContextDocument) (h : valid d = true) :
    ∀ k : String, knownKeys.contains k = true →
      ∀ pr ∈ extraDump d.extra, (k == pr.1) = false := by
  simp only [valid, Bool.and_eq_true] at h
  intro k hk pr hpr
  have hmem : pr ∈ d.extra := List.mem_of_mem_filter hpr
  have h2 := allMem _ _ h.2 pr hmem
  simp only [Bool.and_eq_true, Bool.not_eq_true'] at h2
  cases hbe : (k == pr.1) with
  | false => rfl
  | true =>
    have hk2 : k = pr.1 := eq_of_beq hbe
    rw [hk2] at hk
    rw [hk] at h2
    cases h2.1

theorem lookup_cd_crf_version (d : ContextDocument) (h : valid d = true) :
    List.lookup "crf_version" d.dumpFields = some (JValue.str d.crf_version) := by
  have hn : List.lookup "crf_version" (extraDump d.extra) = none :=
    lookup_none_of_all (extra_keys_unknown_cd d h "crf_version" (by decide))
  simp [dumpFields, lookup_oField_cons, hn]

theorem lookup_cd_entity (d : ContextDocument) (h : valid d = true) :
    List.lookup "entity" d.dumpFields = some (Entity.dump d.entity) := by
  have hn : List.lookup "entity" (extraDump d.extra) = none :=
    lookup_none_of_all (extra_keys_unknown_cd d h "entity" (by decide))
  simp [dumpFields, lookup_oField_cons, hn]

theorem filter_dump_extra_cd (d : ContextDocument) (h : valid d = true) :
    List.filter (fun p => !(knownKeys.contains p.1)) d.dumpFields = d.extra := by
  have h' := h
  simp only [valid, Bool.and_eq_true] at h'
  simp only [dumpFields, List.filter_append, oField]
  rw [show List.filter (fun p => !(knownKeys.contains p.1))
        [("crf_version", JValue.str d.crf_version)] = [] from by simp [knownKeys],
      show List.filter (fun p => !(knownKeys.contains p.1))
        [("entity", Entity.dump d.entity)] = [] from by simp [knownKeys],
      extraDump_id_cd d h]
  simp only [List.nil_append]
  apply List.filter_eq_self.mpr
  intro p hp
  have h2 := allMem _ _ h'.2 p hp
  simp only [Bool.and_eq_true] at h2
  exact h2.1

theorem parse_dump_cd (env : GenEnv) (d : ContextDocument) (h : valid d = true)
    (hA : attrsTagged d = true) : parseFields env d.dumpFields = .ok d := by
  have hE : Entity.parseFields env (Entity.dumpFields d.entity) = .ok d.entity := by
    have h' := h
    simp only [valid, Bool.and_eq_true] at h'
    exact Entity.parse_dump_entity env d.entity h'.1 hA
  simp only [parseFields, lookup_cd_crf_version d h, lookup_cd_entity d h,
    filter_dump_extra_cd d h, Entity.dump, asObj, hE, pReq, pDef, asStr, bind, Except.bind]

/-- Round trip of a serialized document through `model_validate`. -/
theorem parseJ_dump_cd (env : GenEnv) (d : ContextDocument) (h : valid d = true)
    (hA : attrsTagged d = true) : parseJ env d.dump = .ok d := by
  simp only [dump, parseJ, parse_dump_cd env d h hA]

-- === ContextDocument factory methods ===

/-- `create_organization`: build an organization entity from the given
attribute kwargs (validated as `OrganizationAttributes(**attributes)`), with a
fresh uuid4 identifier and `Provenance(source="manual")` stamped now. -/
def create_organization (g : Nat) (now : String) (name : String)
    (description : Option String) (attrs : Option OrganizationAttributes) :
    Except VErr ContextDocument := do
  let attributes ← match attrs with
    | none => pure none
    | some a =>
      if OrganizationAttributes.valid a then pure (some (EntityAttributes.org a))
      else .error (.outOfRange "headcount")
  let en ← Entity.mk? (freshUuid g) .organization name description attributes
    none none none (some ⟨"manual", now, none, none, none⟩) none
  .ok ⟨"0.1.0", en, []⟩

/-- `create_fact`: coerce the fact_type token first (an invalid token fails
before anything is built), then build a fact entity holding the value. -/
def create_fact (g : Nat) (now : String) (name : String) (value : FactValue)
    (fact_type : FactType ⊕ String) (description : Option String) :
    Except VErr ContextDocument := do
  let ft ← coerceEnum FactType.parse fact_type
  let en ← Entity.mk? (freshUuid g) .fact name description
    (some (.fact ⟨some ft, some value, none, none, none, none, none⟩))
    none none none (some ⟨"manual", now, none, none, none⟩) none
  .ok ⟨"0.1.0", en, []⟩

end ContextDocument

-- === Validating constructors (pydantic `Model(...)` calls made by builders) ===

/-- `CognitiveState(phase=…, confidence=…)`: construction validates the
declared `confidence` bounds (0..100 inclusive). -/
def CognitiveState.mk? (phase : CognitivePhase) (confidence : Int)
    (phase_notes : Option String) : Except VErr CognitiveState :=
  if inRange (some 0) (some 100) confidence then .ok ⟨phase, confidence, phase_notes⟩
  else .error (.outOfRange "confidence")

/-- `Assumption(description=…, validated=…, confidence=…)`: construction
validates the optional `confidence` bounds (0..100 inclusive). -/
def Assumption.mk? (description : String) (validated : Bool) (confidence : Option Int)
    (source : Option String) : Except VErr Assumption :=
  if Option.all (fun n => inRange (some 0) (some 100) n) confidence then
    .ok ⟨description, validated, confidence, source⟩
  else .error (.outOfRange "confidence")

/-- `DecisionIdentity(title=…, intent=…, …)`: construction validates the
title length (1..200) and that intent is non-empty. -/
def DecisionIdentity.mk? (id : String) (title : String) (domain : Option String)
    (intent : String) (related_decisions : Option (List RelatedDecision)) :
    Except VErr DecisionIdentity :=
  if strLenOk 1 (some 200) title then
    if strLenOk 1 none intent then .ok ⟨id, title, domain, intent, related_decisions⟩
    else .error (.outOfRange "intent")
  else .error (.outOfRange "title")

/-- `OrganizationAttributes(**attributes)`: construction validates the
optional `headcount` bound (≥ 1). -/
def OrganizationAttributes.mk? (org_type : Option OrgType) (size : Option OrgSize)
    (headcount : Option Int) (location : Option String) (industry : Option String)
    (compliance_frameworks : Option (List String)) : Except VErr OrganizationAttributes :=
  if Option.all (fun n => inRange (some 1) none n) headcount then
    .ok ⟨org_type, size, headcount, location, industry, compliance_frameworks⟩
  else .error (.outOfRange "headcount")

-- === DecisionDocument: the DRF serialization root ===

/-- Root model `DecisionDocument`, fields in declaration order, with
`extra="allow"`: unrecognized top-level keys are kept in `extra` and re-emitted. -/
structure DecisionDocument where
  drf_version : String
  decision : DecisionIdentity
  context : Context
  cognitive_state : CognitiveState
  reasoning : Option Reasoning
  interventions : Option (List Intervention)
  assumptions : Option (List Assumption)
  unresolved_tensions : Option (List Tension)
  synthesis : Synthesis
  context_validation : Option ContextValidation
  meta : Meta
  extra : List (String × JValue)

namespace DecisionDocument

def knownKeys : List String :=
  ["drf_version", "decision", "context", "cognitive_state", "reasoning", "interventions",
   "assumptions", "unresolved_tensions", "synthesis", "context_validation", "meta"]

/-- `exclude_none` also drops extra keys whose value is None. -/
def extraDump (xs : List (String × JValue)) : List (String × JValue) :=
  List.filter (fun p => !p.2.isNull) xs

def dumpFields (d : DecisionDocument) : List (String × JValue) :=
  oField "drf_version" (some (JValue.str d.drf_version)) ++
  (oField "decision" (some (DecisionIdentity.dump d.decision)) ++
  (oField "context" (some (Context.dump d.context)) ++
  (oField "cognitive_state" (some (CognitiveState.dump d.cognitive_state)) ++
  (oField "reasoning" (Option.map Reasoning.dump d.reasoning) ++
  (oField "interventions" (Option.map (fun xs => JValue.arr (List.map Intervention.dump xs)) d.interventions) ++
  (oField "assumptions" (Option.map (fun xs => JValue.arr (List.map Assumption.dump xs)) d.assumptions) ++
  (oField "unresolved_tensions" (Option.map (fun xs => JValue.arr (List.map Tension.dump xs)) d.unresolved_tensions) ++
  (oField "synthesis" (some (Synthesis.dump d.synthesis)) ++
  (oField "context_validation" (Option.map ContextValidation.dump d.context_validation) ++
  (oField "meta" (some (Meta.dump d.meta)) ++
  extraDump d.extra))))))))))

/-- `model_dump(mode="json", exclude_none=True)`: the tree both `to_json` and
`to_yaml` serialize. -/
def dump (d : DecisionDocument) : JValue := JValue.obj d.dumpFields

def parseFields (env : GenEnv) (kvs : List (String × JValue)) : Except VErr DecisionDocument := do
  let drf_version ← pDef (List.lookup "drf_version" kvs) "0.1.0" asStr
  let decision ← pReq "decision" (List.lookup "decision" kvs) (asObj (DecisionIdentity.parseFields env))
  let context ← pReq "context" (List.lookup "context" kvs) (asObj Context.parseFields)
  let cognitive_state ← pReq "cognitive_state" (List.lookup "cognitive_state" kvs) (asObj CognitiveState.parseFields)
  let reasoning ← pOpt (List.lookup "reasoning" kvs) (asObj Reasoning.parseFields)
  let interventions ← pOpt (List.lookup "interventions" kvs) (asArr (asObj Intervention.parseFields))
  let assumptions ← pOpt (List.lookup "assumptions" kvs) (asArr (asObj Assumption.parseFields))
  let unresolved_tensions ← pOpt (List.lookup "unresolved_tensions" kvs) (asArr (asObj Tension.parseFields))
  let synthesis ← pReq "synthesis" (List.lookup "synthesis" kvs) (asObj Synthesis.parseFields)
  let context_validation ← pOpt (List.lookup "context_validation" kvs) (asObj ContextValidation.parseFields)
  let meta ← pDef (List.lookup "meta" kvs)
    ({ created_at := env.now, updated_at := none, status := DecisionStatus.draft,
       actors := none, source := none, tags := none } : Meta)
    (asObj (Meta.parseFields env))
  .ok ⟨drf_version, decision, context, cognitive_state, reasoning, interventions,
    assumptions, unresolved_tensions, synthesis, context_validation, meta,
    List.filter (fun p => !(knownKeys.contains p.1)) kvs⟩

/-- `model_validate` of a parsed tree: the top level must be a dict; known
keys validate by schema, unknown keys are preserved (extra="allow"). -/
def parseJ (env : GenEnv) (v : JValue) : Except VErr DecisionDocument :=
  match v with
  | .obj kvs => parseFields env kvs
  | _ => .error (.wrongType "document")

def valid (d : DecisionDocument) : Bool :=
  DecisionIdentity.valid d.decision &&
  (Context.valid d.context &&
  (CognitiveState.valid d.cognitive_state &&
  (Option.all Reasoning.valid d.reasoning &&
  (Option.all (fun xs => List.all xs Intervention.valid) d.interventions &&
  (Option.all (fun xs => List.all xs Assumption.valid) d.assumptions &&
  (Option.all (fun xs => List.all xs Tension.valid) d.unresolved_tensions &&
  (Synthesis.valid d.synthesis &&
  (Option.all ContextValidation.valid d.context_validation &&
  (Meta.valid d.meta &&
  List.all d.extra (fun p => !(knownKeys.contains p.1) && !p.2.isNull))))))))))

/-- `to_json`: the structural encoding. The textual JSON codec is a faithful
transport of this tree (json.dumps/json.loads). -/
def to_json (d : DecisionDocument) : JValue := d.dump

/-- `from_json`: structural decoding plus full schema validation. -/
def from_json (env : GenEnv) (v : JValue) : Except VErr DecisionDocument := parseJ env v

/-- `to_yaml`: the block encoding serializes the same
`model_dump(mode="json", exclude_none=True)` tree through the YAML codec. -/
def to_yaml (d : DecisionDocument) : JValue := d.dump

/-- `from_yaml`: block decoding plus full schema validation. -/
def from_yaml (env : GenEnv) (v : JValue) : Except VErr DecisionDocument := parseJ env v

theorem extraDump_id_dd (d : DecisionDocument) (h : valid d = true) :
    extraDump d.extra = d.extra := by
  simp only [valid, Bool.and_eq_true] at h
  apply List.filter_eq_self.mpr
  intro p hp
  have h2 := allMem _ _ h.2.2.2.2.2.2.2.2.2.2 p hp
  simp only [Bool.and_eq_true] at h2
  exact h2.2

theorem extra_keys_unknown_dd (d : DecisionDocument) (h : valid d = true) :
    ∀ k : String, knownKeys.contains k = true →
      ∀ pr ∈ extraDump d.extra, (k == pr.1) = false := by
  simp only [valid, Bool.and_eq_true] at h
  intro k hk pr hpr
  have hmem : pr ∈ d.extra := List.mem_of_mem_filter hpr
  have h2 := allMem _ _ h.2.2.2.2.2.2.2.2.2.2 pr hmem
  simp only [Bool.and_eq_true, Bool.not_eq_true'] at h2
  cases hbe : (k == pr.1) with
  | false => rfl
  | true =>
    have hk2 : k = pr.1 := eq_of_beq hbe
    rw [hk2] at hk
    rw [hk] at h2
    cases h2.1

theorem lookup_dd_drf_version (d : DecisionDocument) (h : valid d = true) :
    List.lookup "drf_version" d.dumpFields = some (JValue.str d.drf_version) := by
  have hn : List.lookup "drf_version" (extraDump d.extra) = none :=
    lookup_none_of_all (extra_keys_unknown_dd d h "drf_version" (by decide))
  simp [dumpFields, lookup_oField_cons, hn]

theorem lookup_dd_decision (d : DecisionDocument) (h : valid d = true) :
    List.lookup "decision" d.dumpFields = some (DecisionIdentity.dump d.decision) := by
  have hn : List.lookup "decision" (extraDump d.extra) = none :=
    lookup_none_of_all (extra_keys_unknown_dd d h "decision" (by decide))
  simp [dumpFields, lookup_oField_cons, hn]

theorem lookup_dd_context (d : DecisionDocument) (h : valid d = true) :
    List.lookup "context" d.dumpFields = some (Context.dump d.context) := by
  have hn : List.lookup "context" (extraDump d.extra) = none :=
    lookup_none_of_all (extra_keys_unknown_dd d h "context" (by decide))
  simp [dumpFields, lookup_oField_cons, hn]

theorem lookup_dd_cognitive_state (d : DecisionDocument) (h : valid d = true) :
    List.lookup "cognitive_state" d.dumpFields = some (CognitiveState.dump d.cognitive_state) := by
  have hn : List.lookup "cognitive_state" (extraDump d.extra) = none :=
    lookup_none_of_all (extra_keys_unknown_dd d h "cognitive_state" (by decide))
  simp [dumpFields, lookup_oField_cons, hn]

theorem lookup_dd_reasoning (d : DecisionDocument) (h : valid d = true) :
    List.lookup "reasoning" d.dumpFields = Option.map Reasoning.dump d.reasoning := by
  have hn : List.lookup "reasoning" (extraDump d.extra) = none :=
    lookup_none_of_all (extra_keys_unknown_dd d h "reasoning" (by decide))
  simp [dumpFields, lookup_oField_cons, hn]

theorem lookup_dd_interventions (d : DecisionDocument) (h : valid d = true) :
    List.lookup "interventions" d.dumpFields =
      Option.map (fun xs => JValue.arr (List.map Intervention.dump xs)) d.interventions := by
  have hn : List.lookup "interventions" (extraDump d.extra) = none :=
    lookup_none_of_all (extra_keys_unknown_dd d h "interventions" (by decide))
  simp [dumpFields, lookup_oField_cons, hn]

theorem lookup_dd_assumptions (d : DecisionDocument) (h : valid d = true) :
    List.lookup "assumptions" d.dumpFields =
      Option.map (fun xs => JValue.arr (List.map Assumption.dump xs)) d.assumptions := by
  have hn : List.lookup "assumptions" (extraDump d.extra) = none :=
    lookup_none_of_all (extra_keys_unknown_dd d h "assumptions" (by decide))
  simp [dumpFields, lookup_oField_cons, hn]

theorem lookup_dd_unresolved_tensions (d : DecisionDocument) (h : valid d = true) :
    List.lookup "unresolved_tensions" d.dumpFields =
      Option.map (fun xs => JValue.arr (List.map Tension.dump xs)) d.unresolved_tensions := by
  have hn : List.lookup "unresolved_tensions" (extraDump d.extra) = none :=
    lookup_none_of_all (extra_keys_unknown_dd d h "unresolved_tensions" (by decide))
  simp [dumpFields, lookup_oField_cons, hn]

theorem lookup_dd_synthesis (d : DecisionDocument) (h : valid d = true) :
    List.lookup "synthesis" d.dumpFields = some (Synthesis.dump d.synthesis) := by
  have hn : List.lookup "synthesis" (extraDump d.extra) = none :=
    lookup_none_of_all (extra_keys_unknown_dd d h "synthesis" (by decide))
  simp [dumpFields, lookup_oField_cons, hn]

theorem lookup_dd_context_validation (d : DecisionDocument) (h : valid d = true) :
    List.lookup "context_validation" d.dumpFields =
      Option.map ContextValidation.dump d.context_validation := by
  have hn : List.lookup "context_validation" (extraDump d.extra) = none :=
    lookup_none_of_all (extra_keys_unknown_dd d h "context_validation" (by decide))
  simp [dumpFields, lookup_oField_cons, hn]

theorem lookup_dd_meta (d : DecisionDocument) (h : valid d = true) :
    List.lookup "meta" d.dumpFields = some (Meta.dump d.meta) := by
  have hn : List.lookup "meta" (extraDump d.extra) = none :=
    lookup_none_of_all (extra_keys_unknown_dd d h "meta" (by decide))
  simp [dumpFields, lookup_oField_cons, hn]

theorem filter_dump_extra_dd (d : DecisionDocument) (h : valid d = true) :
    List.filter (fun p => !(knownKeys.contains p.1)) d.dumpFields = d.extra := by
  have h' := h
  simp only [valid, Bool.and_eq_true] at h'
  simp only [dumpFields, List.filter_append]
  rw [show List.filter (fun p => !(knownKeys.contains p.1))
        (oField "drf_version" (some (JValue.str d.drf_version))) = [] from by simp [oField, knownKeys]]
  rw [show List.filter (fun p => !(knownKeys.contains p.1))
        (oField "decision" (some (DecisionIdentity.dump d.decision))) = [] from by simp [oField, knownKeys]]
  rw [show List.filter (fun p => !(knownKeys.contains p.1))
        (oField "context" (some (Context.dump d.context))) = [] from by simp [oField, knownKeys]]
  rw [show List.filter (fun p => !(knownKeys.contains p.1))
        (oField "cognitive_state" (some (CognitiveState.dump d.cognitive_state))) = [] from by simp [oField, knownKeys]]
  rw [show List.filter (fun p => !(knownKeys.contains p.1))
        (oField "reasoning" (Option.map Reasoning.dump d.reasoning)) = [] from by
      cases d.reasoning <;> simp [oField, knownKeys]]
  rw [show List.filter (fun p => !(knownKeys.contains p.1))
        (oField "interventions" (Option.map (fun xs => JValue.arr (List.map Intervention.dump xs)) d.interventions)) = [] from by
      cases d.interventions <;> simp [oField, knownKeys]]
  rw [show List.filter (fun p => !(knownKeys.contains p.1))
        (oField "assumptions" (Option.map (fun xs => JValue.arr (List.map Assumption.dump xs)) d.assumptions)) = [] from by
      cases d.assumptions <;> simp [oField, knownKeys]]
  rw [show List.filter (fun p => !(knownKeys.contains p.1))
        (oField "unresolved_tensions" (Option.map (fun xs => JValue.arr (List.map Tension.dump xs)) d.unresolved_tensions)) = [] from by
      cases d.unresolved_tensions <;> simp [oField, knownKeys]]
  rw [show List.filter (fun p => !(knownKeys.contains p.1))
        (oField "synthesis" (some (Synthesis.dump d.synthesis))) = [] from by simp [oField, knownKeys]]
  rw [show List.filter (fun p => !(knownKeys.contains p.1))
        (oField "context_validation" (Option.map ContextValidation.dump d.context_validation)) = [] from by
      cases d.context_validation <;> simp [oField, knownKeys]]
  rw [show List.filter (fun p => !(knownKeys.contains p.1))
        (oField "meta" (some (Meta.dump d.meta))) = [] from by simp [oField, knownKeys]]
  rw [extraDump_id_dd d h]
  simp only [List.nil_append, oField]
  apply List.filter_eq_self.mpr
  intro p hp
  have h2 := allMem _ _ h'.2.2.2.2.2.2.2.2.2.2 p hp
  simp only [Bool.and_eq_true] at h2
  exact h2.1

theorem parse_dump_dd (env : GenEnv) (d : DecisionDocument) (h : valid d = true) :
    parseFields env d.dumpFields = .ok d := by
  have h' := h
  simp only [valid, Bool.and_eq_true] at h'
  obtain ⟨hdec, hctx, hcs, hreas, hint, hass, hten, hsyn, hcv, hmeta, hext⟩ := h'
  have hrdec : DecisionIdentity.parseFields env (DecisionIdentity.dumpFields d.decision) = .ok d.decision :=
    DecisionIdentity.parse_dump_DecisionIdentity env d.decision hdec
  have hrctx : Context.parseFields (Context.dumpFields d.context) = .ok d.context :=
    Context.parse_dump_Context d.context hctx
  have hrcs : CognitiveState.parseFields (CognitiveState.dumpFields d.cognitive_state) = .ok d.cognitive_state :=
    CognitiveState.parse_dump_CognitiveState d.cognitive_state hcs
  have hrsyn : Synthesis.parseFields (Synthesis.dumpFields d.synthesis) = .ok d.synthesis :=
    Synthesis.parse_dump_Synthesis d.synthesis hsyn
  have hrmeta : Meta.parseFields env (Meta.dumpFields d.meta) = .ok d.meta :=
    Meta.parse_dump_Meta env d.meta hmeta
  simp only [parseFields, lookup_dd_drf_version d h, lookup_dd_decision d h,
    lookup_dd_context d h, lookup_dd_cognitive_state d h, lookup_dd_reasoning d h,
    lookup_dd_interventions d h, lookup_dd_assumptions d h,
    lookup_dd_unresolved_tensions d h, lookup_dd_synthesis d h,
    lookup_dd_context_validation d h, lookup_dd_meta d h, filter_dump_extra_dd d h,
    pOpt_map (asObj Reasoning.parseFields) Reasoning.dump d.reasoning
      (fun x hx => by
        simp only [Reasoning.dump, asObj]
        exact Reasoning.parse_dump_Reasoning x (optAll hreas hx)) (fun x => rfl),
    pOpt_map (asArr (asObj Intervention.parseFields))
      (fun xs => JValue.arr (List.map Intervention.dump xs)) d.interventions
      (fun xs hx => by
        simp only [asArr]
        exact exList_ok _ _ xs (fun x hxm => by
          simp only [Intervention.dump, asObj]
          exact Intervention.parse_dump_Intervention x (allMem _ _ (optAll hint hx) x hxm)))
      (fun xs => rfl),
    pOpt_map (asArr (asObj Assumption.parseFields))
      (fun xs => JValue.arr (List.map Assumption.dump xs)) d.assumptions
      (fun xs hx => by
        simp only [asArr]
        exact exList_ok _ _ xs (fun x hxm => by
          simp only [Assumption.dump, asObj]
          exact Assumption.parse_dump_Assumption x (allMem _ _ (optAll hass hx) x hxm)))
      (fun xs => rfl),
    pOpt_map (asArr (asObj Tension.parseFields))
      (fun xs => JValue.arr (List.map Tension.dump xs)) d.unresolved_tensions
      (fun xs hx => by
        simp only [asArr]
        exact exList_ok _ _ xs (fun x hxm => by
          simp only [Tension.dump, asObj]
          exact Tension.parse_dump_Tension x (allMem _ _ (optAll hten hx) x hxm)))
      (fun xs => rfl),
    pOpt_map (asObj ContextValidation.parseFields) ContextValidation.dump d.context_validation
      (fun x hx => by
        simp only [ContextValidation.dump, asObj]
        exact ContextValidation.parse_dump_ContextValidation x (optAll hcv hx)) (fun x => rfl),
    DecisionIdentity.dump, Context.dump, CognitiveState.dump, Synthesis.dump, Meta.dump,
    asObj, hrdec, hrctx, hrcs, hrsyn, hrmeta, pReq, pDef, asStr, bind, Except.bind]

/-- Round trip of a serialized document through `model_validate`. -/
theorem parseJ_dump_dd (env : GenEnv) (d : DecisionDocument) (h : valid d = true) :
    parseJ env d.dump = .ok d := by
  simp only [dump, parseJ, parse_dump_dd env d h]

-- === DecisionDocument factory ===

/-- `create(title, intent, domain)`: a new document in the exploration phase
with confidence 0, empty synthesis, a fresh uuid4 identity and a fresh Meta
(status draft, created now). Fails when title/intent violate their bounds. -/
def create (g : Nat) (now : String) (title : String) (intent : String)
    (domain : Option String) : Except VErr DecisionDocument := do
  let di ← DecisionIdentity.mk? (freshUuid g) title domain intent none
  .ok ⟨"0.1.0", di, ⟨[], [], none⟩, ⟨.exploration, 0, none⟩, none, none, none, none,
    ⟨"", "", none, none⟩, none,
    ⟨now, none, .draft, none, none, none⟩, []⟩

-- === DecisionDocument builder methods ===

/-- `add_constraint`: append one constraint to the context. -/
def add_constraint (d : DecisionDocument) (description : String) (source : Option String)
    (negotiable : Bool) : DecisionDocument :=
  { d with
    context := { d.context with
      constraints := d.context.constraints ++ [⟨description, source, negotiable⟩] } }

/-- `add_objective`: append one objective to the context. -/
def add_objective (d : DecisionDocument) (description : String) (priority : Option Priority)
    (measurable : Bool) : DecisionDocument :=
  { d with
    context := { d.context with
      objectives := d.context.objectives ++ [⟨description, priority, measurable⟩] } }

/-- `set_phase`: coerce a raw phase token first (an invalid token fails before
any state is touched), then replace the cognitive state wholesale; constructing
the new `CognitiveState` validates the confidence bounds before the assignment.
The error branch carries the document state at the time of the raise. -/
def set_phase (d : DecisionDocument) (phase : CognitivePhase ⊕ String) (confidence : Int) :
    Except (VErr × DecisionDocument) DecisionDocument :=
  match coerceEnum CognitivePhase.parse phase with
  | .error e => .error (e, d)
  | .ok p =>
    match CognitiveState.mk? p confidence none with
    | .error e => .error (e, d)
    | .ok cs => .ok { d with cognitive_state := cs }

/-- `add_reasoning_pattern`: coerce a raw token first, then append, creating
the reasoning record and its list when absent. -/
def add_reasoning_pattern (d : DecisionDocument) (pattern : ReasoningPattern ⊕ String) :
    Except (VErr × DecisionDocument) DecisionDocument :=
  match coerceEnum ReasoningPattern.parse pattern with
  | .error e => .error (e, d)
  | .ok p =>
    let r := d.reasoning.getD ⟨some [], none⟩
    .ok { d with reasoning := some { r with patterns_applied := some ((r.patterns_applied.getD []) ++ [p]) } }

/-- `add_assumption`: the list is created before the new `Assumption` is
validated, so an out-of-range confidence raises after that first mutation;
the error branch carries the document state at the time of the raise. -/
def add_assumption (d : DecisionDocument) (description : String) (validated : Bool)
    (confidence : Option Int) : Except (VErr × DecisionDocument) DecisionDocument :=
  let d1 := { d with assumptions := some (d.assumptions.getD []) }
  match Assumption.mk? description validated confidence none with
  | .error e => .error (e, d1)
  | .ok a => .ok { d1 with assumptions := some ((d1.assumptions.getD []) ++ [a]) }

/-- `add_tension`: coerce a raw impact token first (an invalid token fails
before any state is touched), then append, creating the list if absent. -/
def add_tension (d : DecisionDocument) (description : String) (impact : Impact ⊕ String)
    (mitigation : Option String) : Except (VErr × DecisionDocument) DecisionDocument :=
  match coerceEnum Impact.parse impact with
  | .error e => .error (e, d)
  | .ok imp =>
    .ok { d with
      unresolved_tensions := some ((d.unresolved_tensions.getD []) ++ [⟨description, imp, mitigation, none⟩]) }

/-- `synthesize`: replace the synthesis with a fresh record built from only the
decision and rationale, then force the cognitive phase to decision. -/
def synthesize (d : DecisionDocument) (decision : String) (rationale : String) :
    DecisionDocument :=
  let d1 := { d with synthesis := ⟨decision, rationale, none, none⟩ }
  { d1 with cognitive_state := { d1.cognitive_state with phase := .decision } }

/-- `add_alternative`: append one rejected alternative, creating the list if absent. -/
def add_alternative (d : DecisionDocument) (decision : String) (rationale_against : String) :
    DecisionDocument :=
  { d with
    synthesis := { d.synthesis with
      alternatives := some ((d.synthesis.alternatives.getD []) ++ [⟨decision, rationale_against, none⟩]) } }

/-- `approve`: set status to approved, stamp updated_at with the current time,
then append an approver actor, creating the list if absent. -/
def approve (d : DecisionDocument) (now : String) (approver : String) : DecisionDocument :=
  let d1 := { d with meta := { d.meta with status := .approved } }
  let d2 := { d1 with meta := { d1.meta with updated_at := some now } }
  { d2 with
    meta := { d2.meta with
      actors := some ((d2.meta.actors.getD []) ++ [⟨approver, .approver, none⟩]) } }

end DecisionDocument

-- === Concrete documents used to instantiate the claims ===

/-- A fixed environment for the impure defaults (clock and uuid seed). -/
def env0 : GenEnv := ⟨"2024-01-01T00:00:00", 0⟩

/-- A concrete valid CRF document exercising every Entity field. -/
def sampleCD : ContextDocument :=
  ⟨"0.1.0",
   ⟨"00000000-0000-4000-8000-000000000011", .organization, "ACME Corp",
    some "A software company",
    some (.org ⟨some .company, some .medium, some 150, some "Berlin", some "Technology",
      some ["SOC2"]⟩),
    some ⟨some "2024-01-01T00:00:00", none⟩,
    some [⟨"00000000-0000-4000-8000-000000000012", .depends_on, some "desc"⟩],
    some ⟨"00000000-0000-4000-8000-000000000013", some "updated", some "2024-01-01T00:00:00"⟩,
    some ⟨"manual", "2024-01-01T00:00:00", some "alice", none, none⟩,
    some ["tag1", "tag2"]⟩,
   [("custom_key", JValue.str "kept")]⟩

/-- A concrete valid DRF document exercising every DecisionDocument field. -/
def sampleDD : DecisionDocument :=
  ⟨"0.1.0",
   ⟨"00000000-0000-4000-8000-000000000001", "Use PostgreSQL", some "architecture",
    "Select primary database",
    some [⟨"00000000-0000-4000-8000-000000000002", .depends_on, none⟩]⟩,
   ⟨[⟨"Must support ACID", some "regulatory", false⟩],
    [⟨"Handle 10K users", some .must_have, true⟩],
    some ⟨some "cloud", none, none⟩⟩,
   ⟨.analysis, 40, some "phase notes"⟩,
   some ⟨some [.comparative, .cost_benefit], some "notes"⟩,
   some [⟨"i1", .question, "What about cost?", none, some "2024-01-01T00:00:00",
     some "minor"⟩],
   some [⟨"Traffic stays low", true, some 75, none⟩],
   some [⟨"Scaling is complex", .medium, some "Use replicas", none⟩],
   ⟨"Adopt PostgreSQL", "Best balance", some [⟨"Review in Q4", some "alice",
     some "2024-12-01"⟩], some [⟨"MongoDB", "No ACID", none⟩]⟩,
   some ⟨some "2024-01-01T00:00:00",
     some [⟨"00000000-0000-4000-8000-000000000003", .system, some "API", .satisfied, none⟩],
     some [⟨.creates, .fact, none, some [("note", JValue.str "x")], none⟩]⟩,
   ⟨"2024-01-01T00:00:00", none, .draft, some [⟨"Alice", .author,
     some "alice@example.com"⟩], some "manual", some ["db"]⟩,
   [("custom_key", JValue.str "kept")]⟩

/-- The valid capability document whose attributes record has no field set. -/
def cdx : ContextDocument :=
  ⟨"0.1.0",
   ⟨"00000000-0000-4000-8000-000000000009", .capability, "Team Lean skills", none,
    some (.capability ⟨none, none, none, none, none⟩), none, none, none, none, none⟩,
   []⟩

-- === Identifier inversion helpers for the factories ===

theorem ContextDocument.create_org_id (g : Nat) (now nm : String) (ds : Option String)
    (oa : Option OrganizationAttributes) (cd : ContextDocument)
    (h : ContextDocument.create_organization g now nm ds oa = .ok cd) :
    cd.entity.id = freshUuid g := by
  unfold ContextDocument.create_organization Entity.mk? at h
  cases oa with
  | none =>
    simp only [bind, Except.bind, pure, Except.pure] at h
    split at h
    · cases h
    · rename_i v heq
      split at heq
      · cases Except.ok.inj heq
        rw [← Except.ok.inj h]
      · cases heq
  | some a =>
    simp only [bind, Except.bind, pure, Except.pure] at h
    split at h
    · split at h
      · cases h
      · rename_i v heq
        split at heq
        · cases Except.ok.inj heq
          rw [← Except.ok.inj h]
        · cases heq
    · cases h

theorem DecisionDocument.create_id (g : Nat) (now ti it : String) (dom : Option String)
    (dd : DecisionDocument) (h : DecisionDocument.create g now ti it dom = .ok dd) :
    dd.decision.id = freshUuid g := by
  unfold DecisionDocument.create DecisionIdentity.mk? at h
  simp only [bind, Except.bind] at h
  split at h
  · cases h
  · rename_i v heq
    split at heq
    · split at heq
      · cases Except.ok.inj heq
        rw [← Except.ok.inj h]
      · cases heq
    · cases heq

-- === C1 ===

/-- C1 (amended): for valid documents, decoding the encoding is the identity,
field-for-field, for both document families and both encodings — provided the
CRF attributes record, when present, has at least one field set. An all-absent
attributes record is re-selected by the smart union as the leftmost
(organization) variant instead, so the six-variant shape does not survive in
that single degenerate case (see the counterexample). -/
theorem c1_roundtrip (env : GenEnv) (cd : ContextDocument) (dd : DecisionDocument)
    (hc : cd.valid = true) (hA : cd.attrsTagged = true) (hd : dd.valid = true) :
    ContextDocument.from_json env (ContextDocument.to_json cd) = .ok cd ∧
    ContextDocument.from_yaml env (ContextDocument.to_yaml cd) = .ok cd ∧
    DecisionDocument.from_json env (DecisionDocument.to_json dd) = .ok dd ∧
    DecisionDocument.from_yaml env (DecisionDocument.to_yaml dd) = .ok dd := by
  refine ⟨?_, ?_, ?_, ?_⟩
  · exact ContextDocument.parseJ_dump_cd env cd hc hA
  · exact ContextDocument.parseJ_dump_cd env cd hc hA
  · exact DecisionDocument.parseJ_dump_dd env dd hd
  · exact DecisionDocument.parseJ_dump_dd env dd hd

theorem c1_roundtrip_witness :
    ContextDocument.from_json env0 (ContextDocument.to_json sampleCD) = .ok sampleCD ∧
    ContextDocument.from_yaml env0 (ContextDocument.to_yaml sampleCD) = .ok sampleCD ∧
    DecisionDocument.from_json env0 (DecisionDocument.to_json sampleDD) = .ok sampleDD ∧
    DecisionDocument.from_yaml env0 (DecisionDocument.to_yaml sampleDD) = .ok sampleDD :=
  c1_roundtrip env0 sampleCD sampleDD (by rfl) (by rfl) (by rfl)

/-- C1 counterexample: `cdx` is a valid document (every field of an attributes
record is optional), yet decoding its encoding yields an organization-shaped
attributes record, not the capability one it was built with: the six-variant
union shape does not survive the round trip for it. -/
theorem c1_counterexample :
    cdx.valid = true ∧
    ContextDocument.from_json env0 (ContextDocument.to_json cdx) ≠ .ok cdx := by
  refine ⟨by rfl, ?_⟩
  intro hEq
  have hcomp : ContextDocument.from_json env0 (ContextDocument.to_json cdx) =
      .ok ⟨"0.1.0",
        ⟨"00000000-0000-4000-8000-000000000009", .capability, "Team Lean skills", none,
         some (.org ⟨none, none, none, none, none, none⟩), none, none, none, none, none⟩,
        []⟩ := by rfl
  rw [hcomp] at hEq
  have h3 := Except.ok.inj hEq
  have h4 := congrArg (fun d => d.entity.attributes) h3
  simp only at h4
  have h5 := Option.some.inj h4
  exact EntityAttributes.noConfusion h5

-- === C2 ===

/-- C2: `synthesize(decision, rationale)` in any cognitive phase sets the
synthesis decision and rationale to the given strings and, as a cross-field
side effect, forces the cognitive phase to decision (the returned value is the
updated document; every other field is untouched). -/
theorem c2_synthesize (d : DecisionDocument) (dec rat : String) :
    (d.synthesize dec rat).synthesis.decision = dec ∧
    (d.synthesize dec rat).synthesis.rationale = rat ∧
    (d.synthesize dec rat).cognitive_state.phase = .decision ∧
    (d.synthesize dec rat).cognitive_state.confidence = d.cognitive_state.confidence ∧
    (d.synthesize dec rat).decision = d.decision ∧
    (d.synthesize dec rat).meta = d.meta :=
  ⟨rfl, rfl, rfl, rfl, rfl, rfl⟩

-- === C3 ===

/-- C3: `approve(name)` sets the status to approved, stamps updated_at with the
current time, and appends one approver actor with the given name (creating the
list if absent); approving twice appends two approver actors, it does not
deduplicate. -/
theorem c3_approve (d : DecisionDocument) (now now2 n1 n2 : String) :
    (d.approve now n1).meta.status = .approved ∧
    (d.approve now n1).meta.updated_at = some now ∧
    (d.approve now n1).meta.actors =
      some ((d.meta.actors.getD []) ++ [⟨n1, .approver, none⟩]) ∧
    ((d.approve now n1).approve now2 n2).meta.actors =
      some ((d.meta.actors.getD []) ++ [⟨n1, .approver, none⟩, ⟨n2, .approver, none⟩]) := by
  refine ⟨rfl, rfl, rfl, ?_⟩
  simp [DecisionDocument.approve]

-- === C4 ===

/-- C4: the declared numeric bounds are inclusive and enforced both at direct
construction and at deserialization: confidence −1 and 101 fail, 0 and 100
succeed, headcount 0 fails, and an unrecognized enum token fails, with
`ValidationError` in every failing case. -/
theorem c4_bounds :
    CognitiveState.mk? .exploration (-1) none = .error (.outOfRange "confidence") ∧
    CognitiveState.mk? .exploration 101 none = .error (.outOfRange "confidence") ∧
    CognitiveState.mk? .exploration 0 none = .ok ⟨.exploration, 0, none⟩ ∧
    CognitiveState.mk? .exploration 100 none = .ok ⟨.exploration, 100, none⟩ ∧
    Assumption.mk? "a" true (some (-1)) none = .error (.outOfRange "confidence") ∧
    Assumption.mk? "a" true (some 101) none = .error (.outOfRange "confidence") ∧
    Assumption.mk? "a" true (some 0) none = .ok ⟨"a", true, some 0, none⟩ ∧
    Assumption.mk? "a" true (some 100) none = .ok ⟨"a", true, some 100, none⟩ ∧
    OrganizationAttributes.mk? none none (some 0) none none none =
      .error (.outOfRange "headcount") ∧
    OrganizationAttributes.mk? none none (some 1) none none none =
      .ok ⟨none, none, some 1, none, none, none⟩ ∧
    CognitiveState.parseFields [("phase", .str "analysis"), ("confidence", .int (-1))] =
      .error (.outOfRange "confidence") ∧
    CognitiveState.parseFields [("phase", .str "analysis"), ("confidence", .int 101)] =
      .error (.outOfRange "confidence") ∧
    CognitiveState.parseFields [("phase", .str "analysis"), ("confidence", .int 0)] =
      .ok ⟨.analysis, 0, none⟩ ∧
    CognitiveState.parseFields [("phase", .str "analysis"), ("confidence", .int 100)] =
      .ok ⟨.analysis, 100, none⟩ ∧
    CognitiveState.parseFields [("phase", .str "bogus"), ("confidence", .int 50)] =
      .error (.invalidEnum "bogus") ∧
    OrganizationAttributes.parseFields [("headcount", .int 0)] =
      .error (.outOfRange "headcount") ∧
    OrganizationAttributes.parseFields [("org_type", .str "bogus")] =
      .error (.invalidEnum "bogus") :=
  ⟨rfl, rfl, rfl, rfl, rfl, rfl, rfl, rfl, rfl, rfl, rfl, rfl, rfl, rfl, rfl, rfl, rfl⟩

-- === C5 ===

/-- C5: a structural document carrying an unrecognized top-level key decodes
successfully for both document families, the result is the same document with
that key preserved in its extra fields, and serialization re-emits the key. -/
theorem c5_unknown_fields (env : GenEnv) (cd : ContextDocument) (dd : DecisionDocument)
    (k : String) (v : JValue)
    (hc : cd.valid = true) (hA : cd.attrsTagged = true) (hd : dd.valid = true)
    (hkc : ContextDocument.knownKeys.contains k = false)
    (hkd : DecisionDocument.knownKeys.contains k = false)
    (hv : v.isNull = false) :
    ContextDocument.from_json env
        (ContextDocument.to_json { cd with extra := cd.extra ++ [(k, v)] }) =
      .ok { cd with extra := cd.extra ++ [(k, v)] } ∧
    (k, v) ∈ ContextDocument.dumpFields { cd with extra := cd.extra ++ [(k, v)] } ∧
    DecisionDocument.from_json env
        (DecisionDocument.to_json { dd with extra := dd.extra ++ [(k, v)] }) =
      .ok { dd with extra := dd.extra ++ [(k, v)] } ∧
    (k, v) ∈ DecisionDocument.dumpFields { dd with extra := dd.extra ++ [(k, v)] } := by
  have hvc : ContextDocument.valid { cd with extra := cd.extra ++ [(k, v)] } = true := by
    simp only [ContextDocument.valid, Bool.and_eq_true] at hc ⊢
    refine ⟨hc.1, ?_⟩
    rw [List.all_append, hc.2]
    simp only [Bool.true_and, List.all_cons, List.all_nil, Bool.and_true, hkc, hv]
    rfl
  have hvd : DecisionDocument.valid { dd with extra := dd.extra ++ [(k, v)] } = true := by
    simp only [DecisionDocument.valid, Bool.and_eq_true] at hd ⊢
    refine ⟨hd.1, hd.2.1, hd.2.2.1, hd.2.2.2.1, hd.2.2.2.2.1, hd.2.2.2.2.2.1,
      hd.2.2.2.2.2.2.1, hd.2.2.2.2.2.2.2.1, hd.2.2.2.2.2.2.2.2.1,
      hd.2.2.2.2.2.2.2.2.2.1, ?_⟩
    rw [List.all_append, hd.2.2.2.2.2.2.2.2.2.2]
    simp only [Bool.true_and, List.all_cons, List.all_nil, Bool.and_true, hkd, hv]
    rfl
  refine ⟨ContextDocument.parseJ_dump_cd env _ hvc hA, ?_,
    DecisionDocument.parseJ_dump_dd env _ hvd, ?_⟩
  · simp [ContextDocument.dumpFields, ContextDocument.extraDump, List.filter_append, hv]
  · simp [DecisionDocument.dumpFields, DecisionDocument.extraDump, List.filter_append, hv]

theorem c5_unknown_fields_witness :
    ContextDocument.from_json env0
        (ContextDocument.to_json { sampleCD with
          extra := sampleCD.extra ++ [("future_key", JValue.str "later")] }) =
      .ok { sampleCD with extra := sampleCD.extra ++ [("future_key", JValue.str "later")] } ∧
    ("future_key", JValue.str "later") ∈ ContextDocument.dumpFields { sampleCD with
      extra := sampleCD.extra ++ [("future_key", JValue.str "later")] } ∧
    DecisionDocument.from_json env0
        (DecisionDocument.to_json { sampleDD with
          extra := sampleDD.extra ++ [("future_key", JValue.str "later")] }) =
      .ok { sampleDD with extra := sampleDD.extra ++ [("future_key", JValue.str "later")] } ∧
    ("future_key", JValue.str "later") ∈ DecisionDocument.dumpFields { sampleDD with
      extra := sampleDD.extra ++ [("future_key", JValue.str "later")] } :=
  c5_unknown_fields env0 sampleCD sampleDD "future_key" (JValue.str "later")
    (by rfl) (by rfl) (by rfl) (by rfl) (by rfl) (by rfl)

-- === C6 ===

/-- C6: constructions without an explicit identifier draw fresh identifiers
from the uuid4 supply, so two constructions (distinct draws) get different
identifiers; and no builder or mutation operation — on either the success or
the failure path — ever changes the document's identifier. -/
theorem c6_identifier (g g' : Nat) (hgg : g ≠ g') :
    (∀ now now' nm nm' ds ds' oa oa' cd cd',
      ContextDocument.create_organization g now nm ds oa = .ok cd →
      ContextDocument.create_organization g' now' nm' ds' oa' = .ok cd' →
      cd.entity.id ≠ cd'.entity.id) ∧
    (∀ now now' ti ti' it it' dom dom' dd dd',
      DecisionDocument.create g now ti it dom = .ok dd →
      DecisionDocument.create g' now' ti' it' dom' = .ok dd' →
      dd.decision.id ≠ dd'.decision.id) ∧
    (∀ (en : Entity) tgt rt dsc,
      (∀ en', Entity.add_relationship en tgt rt dsc = .ok en' → en'.id = en.id) ∧
      (∀ e en', Entity.add_relationship en tgt rt dsc = .error (e, en') → en'.id = en.id)) ∧
    (∀ (en : Entity) vf vu, (Entity.set_validity en vf vu).id = en.id) ∧
    (∀ (en : Entity) now pid r, (Entity.supersede en now pid r).id = en.id) ∧
    (∀ (d : DecisionDocument) ds src ng,
      (d.add_constraint ds src ng).decision.id = d.decision.id) ∧
    (∀ (d : DecisionDocument) ds pr ms,
      (d.add_objective ds pr ms).decision.id = d.decision.id) ∧
    (∀ (d : DecisionDocument) ph cf,
      (∀ d', d.set_phase ph cf = .ok d' → d'.decision.id = d.decision.id) ∧
      (∀ e d', d.set_phase ph cf = .error (e, d') → d'.decision.id = d.decision.id)) ∧
    (∀ (d : DecisionDocument) pt,
      (∀ d', d.add_reasoning_pattern pt = .ok d' → d'.decision.id = d.decision.id) ∧
      (∀ e d', d.add_reasoning_pattern pt = .error (e, d') → d'.decision.id = d.decision.id)) ∧
    (∀ (d : DecisionDocument) ds vl cf,
      (∀ d', d.add_assumption ds vl cf = .ok d' → d'.decision.id = d.decision.id) ∧
      (∀ e d', d.add_assumption ds vl cf = .error (e, d') → d'.decision.id = d.decision.id)) ∧
    (∀ (d : DecisionDocument) ds im mi,
      (∀ d', d.add_tension ds im mi = .ok d' → d'.decision.id = d.decision.id) ∧
      (∀ e d', d.add_tension ds im mi = .error (e, d') → d'.decision.id = d.decision.id)) ∧
    (∀ (d : DecisionDocument) dc rt, (d.synthesize dc rt).decision.id = d.decision.id) ∧
    (∀ (d : DecisionDocument) dc rt, (d.add_alternative dc rt).decision.id = d.decision.id) ∧
    (∀ (d : DecisionDocument) now ap, (d.approve now ap).decision.id = d.decision.id) := by
  refine ⟨?_, ?_, ?_, fun _ _ _ => rfl, fun _ _ _ _ => rfl, fun _ _ _ _ => rfl,
    fun _ _ _ _ => rfl, ?_, ?_, ?_, ?_, fun _ _ _ => rfl, fun _ _ _ => rfl,
    fun _ _ _ => rfl⟩
  · intro now now' nm nm' ds ds' oa oa' cd cd' h1 h2 hid
    rw [ContextDocument.create_org_id g now nm ds oa cd h1,
      ContextDocument.create_org_id g' now' nm' ds' oa' cd' h2] at hid
    exact hgg (freshUuid_inj hid)
  · intro now now' ti ti' it it' dom dom' dd dd' h1 h2 hid
    rw [DecisionDocument.create_id g now ti it dom dd h1,
      DecisionDocument.create_id g' now' ti' it' dom' dd' h2] at hid
    exact hgg (freshUuid_inj hid)
  · intro en tgt rt dsc
    constructor
    · intro en' h
      unfold Entity.add_relationship at h
      cases hc : coerceEnum RelationshipType.parse rt with
      | error e => simp only [hc] at h; cases h
      | ok t => simp only [hc] at h; rw [← Except.ok.inj h]
    · intro e en' h
      unfold Entity.add_relationship at h
      cases hc : coerceEnum RelationshipType.parse rt with
      | error e2 =>
        simp only [hc] at h
        have := Except.error.inj h
        rw [← (Prod.mk.injEq _ _ _ _).mp this |>.2]
      | ok t => simp only [hc] at h; cases h
  · intro d ph cf
    constructor
    · intro d' h
      unfold DecisionDocument.set_phase at h
      cases hc : coerceEnum CognitivePhase.parse ph with
      | error e => simp only [hc] at h; cases h
      | ok p =>
        simp only [hc] at h
        cases hm : CognitiveState.mk? p cf none with
        | error e => simp only [hm] at h; cases h
        | ok cs => simp only [hm] at h; rw [← Except.ok.inj h]
    · intro e d' h
      unfold DecisionDocument.set_phase at h
      cases hc : coerceEnum CognitivePhase.parse ph with
      | error e2 =>
        simp only [hc] at h
        rw [← (Prod.mk.injEq _ _ _ _).mp (Except.error.inj h) |>.2]
      | ok p =>
        simp only [hc] at h
        cases hm : CognitiveState.mk? p cf none with
        | error e2 =>
          simp only [hm] at h
          rw [← (Prod.mk.injEq _ _ _ _).mp (Except.error.inj h) |>.2]
        | ok cs => simp only [hm] at h; cases h
  · intro d pt
    constructor
    · intro d' h
      unfold DecisionDocument.add_reasoning_pattern at h
      cases hc : coerceEnum ReasoningPattern.parse pt with
      | error e => simp only [hc] at h; cases h
      | ok p => simp only [hc] at h; rw [← Except.ok.inj h]
    · intro e d' h
      unfold DecisionDocument.add_reasoning_pattern at h
      cases hc : coerceEnum ReasoningPattern.parse pt with
      | error e2 =>
        simp only [hc] at h
        rw [← (Prod.mk.injEq _ _ _ _).mp (Except.error.inj h) |>.2]
      | ok p => simp only [hc] at h; cases h
  · intro d ds vl cf
    constructor
    · intro d' h
      unfold DecisionDocument.add_assumption at h
      cases hm : Assumption.mk? ds vl cf none with
      | error e => simp only [hm] at h; cases h
      | ok a => simp only [hm] at h; rw [← Except.ok.inj h]
    · intro e d' h
      unfold DecisionDocument.add_assumption at h
      cases hm : Assumption.mk? ds vl cf none with
      | error e2 =>
        simp only [hm] at h
        rw [← (Prod.mk.injEq _ _ _ _).mp (Except.error.inj h) |>.2]
      | ok a => simp only [hm] at h; cases h
  · intro d ds im mi
    constructor
    · intro d' h
      unfold DecisionDocument.add_tension at h
      cases hc : coerceEnum Impact.parse im with
      | error e => simp only [hc] at h; cases h
      | ok p => simp only [hc] at h; rw [← Except.ok.inj h]
    · intro e d' h
      unfold DecisionDocument.add_tension at h
      cases hc : coerceEnum Impact.parse im with
      | error e2 =>
        simp only [hc] at h
        rw [← (Prod.mk.injEq _ _ _ _).mp (Except.error.inj h) |>.2]
      | ok p => simp only [hc] at h; cases h

theorem c6_identifier_witness :
    (∀ now now' nm nm' ds ds' oa oa' cd cd',
      ContextDocument.create_organization 0 now nm ds oa = .ok cd →
      ContextDocument.create_organization 1 now' nm' ds' oa' = .ok cd' →
      cd.entity.id ≠ cd'.entity.id) ∧
    (∀ now now' ti ti' it it' dom dom' dd dd',
      DecisionDocument.create 0 now ti it dom = .ok dd →
      DecisionDocument.create 1 now' ti' it' dom' = .ok dd' →
      dd.decision.id ≠ dd'.decision.id) ∧
    (∀ (en : Entity) tgt rt dsc,
      (∀ en', Entity.add_relationship en tgt rt dsc = .ok en' → en'.id = en.id) ∧
      (∀ e en', Entity.add_relationship en tgt rt dsc = .error (e, en') → en'.id = en.id)) ∧
    (∀ (en : Entity) vf vu, (Entity.set_validity en vf vu).id = en.id) ∧
    (∀ (en : Entity) now pid r, (Entity.supersede en now pid r).id = en.id) ∧
    (∀ (d : DecisionDocument) ds src ng,
      (d.add_constraint ds src ng).decision.id = d.decision.id) ∧
    (∀ (d : DecisionDocument) ds pr ms,
      (d.add_objective ds pr ms).decision.id = d.decision.id) ∧
    (∀ (d : DecisionDocument) ph cf,
      (∀ d', d.set_phase ph cf = .ok d' → d'.decision.id = d.decision.id) ∧
      (∀ e d', d.set_phase ph cf = .error (e, d') → d'.decision.id = d.decision.id)) ∧
    (∀ (d : DecisionDocument) pt,
      (∀ d', d.add_reasoning_pattern pt = .ok d' → d'.decision.id = d.decision.id) ∧
      (∀ e d', d.add_reasoning_pattern pt = .error (e, d') → d'.decision.id = d.decision.id)) ∧
    (∀ (d : DecisionDocument) ds vl cf,
      (∀ d', d.add_assumption ds vl cf = .ok d' → d'.decision.id = d.decision.id) ∧
      (∀ e d', d.add_assumption ds vl cf = .error (e, d') → d'.decision.id = d.decision.id)) ∧
    (∀ (d : DecisionDocument) ds im mi,
      (∀ d', d.add_tension ds im mi = .ok d' → d'.decision.id = d.decision.id) ∧
      (∀ e d', d.add_tension ds im mi = .error (e, d') → d'.decision.id = d.decision.id)) ∧
    (∀ (d : DecisionDocument) dc rt, (d.synthesize dc rt).decision.id = d.decision.id) ∧
    (∀ (d : DecisionDocument) dc rt, (d.add_alternative dc rt).decision.id = d.decision.id) ∧
    (∀ (d : DecisionDocument) now ap, (d.approve now ap).decision.id = d.decision.id) :=
  c6_identifier 0 1 (by decide)

-- === C7 ===

/-- C7: every builder that accepts an enum-or-raw-string argument converts the
raw token first and fails on an invalid token before touching any state: the
failing call returns the enum-conversion error together with the document
exactly as it was (no partial mutation), and `create_fact` builds nothing. -/
theorem c7_atomic_enum (s : String) (d : DecisionDocument) (en : Entity) (g : Nat)
    (now tgt ds nm : String) (dsc mi : Option String) (vl : FactValue) (c : Int)
    (h1 : CognitivePhase.parse s = none) (h2 : RelationshipType.parse s = none)
    (h3 : Impact.parse s = none) (h4 : ReasoningPattern.parse s = none)
    (h5 : FactType.parse s = none) :
    d.set_phase (.inr s) c = .error (.invalidEnum s, d) ∧
    d.add_reasoning_pattern (.inr s) = .error (.invalidEnum s, d) ∧
    d.add_tension ds (.inr s) mi = .error (.invalidEnum s, d) ∧
    en.add_relationship tgt (.inr s) dsc = .error (.invalidEnum s, en) ∧
    ContextDocument.create_fact g now nm vl (.inr s) dsc = .error (.invalidEnum s) := by
  refine ⟨?_, ?_, ?_, ?_, ?_⟩
  · simp [DecisionDocument.set_phase, coerceEnum, h1]
  · simp [DecisionDocument.add_reasoning_pattern, coerceEnum, h4]
  · simp [DecisionDocument.add_tension, coerceEnum, h3]
  · simp [Entity.add_relationship, coerceEnum, h2]
  · simp [ContextDocument.create_fact, coerceEnum, h5, bind, Except.bind]

theorem c7_atomic_enum_witness :
    sampleDD.set_phase (.inr "bogus") 50 = .error (.invalidEnum "bogus", sampleDD) ∧
    sampleDD.add_reasoning_pattern (.inr "bogus") = .error (.invalidEnum "bogus", sampleDD) ∧
    sampleDD.add_tension "t" (.inr "bogus") none = .error (.invalidEnum "bogus", sampleDD) ∧
    sampleCD.entity.add_relationship "t1" (.inr "bogus") none =
      .error (.invalidEnum "bogus", sampleCD.entity) ∧
    ContextDocument.create_fact 0 "2024-01-01T00:00:00" "Budget" (.i 5) (.inr "bogus") none =
      .error (.invalidEnum "bogus") :=
  c7_atomic_enum "bogus" sampleDD sampleCD.entity 0 "2024-01-01T00:00:00" "t1" "t" "Budget"
    none none (.i 5) 50 (by rfl) (by rfl) (by rfl) (by rfl) (by rfl)

-- === C8 ===

/-- C8 counterexample: `set_phase` with a perfectly valid phase member and
confidence 200 raises a ValidationError from a builder method — the
builder-level failure is not limited to enum coercion, contradicting
"no ValidationError is raised regardless of the other argument values". -/
theorem c8_counterexample :
    sampleDD.set_phase (.inl .analysis) 200 = .error (.outOfRange "confidence", sampleDD) :=
  rfl

/-- C8 (amended): builder methods raise ValidationError only while validating
their own arguments — either coercing a raw enum token, or constructing the
new sub-record from caller-supplied values (the bounded confidence arguments
of `set_phase` and `add_assumption`). A builder call whose enum arguments are
valid tokens and whose numeric arguments are within their declared bounds
raises no ValidationError; builders taking neither kind of argument are total. -/
theorem c8_builder_validation (d : DecisionDocument) (en : Entity) (p : CognitivePhase)
    (c : Int) (s : String) (p' : CognitivePhase) (ds tgt : String) (vl : Bool)
    (oc : Option Int) (im : Impact) (pt : ReasoningPattern) (rt : RelationshipType)
    (mi dsc : Option String)
    (hc : inRange (some 0) (some 100) c = true)
    (hoc : Option.all (fun n => inRange (some 0) (some 100) n) oc = true)
    (hs : CognitivePhase.parse s = some p') :
    (∃ d', d.set_phase (.inl p) c = .ok d') ∧
    (∃ d', d.set_phase (.inr s) c = .ok d') ∧
    (∃ d', d.add_assumption ds vl oc = .ok d') ∧
    (∃ d', d.add_tension ds (.inl im) mi = .ok d') ∧
    (∃ d', d.add_reasoning_pattern (.inl pt) = .ok d') ∧
    (∃ en', en.add_relationship tgt (.inl rt) dsc = .ok en') := by
  refine ⟨⟨{ d with cognitive_state := ⟨p, c, none⟩ }, ?_⟩,
    ⟨{ d with cognitive_state := ⟨p', c, none⟩ }, ?_⟩,
    ⟨{ d with assumptions := some ((d.assumptions.getD []) ++ [⟨ds, vl, oc, none⟩]) }, ?_⟩,
    ⟨{ d with
       unresolved_tensions := some ((d.unresolved_tensions.getD []) ++ [⟨ds, im, mi, none⟩]) }, ?_⟩,
    ⟨{ d with reasoning := some { (d.reasoning.getD ⟨some [], none⟩) with
       patterns_applied := some (((d.reasoning.getD ⟨some [], none⟩).patterns_applied.getD []) ++ [pt]) } }, ?_⟩,
    ⟨{ en with relationships := some ((en.relationships.getD []) ++ [⟨tgt, rt, dsc⟩]) }, ?_⟩⟩
  · simp [DecisionDocument.set_phase, coerceEnum, CognitiveState.mk?, hc]
  · simp [DecisionDocument.set_phase, coerceEnum, CognitiveState.mk?, hs, hc]
  · simp [DecisionDocument.add_assumption, Assumption.mk?, hoc]
  · simp [DecisionDocument.add_tension, coerceEnum]
  · simp [DecisionDocument.add_reasoning_pattern, coerceEnum]
  · simp [Entity.add_relationship, coerceEnum]

theorem c8_builder_validation_witness :
    (∃ d', sampleDD.set_phase (.inl .synthesis) 85 = .ok d') ∧
    (∃ d', sampleDD.set_phase (.inr "analysis") 85 = .ok d') ∧
    (∃ d', sampleDD.add_assumption "a" true (some 75) = .ok d') ∧
    (∃ d', sampleDD.add_tension "a" (.inl .medium) none = .ok d') ∧
    (∃ d', sampleDD.add_reasoning_pattern (.inl .comparative) = .ok d') ∧
    (∃ en', sampleCD.entity.add_relationship "t1" (.inl .depends_on) none = .ok en') :=
  c8_builder_validation sampleDD sampleCD.entity .synthesis 85 "analysis" .analysis "a" "t1"
    true (some 75) .medium .comparative .depends_on none none (by rfl) (by rfl) (by rfl)

-- === C9 ===

/-- C9: `synthesize` builds a fresh Synthesis from only the decision and the
rationale, so alternatives and follow-ups recorded before the call — by
`add_alternative` or already present — are discarded (both end up None). -/
theorem c9_synthesize_discards (d : DecisionDocument) (a ra dec rat : String) :
    ((d.add_alternative a ra).synthesize dec rat).synthesis.alternatives = none ∧
    ((d.add_alternative a ra).synthesize dec rat).synthesis.follow_ups = none ∧
    (d.synthesize dec rat).synthesis.alternatives = none ∧
    (d.synthesize dec rat).synthesis.follow_ups = none :=
  ⟨rfl, rfl, rfl, rfl⟩

-- === C10 ===

/-- C10: `set_phase` with a valid phase (member or token) and an out-of-range
confidence fails while constructing the new CognitiveState, before the
assignment: the error carries the document exactly as it was, so atomicity
holds for range failures as well as enum-coercion failures. -/
theorem c10_set_phase_range (d : DecisionDocument) (p : CognitivePhase) (s : String)
    (p' : CognitivePhase) (c : Int)
    (hs : CognitivePhase.parse s = some p')
    (hc : inRange (some 0) (some 100) c = false) :
    d.set_phase (.inl p) c = .error (.outOfRange "confidence", d) ∧
    d.set_phase (.inr s) c = .error (.outOfRange "confidence", d) := by
  constructor
  · simp [DecisionDocument.set_phase, coerceEnum, CognitiveState.mk?, hc]
  · simp [DecisionDocument.set_phase, coerceEnum, CognitiveState.mk?, hs, hc]

theorem c10_set_phase_range_witness :
    sampleDD.set_phase (.inl .analysis) 200 =
      .error (.outOfRange "confidence", sampleDD) ∧
    sampleDD.set_phase (.inr "analysis") 200 =
      .error (.outOfRange "confidence", sampleDD) :=
  c10_set_phase_range sampleDD .analysis "analysis" .analysis 200 (by rfl) (by rfl)
